import Mathlib

/-!
# MPU-9250 sensor driver (SensorTag, CC26x0/CC13x0)

A shallow embedding of `arch/platform/cc26x0-cc13x0/sensortag/mpu-9250-sensor.c`.

* The file-scope variables of the driver are the fields of `World`, together with
  what the driver does to its surroundings: the I2C traffic it issues (`trace`),
  the power pin, the pending callback timer and the notifications it posts.
* The I2C transport, the real-time clock and the bus-busy flag are not part of the
  driver.  They are an `Env`: a stream of answers, the k-th answer being given to
  the k-th question the driver asks.  Every statement quantifies over `Env`.
* Machine integers are `Nat`/`Int` with the C conversions spelled out
  (`toUInt8`, `toInt16`, ...).
* `float` and `double` values are rationals; every floating-point operation
  rounds its exact result to the format of its type (`toFloat`, `toDouble`).
-/

namespace Mpu9250

/-! ## Constants of the source file -/

/-- Sensor I2C address. -/
def SENSOR_I2C_ADDRESS : Nat := 0x68
/-- Magnetometer I2C address, as used by `SENSOR_SELECT_MAG`. -/
def Board_MPU9250_MAG_ADDR : Nat := 0x0C

def ACCEL_CONFIG : Nat := 0x1C
def INT_PIN_CFG : Nat := 0x37
def INT_STATUS : Nat := 0x3A
def ACCEL_XOUT_H : Nat := 0x3B
def GYRO_XOUT_H : Nat := 0x43
def PWR_MGMT_1 : Nat := 0x6B
def PWR_MGMT_2 : Nat := 0x6C

/-- Sleep + stop all clocks. -/
def MPU_SLEEP : Nat := 0x4F
/-- Disable temp. + intern osc. -/
def MPU_WAKE_UP : Nat := 0x09
def ALL_AXES : Nat := 0x3F
def DATA_SIZE : Nat := 6

def BIT_RAW_RDY_EN : Nat := 0x01
def BIT_STBY_XA : Nat := 0x20
def BIT_STBY_YA : Nat := 0x10
def BIT_STBY_ZA : Nat := 0x08
def BIT_STBY_XG : Nat := 0x04
def BIT_STBY_YG : Nat := 0x02
def BIT_STBY_ZG : Nat := 0x01
def BIT_LATCH_EN : Nat := 0x20
def BIT_BYPASS_EN : Nat := 0x02

def ACC_RANGE_2G : Nat := 0
def ACC_RANGE_4G : Nat := 1
def ACC_RANGE_8G : Nat := 2
def ACC_RANGE_16G : Nat := 3

def SENSOR_STATE_DISABLED : Int := 0
def SENSOR_STATE_BOOTING : Int := 1
def SENSOR_STATE_ENABLED : Int := 2

def SENSOR_BOOT_DELAY : Nat := 8
def SENSOR_STARTUP_DELAY : Nat := 5
def READING_WAIT_TIMEOUT : Nat := 10

def MAG_ST1 : Nat := 0x02
def MAG_XOUT_L : Nat := 0x03
def MAG_CNTL1 : Nat := 0x0A

def MAG_STATUS_OK : Nat := 0x00
def MAG_READ_ST_ERR : Nat := 0x01
def MAG_DATA_NOT_RDY : Nat := 0x02
def MAG_OVERFLOW : Nat := 0x03
def MAG_READ_DATA_ERR : Nat := 0x04
def MAG_BYPASS_FAIL : Nat := 0x05
def MAG_NO_POWER : Nat := 0x06

def MAG_MODE_SINGLE : Nat := 0x01
def MFS_16BITS : Nat := 1

/-- The static `scale`: initialised to `MFS_16BITS` and assigned nowhere. -/
def scale : Nat := MFS_16BITS
/-- The static `mode`: initialised to `MAG_MODE_SINGLE` and assigned nowhere. -/
def mode : Nat := MAG_MODE_SINGLE

/-! ## Constants of headers that are not among the sources -/

/-- Modelled from the spec: the channel selectors of `mpu-9250-sensor.h`, which is
not among the sources.  The axis set is "a bitmask over six flags (gyro X/Y/Z,
accel X/Y/Z)" whose complement is the standby register, so each selector is the
standby bit of its axis (`BIT_STBY_*` of the source). -/
def MPU_9250_SENSOR_TYPE_GYRO_Z : Int := BIT_STBY_ZG
/-- Modelled from the spec: selector of gyroscope Y (`mpu-9250-sensor.h`). -/
def MPU_9250_SENSOR_TYPE_GYRO_Y : Int := BIT_STBY_YG
/-- Modelled from the spec: selector of gyroscope X (`mpu-9250-sensor.h`). -/
def MPU_9250_SENSOR_TYPE_GYRO_X : Int := BIT_STBY_XG
/-- Modelled from the spec: selector of accelerometer Z (`mpu-9250-sensor.h`). -/
def MPU_9250_SENSOR_TYPE_ACC_Z : Int := BIT_STBY_ZA
/-- Modelled from the spec: selector of accelerometer Y (`mpu-9250-sensor.h`). -/
def MPU_9250_SENSOR_TYPE_ACC_Y : Int := BIT_STBY_YA
/-- Modelled from the spec: selector of accelerometer X (`mpu-9250-sensor.h`). -/
def MPU_9250_SENSOR_TYPE_ACC_X : Int := BIT_STBY_XA
/-- Modelled from the spec: the three gyroscope flags (`mpu-9250-sensor.h`). -/
def MPU_9250_SENSOR_TYPE_GYRO : Int := 0x07
/-- Modelled from the spec: the three accelerometer flags (`mpu-9250-sensor.h`). -/
def MPU_9250_SENSOR_TYPE_ACC : Int := 0x38
/-- Modelled from the spec: "the 6 valid bits" (`mpu-9250-sensor.h`). -/
def MPU_9250_SENSOR_TYPE_ALL : Int := 0x3F
/-- Modelled from the spec: the empty axis set (`mpu-9250-sensor.h`). -/
def MPU_9250_SENSOR_TYPE_NONE : Int := 0

/-- Modelled from the spec: the "reading-error sentinel" of `sensor-common.h`, which
is not among the sources; `0x80000000` returned through an `int`. -/
def CC26XX_SENSOR_READING_ERROR : Int := -2147483648

/-- Modelled from the spec: the operation codes of `lib/sensors.h` ("hardware
init", "set active axes", "is ready"), which is not among the sources. -/
def SENSORS_HW_INIT : Int := 128
/-- Modelled from the spec: operation code "set active axes" (`lib/sensors.h`). -/
def SENSORS_ACTIVE : Int := 129
/-- Modelled from the spec: query code "is ready" (`lib/sensors.h`). -/
def SENSORS_READY : Int := 130

/-! ## C integer conversions -/

/-- Conversion to `uint8_t`. -/
def toUInt8 (n : Int) : Nat := (n % 256).toNat

/-- Conversion to `uint16_t`. -/
def toUInt16 (n : Int) : Nat := (n % 65536).toNat

/-- Conversion to `int16_t` (two's complement wrap). -/
def toInt16 (n : Int) : Int := (n + 32768) % 65536 - 32768

/-- Conversion to a signed 32-bit integer (two's complement wrap). -/
def toInt32 (n : Int) : Int := (n + 2147483648) % 4294967296 - 2147483648

/-- Conversion `(int)x` of a floating value: truncation toward zero. -/
def truncToInt (q : ℚ) : Int := if 0 ≤ q then ⌊q⌋ else -⌊-q⌋

/-! ## Floating point

A `float` or `double` value is the rational it stands for; every arithmetic step
rounds its exact result to the format of its type, to nearest with ties to even
(no excess precision).  The exponent range is not modelled: the nonzero values
of this driver lie between `2^-14` and `2^22` in magnitude, far from overflow
and underflow. -/

/-- The integer nearest to `q`; the even one of the two when `q` is half-way. -/
def roundHalfEven (q : ℚ) : Int :=
  if q - ⌊q⌋ < 1 / 2 then ⌊q⌋
  else if 1 / 2 < q - ⌊q⌋ then ⌊q⌋ + 1
  else if ⌊q⌋ % 2 = 0 then ⌊q⌋ else ⌊q⌋ + 1

/-- The binary floating-point value with a `p`-bit significand nearest to `q`:
with `2^e ≤ |q| < 2^(e+1)`, the nearest multiple of `2^(e+1-p)`. -/
def roundBinary (p : Nat) (q : ℚ) : ℚ :=
  if q = 0 then 0
  else
    (roundHalfEven (q / (2 : ℚ) ^ (Int.log 2 |q| + 1 - (p : Int))) : ℚ) *
      (2 : ℚ) ^ (Int.log 2 |q| + 1 - (p : Int))

/-- Rounding to `double` (53-bit significand). -/
def toDouble (q : ℚ) : ℚ := roundBinary 53 q

/-- Rounding to `float` (24-bit significand). -/
def toFloat (q : ℚ) : ℚ := roundBinary 24 q

/-! ## The surroundings of the driver -/

/-- The two callbacks the driver hands to `ctimer_set`. -/
inductive Callback where
  | initialise
  | notify_ready
  deriving DecidableEq, Repr

/-- What the driver does on the I2C bus.  A register operation records the device
that was selected when it was issued. -/
inductive BusEvent where
  | select (addr : Nat)
  | deselect
  | write (dev : Option Nat) (reg : Nat) (bytes : List Nat) (ok : Bool)
  | read (dev : Option Nat) (reg : Nat) (len : Nat) (ok : Bool) (bytes : List Nat)
  deriving DecidableEq, Repr

/-- The answer of the bus to one register operation: whether it succeeded and, for
a read, the bytes left in the buffer. -/
structure BusResp where
  ok : Bool
  data : List Nat
  deriving DecidableEq, Repr

/-- The surroundings: the k-th register operation is answered by `bus k`, the k-th
read of `RTIMER_NOW()` returns `rtimer k`, the k-th read of the bus-busy flag
returns `i2c_busy k`.  `MPU_9250_SENSOR_ACC_RANGE` is the build-time range of
`mpu-9250-sensor.h`. -/
structure Env where
  bus : Nat → BusResp
  rtimer : Nat → Nat
  i2c_busy : Nat → Bool
  MPU_9250_SENSOR_ACC_RANGE : Nat

/-- The file-scope variables of the driver and the effects it has had. -/
structure World where
  mpu_config : Nat
  acc_range : Nat
  acc_range_reg : Nat
  val : Nat
  interrupt_status : Nat
  state : Int
  elements : Int
  /-- The six bytes of `uint16_t sensor_value[3]`, in memory order. -/
  sensor_value : List Nat
  /-- The pending callback of `startup_timer` and its delay, if any. -/
  startup_timer : Option (Nat × Callback)
  t0 : Nat
  calX : Int
  calY : Int
  calZ : Int
  magStatus : Nat
  /-- The output latch of the power pin `BOARD_IOID_MPU_POWER`. -/
  power : Bool
  /-- The number of `sensors_changed` notifications posted. -/
  notified : Nat
  /-- The device selected on the bus. -/
  selected : Option Nat
  /-- The bus traffic so far, oldest first. -/
  trace : List BusEvent
  /-- The number of register operations issued so far. -/
  nbus : Nat
  /-- The number of clock reads so far. -/
  nclk : Nat
  /-- The number of reads of the bus-busy flag so far. -/
  nbusy : Nat

/-- The state at program start: statics zero unless initialised. -/
def World.init : World where
  mpu_config := 0
  acc_range := 0
  acc_range_reg := 0
  val := 0
  interrupt_status := 0
  state := SENSOR_STATE_DISABLED
  elements := MPU_9250_SENSOR_TYPE_NONE
  sensor_value := [0, 0, 0, 0, 0, 0]
  startup_timer := none
  t0 := 0
  calX := 0
  calY := 0
  calZ := 0
  magStatus := 0
  power := false
  notified := 0
  selected := none
  trace := []
  nbus := 0
  nclk := 0
  nbusy := 0

/-- Modelled from the spec: `board_i2c_select` ("select(deviceAddress)"). -/
def board_i2c_select (addr : Nat) (w : World) : World :=
  { w with selected := some addr, trace := w.trace ++ [BusEvent.select addr] }

/-- Modelled from the spec: `board_i2c_deselect` ("deselect()"). -/
def board_i2c_deselect (w : World) : World :=
  { w with selected := none, trace := w.trace ++ [BusEvent.deselect] }

def SENSOR_SELECT (w : World) : World := board_i2c_select SENSOR_I2C_ADDRESS w

def SENSOR_DESELECT (w : World) : World := board_i2c_deselect w

def SENSOR_SELECT_MAG (w : World) : World := board_i2c_select Board_MPU9250_MAG_ADDR w

/-- Modelled from the spec: `sensor_common_write_reg`
("writeRegister(addr, buffer, length) -> bool").  The bus decides the outcome. -/
def sensor_common_write_reg (env : Env) (reg : Nat) (bytes : List Nat) (w : World) :
    Bool × World :=
  ((env.bus w.nbus).ok,
   { w with nbus := w.nbus + 1,
            trace := w.trace ++ [BusEvent.write w.selected reg bytes (env.bus w.nbus).ok] })

/-- The `len` bytes an answer leaves in the buffer. -/
def BusResp.bytes (r : BusResp) (len : Nat) : List Nat :=
  (List.range len).map (fun i => r.data.getD i 0 % 256)

/-- Modelled from the spec: `sensor_common_read_reg`
("readRegister(addr, buffer, length) -> bool").  The bus decides the outcome and
the buffer contents (also after a failure, where they are unspecified). -/
def sensor_common_read_reg (env : Env) (reg : Nat) (len : Nat) (w : World) :
    Bool × List Nat × World :=
  ((env.bus w.nbus).ok, (env.bus w.nbus).bytes len,
   { w with nbus := w.nbus + 1,
            trace := w.trace ++
              [BusEvent.read w.selected reg len (env.bus w.nbus).ok ((env.bus w.nbus).bytes len)] })

/-- Modelled from the spec: `sensor_common_set_error_data` ("fill the buffer
with a defined error sentinel pattern"): every byte is the low byte of the
sentinel. -/
def sensor_common_set_error_data (data : List Nat) (len : Nat) : List Nat :=
  (List.range data.length).map
    (fun i => if i < len then toUInt8 CC26XX_SENSOR_READING_ERROR else data.getD i 0)

/-- Modelled from the spec: `RTIMER_NOW()` of `sys/rtimer.h`, the 32-bit clock the
polling timeout is measured on; each read takes the next value of the
surroundings. -/
def RTIMER_NOW (env : Env) (w : World) : Nat × World :=
  (env.rtimer w.nclk % 4294967296, { w with nclk := w.nclk + 1 })

/-- Modelled from the spec: `RTIMER_CLOCK_LT` of `sys/rtimer.h` (the "timeout has
not elapsed" test), a signed comparison of the 32-bit difference. -/
def RTIMER_CLOCK_LT (a b : Nat) : Bool := decide (toInt32 ((a : Int) - (b : Int)) < 0)

/-! ## The magnetometer -/

/-- The caller's buffer `int16_t data[3]`. -/
abbrev MagData := Int × Int × Int

/-- `uint8_t SensorMpu9250_magRead(int16_t *data)`: the returned byte, the buffer
and the state after the call.  The local `rawData` is `r2.2.1`; the local `val`
is written before each of its uses. -/
def SensorMpu9250_magRead (env : Env) (data : MagData) (w : World) : Nat × MagData × World :=
  -- magStatus = MAG_NO_POWER; magStatus = MAG_STATUS_OK;
  let w0 := { w with magStatus := MAG_STATUS_OK }
  -- Connect magnetometer internally in MPU9250
  let w1 := SENSOR_SELECT w0
  let val := BIT_BYPASS_EN ||| BIT_LATCH_EN
  let r := sensor_common_write_reg env INT_PIN_CFG [val] w1
  let w2 := if !r.1 then { r.2 with magStatus := MAG_BYPASS_FAIL } else r.2
  let w3 := SENSOR_DESELECT w2
  if w3.magStatus ≠ MAG_STATUS_OK then
    -- return false;
    (0, data, w3)
  else
    -- Select this sensor
    let w4 := SENSOR_SELECT_MAG w3
    let r1 := sensor_common_read_reg env MAG_ST1 1 w4
    let ro : MagData × World :=
      if r1.1 then
        -- Check magnetometer data ready bit
        if (r1.2.1.getD 0 0) &&& 0x01 ≠ 0 then
          -- Burst read of all compass values + ST2 register
          let r2 := sensor_common_read_reg env MAG_XOUT_L 7 r1.2.2
          if r2.1 then
            -- Check if magnetic sensor overflow set, if not report data
            if (r2.2.1.getD 6 0) &&& 0x08 = 0 then
              -- Turn the MSB and LSB into a signed 16-bit value
              let d0 := toInt16 (((r2.2.1.getD 1 0) <<< 8 ||| r2.2.1.getD 0 0 : Nat) : Int)
              let d1 := toInt16 (((r2.2.1.getD 3 0) <<< 8 ||| r2.2.1.getD 2 0 : Nat) : Int)
              let d2 := toInt16 (((r2.2.1.getD 5 0) <<< 8 ||| r2.2.1.getD 4 0 : Nat) : Int)
              -- Sensitivity adjustment
              ((toInt16 ((d0 * r2.2.2.calX) >>> (8 : Nat)), toInt16 ((d1 * r2.2.2.calY) >>> (8 : Nat)),
                toInt16 ((d2 * r2.2.2.calZ) >>> (8 : Nat))), r2.2.2)
            else
              (data, { r2.2.2 with magStatus := MAG_OVERFLOW })
          else
            (data, { r2.2.2 with magStatus := MAG_READ_DATA_ERR })
        else
          (data, { r1.2.2 with magStatus := MAG_DATA_NOT_RDY })
      else
        (data, { r1.2.2 with magStatus := MAG_READ_ST_ERR })
    -- Set magnetometer data resolution and sample ODR; start new conversion
    let val := toUInt8 (((scale <<< 4 ||| mode : Nat) : Int))
    let w5 := (sensor_common_write_reg env MAG_CNTL1 [val] ro.2).2
    let w6 := SENSOR_DESELECT w5
    (w6.magStatus, ro.1, w6)

/-! ## Power modes, axes and range -/

/-- `sensor_sleep`: place the MPU in low power mode. -/
def sensor_sleep (env : Env) (w : World) : World :=
  let w1 := SENSOR_SELECT w
  let w2 := { w1 with val := ALL_AXES }
  let w3 := (sensor_common_write_reg env PWR_MGMT_2 [w2.val] w2).2
  let w4 := { w3 with val := MPU_SLEEP }
  let w5 := (sensor_common_write_reg env PWR_MGMT_1 [w4.val] w4).2
  SENSOR_DESELECT w5

/-- `sensor_wakeup`: exit low power mode. -/
def sensor_wakeup (env : Env) (w : World) : World :=
  let w1 := SENSOR_SELECT w
  let w2 := { w1 with val := MPU_WAKE_UP }
  let w3 := (sensor_common_write_reg env PWR_MGMT_1 [w2.val] w2).2
  -- All axis initially disabled
  let w4 := { w3 with val := ALL_AXES }
  let w5 := (sensor_common_write_reg env PWR_MGMT_2 [w4.val] w4).2
  let w6 := { w5 with mpu_config := 0 }
  -- Restore the range
  let w7 := (sensor_common_write_reg env ACCEL_CONFIG [w6.acc_range_reg] w6).2
  -- Clear interrupts
  let r := sensor_common_read_reg env INT_STATUS 1 w7
  let w8 := { r.2.2 with val := r.2.1.getD 0 0 }
  SENSOR_DESELECT w8

/-- `select_axes`: select gyro and accelerometer axes. -/
def select_axes (env : Env) (w : World) : World :=
  let w1 := { w with val := toUInt8 (~~~ (w.mpu_config : Int)) }
  let w2 := SENSOR_SELECT w1
  let w3 := (sensor_common_write_reg env PWR_MGMT_2 [w2.val] w2).2
  SENSOR_DESELECT w3

/-- `convert_to_le(data, len)`: swap `data[i]` and `data[i + 1]` for
`i = 0, 2, 4, ...` below `len`. -/
def convert_to_le : List Nat → Nat → List Nat
  | a :: b :: rest, len + 1 => b :: a :: convert_to_le rest (len - 1)
  | data, _ => data

/-- `acc_set_range(new_range)`: the returned flag and the state. -/
def acc_set_range (env : Env) (new_range : Nat) (w : World) : Bool × World :=
  if new_range = w.acc_range then (true, w)
  else
    let w1 := { w with acc_range_reg := toUInt8 ((new_range <<< 3 : Nat) : Int) }
    -- Apply the range
    let w2 := SENSOR_SELECT w1
    let r := sensor_common_write_reg env ACCEL_CONFIG [w2.acc_range_reg] w2
    let w3 := SENSOR_DESELECT r.2
    let w4 := if r.1 then { w3 with acc_range := new_range } else w3
    (r.1, w4)

/-- `int_status`: read the interrupt status register into `interrupt_status`. -/
def int_status (env : Env) (w : World) : Nat × World :=
  let w1 := SENSOR_SELECT w
  let r := sensor_common_read_reg env INT_STATUS 1 w1
  let w2 := { r.2.2 with interrupt_status := r.2.1.getD 0 0 }
  let w3 := SENSOR_DESELECT w2
  (w3.interrupt_status, w3)

/-- `enable_sensor(axes)`; `delay_ms` has no effect on the state. -/
def enable_sensor (env : Env) (axes : Nat) (w : World) : World :=
  -- Wake up the sensor if it was off
  let w1 := if w.mpu_config = 0 ∧ axes ≠ 0 then sensor_wakeup env w else w
  let w2 := { w1 with mpu_config := toUInt8 (axes : Int) }
  if w2.mpu_config ≠ 0 then
    -- Enable gyro + accelerometer readout
    select_axes env w2
  else
    sensor_sleep env w2

/-! ## Sampling -/

/-- `acc_read(data)`: `data` is the byte view of the three words. -/
def acc_read (env : Env) (data : List Nat) (w : World) : Bool × List Nat × World :=
  if w.interrupt_status &&& BIT_RAW_RDY_EN ≠ 0 then
    -- Burst read of all accelerometer values
    let w1 := SENSOR_SELECT w
    let r := sensor_common_read_reg env ACCEL_XOUT_H DATA_SIZE w1
    let w2 := SENSOR_DESELECT r.2.2
    if r.1 then (true, convert_to_le r.2.1 DATA_SIZE, w2)
    else (false, sensor_common_set_error_data r.2.1 DATA_SIZE, w2)
  else
    -- Data not ready
    (false, data, w)

/-- `gyro_read(data)`: `data` is the byte view of the three words. -/
def gyro_read (env : Env) (data : List Nat) (w : World) : Bool × List Nat × World :=
  if w.interrupt_status &&& BIT_RAW_RDY_EN ≠ 0 then
    -- Select this sensor
    let w1 := SENSOR_SELECT w
    -- Burst read of all gyroscope values
    let r := sensor_common_read_reg env GYRO_XOUT_H DATA_SIZE w1
    let w2 := SENSOR_DESELECT r.2.2
    if r.1 then (true, convert_to_le r.2.1 DATA_SIZE, w2)
    else (false, sensor_common_set_error_data r.2.1 DATA_SIZE, w2)
  else
    (false, data, w)

/-- The word `sensor_value[i]` of the byte view `data`: the host is little-endian,
so the `uint16_t` is `data[2i] + 256 * data[2i+1]`. -/
def sensor_word (data : List Nat) (i : Nat) : Nat :=
  data.getD (2 * i) 0 + 256 * data.getD (2 * i + 1) 0

/-- `acc_convert(raw_data)`.  The parameter is an `int16_t`: the argument is
converted on entry.  `raw_data * 1.0` and the quotient are `double` operations;
the assignment to the `float v` rounds once more.  The divisors `32768 / 2`, ...
are C integer divisions. -/
def acc_convert (w : World) (raw_data : Int) : ℚ :=
  if w.acc_range = ACC_RANGE_2G then
    toFloat (toDouble (toDouble ((toInt16 raw_data : ℚ) * 1) / (((32768 / 2 : Int)) : ℚ)))
  else if w.acc_range = ACC_RANGE_4G then
    toFloat (toDouble (toDouble ((toInt16 raw_data : ℚ) * 1) / (((32768 / 4 : Int)) : ℚ)))
  else if w.acc_range = ACC_RANGE_8G then
    toFloat (toDouble (toDouble ((toInt16 raw_data : ℚ) * 1) / (((32768 / 8 : Int)) : ℚ)))
  else if w.acc_range = ACC_RANGE_16G then
    toFloat (toDouble (toDouble ((toInt16 raw_data : ℚ) * 1) / (((32768 / 16 : Int)) : ℚ)))
  else
    0

/-- `gyro_convert(raw_data)`.  The parameter is an `int16_t`: the argument is
converted on entry.  `raw_data * 1.0` and the quotient are `double` operations;
the `float` return type rounds once more.  The divisor `65536 / 500` is a C
integer division. -/
def gyro_convert (raw_data : Int) : ℚ :=
  toFloat (toDouble (toDouble ((toInt16 raw_data : ℚ) * 1) / (((65536 / 500 : Int)) : ℚ)))

/-- The loop `while(!int_status() && RTIMER_CLOCK_LT(RTIMER_NOW(), t0 +
READING_WAIT_TIMEOUT));` run for at most `fuel` rounds; `none` when it is still
running after that. -/
def pollLoop : Nat → Env → World → Option World
  | 0, _, _ => none
  | fuel + 1, env, w =>
    let s := int_status env w
    if s.1 = 0 then
      let n := RTIMER_NOW env s.2
      if RTIMER_CLOCK_LT n.1 ((n.2.t0 + READING_WAIT_TIMEOUT) % 4294967296) then
        pollLoop fuel env n.2
      else some n.2
    else some s.2

/-- `value(type)`: the returned `int` and the state; `none` when a polling loop is
still running after `fuel` rounds. -/
def value (fuel : Nat) (env : Env) (type : Int) (w : World) : Option (Int × World) :=
  if w.state = SENSOR_STATE_DISABLED then
    some (CC26XX_SENSOR_READING_ERROR, w)
  else
    -- memset(sensor_value, 0, sizeof(sensor_value));
    let w1 := { w with sensor_value := List.replicate 6 0 }
    if Int.land type MPU_9250_SENSOR_TYPE_ACC ≠ 0 then
      let n := RTIMER_NOW env w1
      let w2 := { n.2 with t0 := n.1 }
      match pollLoop fuel env w2 with
      | none => none
      | some w3 =>
        let r := acc_read env w3.sensor_value w3
        let w4 := { r.2.2 with sensor_value := r.2.1 }
        if r.1 = false then
          some (CC26XX_SENSOR_READING_ERROR, w4)
        else
          let converted_val : ℚ :=
            if type = MPU_9250_SENSOR_TYPE_ACC_X then
              acc_convert w4 (sensor_word w4.sensor_value 0)
            else if type = MPU_9250_SENSOR_TYPE_ACC_Y then
              acc_convert w4 (sensor_word w4.sensor_value 1)
            else if type = MPU_9250_SENSOR_TYPE_ACC_Z then
              acc_convert w4 (sensor_word w4.sensor_value 2)
            else 0
          -- rv = (int)(converted_val * 100);
          some (truncToInt (toFloat (converted_val * 100)), w4)
    else if Int.land type MPU_9250_SENSOR_TYPE_GYRO ≠ 0 then
      let n := RTIMER_NOW env w1
      let w2 := { n.2 with t0 := n.1 }
      match pollLoop fuel env w2 with
      | none => none
      | some w3 =>
        let r := gyro_read env w3.sensor_value w3
        let w4 := { r.2.2 with sensor_value := r.2.1 }
        if r.1 = false then
          some (CC26XX_SENSOR_READING_ERROR, w4)
        else
          let converted_val : ℚ :=
            if type = MPU_9250_SENSOR_TYPE_GYRO_X then
              gyro_convert (sensor_word w4.sensor_value 0)
            else if type = MPU_9250_SENSOR_TYPE_GYRO_Y then
              gyro_convert (sensor_word w4.sensor_value 1)
            else if type = MPU_9250_SENSOR_TYPE_GYRO_Z then
              gyro_convert (sensor_word w4.sensor_value 2)
            else 0
          -- rv = (int)(converted_val * 100);
          some (truncToInt (toFloat (converted_val * 100)), w4)
    else
      some (CC26XX_SENSOR_READING_ERROR, w1)

/-! ## Life cycle -/

/-- Modelled from the spec: `ctimer_set(&startup_timer, delay, f, NULL)` ("schedule
a single callback to run after N ticks"); setting replaces what was pending. -/
def ctimer_set (delay : Nat) (f : Callback) (w : World) : World :=
  { w with startup_timer := some (delay, f) }

/-- Modelled from the spec: `ctimer_stop(&startup_timer)` ("cancel a pending
scheduled callback"). -/
def ctimer_stop (w : World) : World :=
  { w with startup_timer := none }

/-- `notify_ready`; `sensors_changed(&mpu_9250_sensor)` is counted in `notified`. -/
def notify_ready (w : World) : World :=
  { w with state := SENSOR_STATE_ENABLED, notified := w.notified + 1 }

/-- `initialise`, the first boot stage. -/
def initialise (env : Env) (w : World) : World :=
  -- Configure the accelerometer range
  let w1 :=
    if Int.land w.elements MPU_9250_SENSOR_TYPE_ACC ≠ 0 then
      (acc_set_range env (env.MPU_9250_SENSOR_ACC_RANGE % 256) w).2
    else w
  let w2 := enable_sensor env (toUInt16 (Int.land w1.elements MPU_9250_SENSOR_TYPE_ALL)) w1
  ctimer_set SENSOR_STARTUP_DELAY Callback.notify_ready w2

/-- `power_up`; `ti_lib_gpio_set_dio(BOARD_IOID_MPU_POWER)` raises the power latch. -/
def power_up (w : World) : World :=
  let w1 := { w with power := true }
  let w2 := { w1 with state := SENSOR_STATE_BOOTING }
  ctimer_set SENSOR_BOOT_DELAY Callback.initialise w2

/-- Modelled from the spec: the expiry of `startup_timer`; the timer facility
removes the timer and runs its callback.  Nothing happens when no timer is
pending. -/
def ctimer_expire (env : Env) (w : World) : World :=
  match w.startup_timer with
  | none => w
  | some (_, Callback.initialise) => initialise env { w with startup_timer := none }
  | some (_, Callback.notify_ready) => notify_ready { w with startup_timer := none }

/-- The loop `while(ti_lib_i2c_master_busy(I2C0_BASE));` run for at most `fuel`
rounds; `none` when it is still running after that. -/
def busyLoop : Nat → Env → World → Option World
  | 0, _, _ => none
  | fuel + 1, env, w =>
    if env.i2c_busy w.nbusy then busyLoop fuel env { w with nbusy := w.nbusy + 1 }
    else some { w with nbusy := w.nbusy + 1 }

/-- `configure(type, enable)`: the returned `int` and the state; `none` when the
bus-busy loop is still running after `fuel` rounds.  The pin set-up calls of
`SENSORS_HW_INIT` touch no variable of the driver; the test
`HWREG(GPIO_BASE + GPIO_O_DOUT31_0) & BOARD_MPU_POWER` reads the power latch. -/
def configure (fuel : Nat) (env : Env) (type : Int) (enable : Int) (w : World) :
    Option (Int × World) :=
  if type = SENSORS_HW_INIT then
    let w1 := { w with power := false }
    let w2 := { w1 with elements := MPU_9250_SENSOR_TYPE_NONE }
    some (w2.state, w2)
  else if type = SENSORS_ACTIVE then
    if Int.land enable MPU_9250_SENSOR_TYPE_ACC ≠ 0 ∨
        Int.land enable MPU_9250_SENSOR_TYPE_GYRO ≠ 0 then
      let w1 := { w with elements := Int.land enable MPU_9250_SENSOR_TYPE_ALL }
      let w2 := power_up w1
      let w3 := { w2 with state := SENSOR_STATE_BOOTING }
      some (w3.state, w3)
    else if w.power then
      -- Then check our state
      let w1 := { w with elements := MPU_9250_SENSOR_TYPE_NONE }
      let w2 := ctimer_stop w1
      let w3 := sensor_sleep env w2
      match busyLoop fuel env w3 with
      | none => none
      | some w4 =>
        let w5 := { w4 with state := SENSOR_STATE_DISABLED }
        let w6 := { w5 with power := false }
        some (w6.state, w6)
    else
      some (w.state, w)
  else
    some (w.state, w)

/-- `status(type)`: the life-cycle state for `SENSORS_ACTIVE` and `SENSORS_READY`. -/
def status (type : Int) (w : World) : Int :=
  if type = SENSORS_ACTIVE ∨ type = SENSORS_READY then w.state
  else SENSOR_STATE_DISABLED

/-! ## Vocabulary of the statements -/

/-- The events a call added to the trace: those of `w1` after those of `w`. -/
def callEvents (w w1 : World) : List BusEvent := w1.trace.drop w.trace.length

/-- A register read or write, as opposed to a device selection. -/
def BusEvent.isRegOp : BusEvent → Bool
  | BusEvent.write _ _ _ _ => true
  | BusEvent.read _ _ _ _ _ => true
  | _ => false

/-- A write to register `reg`. -/
def BusEvent.isWriteTo (reg : Nat) : BusEvent → Bool
  | BusEvent.write _ r _ _ => r == reg
  | _ => false

/-- A read of `len` bytes. -/
def BusEvent.isReadOfLen (len : Nat) : BusEvent → Bool
  | BusEvent.read _ _ l _ _ => l == len
  | _ => false

/-- The byte the k-th answer of the bus leaves in a one-byte buffer. -/
def statusByte (env : Env) (k : Nat) : Nat := ((env.bus k).bytes 1).getD 0 0

/-- The timeout test of the polling loop at the k-th clock read, for start time `t0`. -/
def stillWaiting (env : Env) (t0 : Nat) (k : Nat) : Bool :=
  RTIMER_CLOCK_LT (env.rtimer k % 4294967296) ((t0 + READING_WAIT_TIMEOUT) % 4294967296)

/-- The signed 16-bit word with high byte `hi` and low byte `lo`: `(hi << 8) | lo`. -/
def word16 (hi lo : Nat) : Int := toInt16 ((hi <<< 8 ||| lo : Nat) : Int)

/-- The state with the life-cycle variable replaced. -/
def World.withState (w : World) (s : Int) : World := { w with state := s }

/-! ## Concrete surroundings and states -/

/-- Surroundings that answer the register operations from a script, in order, and
with a plain success once the script is used up; the clock advances by one tick
per read and the bus is never busy. -/
def envScript (script : List BusResp) : Env where
  bus := fun k => script.getD k ⟨true, []⟩
  rtimer := fun k => k
  i2c_busy := fun _ => false
  MPU_9250_SENSOR_ACC_RANGE := ACC_RANGE_2G

/-- The initial state with the life cycle at `SENSOR_STATE_BOOTING`. -/
def bootingWorld : World := { World.init with state := SENSOR_STATE_BOOTING }

/-- The initial state with the life cycle at `SENSOR_STATE_ENABLED`. -/
def enabledWorld : World := { World.init with state := SENSOR_STATE_ENABLED }

/-- The initial state with the calibration triple `(256, 256, 256)`. -/
def calibratedWorld : World := { World.init with calX := 256, calY := 256, calZ := 256 }

/-! ## Calls from outside and reachable states -/

/-- A call from outside: one of the entry points of the driver, or the expiry of
`startup_timer`.  The calls that may loop carry the number of rounds they are
given. -/
inductive Call where
  | configure (fuel : Nat) (type enable : Int)
  | value (fuel : Nat) (type : Int)
  | status (type : Int)
  | magRead (data : MagData)
  | expire

/-- The state after a call; `none` when the call is still looping after its
rounds. -/
def Call.run (env : Env) : Call → World → Option World
  | Call.configure fuel type enable, w =>
    (Mpu9250.configure fuel env type enable w).map Prod.snd
  | Call.value fuel type, w => (Mpu9250.value fuel env type w).map Prod.snd
  | Call.status _, w => some w
  | Call.magRead data, w => some (SensorMpu9250_magRead env data w).2.2
  | Call.expire, w => some (ctimer_expire env w)

/-- The state after a sequence of calls, each made when the previous one has
returned. -/
def runCalls (env : Env) : List Call → World → Option World
  | [], w => some w
  | c :: cs, w => (c.run env w).bind (runCalls env cs)

/-- A state the driver can be in: one reached from the initial state by a
sequence of calls. -/
def Reachable (env : Env) (w : World) : Prop :=
  ∃ calls : List Call, runCalls env calls World.init = some w

/-- The call is `configure(SENSORS_HW_INIT, _)`. -/
def Call.isHwInit : Call → Bool
  | Call.configure _ type _ => type == SENSORS_HW_INIT
  | _ => false

/-- The call is an enable request: `configure(SENSORS_ACTIVE, enable)` with an
accelerometer or gyroscope bit in `enable`. -/
def Call.isEnable : Call → Bool
  | Call.configure _ type enable =>
    type == SENSORS_ACTIVE &&
      (Int.land enable MPU_9250_SENSOR_TYPE_ACC != 0 ||
        Int.land enable MPU_9250_SENSOR_TYPE_GYRO != 0)
  | _ => false

/-- Every `configure(SENSORS_HW_INIT, _)` among the calls, made from the state `w`
on, finds the driver disabled with no boot stage pending, as the one at start-up
does. -/
def hwInitWhileIdle (env : Env) : List Call → World → Bool
  | [], _ => true
  | c :: cs, w =>
    (!c.isHwInit || (w.state == SENSOR_STATE_DISABLED && w.startup_timer.isNone)) &&
      match c.run env w with
      | none => true
      | some w1 => hwInitWhileIdle env cs w1

/-- The state in which `value` enters its polling loop: the buffer zeroed and
`t0` read from the clock. -/
def pollStart (env : Env) (w : World) : World :=
  { (RTIMER_NOW env { w with sensor_value := List.replicate 6 0 }).2 with
    t0 := (RTIMER_NOW env { w with sensor_value := List.replicate 6 0 }).1 }

/-- The number of writes to register `reg` between the states `w` and `w1`. -/
def regWrites (reg : Nat) (w w1 : World) : Nat :=
  ((callEvents w w1).filter (BusEvent.isWriteTo reg)).length

/-- The bus-busy flag reads busy `k` times from the state `w` on, and idle then. -/
def idleAfter (env : Env) (w : World) (k : Nat) : Prop :=
  (∀ j, j < k → env.i2c_busy (w.nbusy + j) = true) ∧ env.i2c_busy (w.nbusy + k) = false

/-- The variables that only `configure` and the timer callbacks assign: the
life-cycle state, the requested elements, the power latch, the pending timer and
the notification count. -/
def World.life (w : World) : Int × Int × Bool × Option (Nat × Callback) × Nat :=
  (w.state, w.elements, w.power, w.startup_timer, w.notified)

/-- The calibration triple of the magnetometer. -/
def World.cal (w : World) : Int × Int × Int := (w.calX, w.calY, w.calZ)

/-- The scaled sample as the specification words it: `floor(raw * cal / 256)`. -/
def scaledSpec (raw cal : Int) : Int := ⌊((raw * cal : Int) : ℚ) / 256⌋

/-- The register writes among the events a call added, in order. -/
def writesTo (reg : Nat) (w w1 : World) : List BusEvent :=
  (callEvents w w1).filter (BusEvent.isWriteTo reg)

/-- The initial state with the calibration triple `(383, 383, 383)`, the largest
factor of the datasheet range. -/
def maxCalWorld : World := { World.init with calX := 383, calY := 383, calZ := 383 }

/-- The calls that enable the X axis of the accelerometer and let both boot
stages run. -/
def enableAccX : List Call :=
  [Call.configure 1 SENSORS_ACTIVE MPU_9250_SENSOR_TYPE_ACC_X, Call.expire, Call.expire]

/-- The state right after `configure(SENSORS_ACTIVE, MPU_9250_SENSOR_TYPE_ACC_X)`
in the initial state, on a bus that answers every operation with success. -/
def bootPendingWorld : World :=
  (runCalls (envScript []) [Call.configure 1 SENSORS_ACTIVE MPU_9250_SENSOR_TYPE_ACC_X]
    World.init).getD World.init

/-- The state after `enableAccX` from the initial state, on a bus that answers
every operation with success. -/
def enabledAccXWorld : World :=
  (runCalls (envScript []) enableAccX World.init).getD World.init

/-- The calls that enable the X axis of the accelerometer, let both boot stages
run and shut the sensor down again. -/
def enableThenDisable : List Call :=
  enableAccX ++ [Call.configure 1 SENSORS_ACTIVE 0]

/-- The state after `enableThenDisable` from the initial state, on a bus that
answers every operation with success. -/
def shutDownWorld : World :=
  (runCalls (envScript []) enableThenDisable World.init).getD World.init

/-- Surroundings for a sample request made after `enableAccX`, whose five register
operations came first: the first poll of the status register reads 1, data ready,
and the burst read that follows fails. -/
def envReadFails : Env :=
  envScript [⟨true, []⟩, ⟨true, []⟩, ⟨true, []⟩, ⟨true, []⟩, ⟨true, []⟩, ⟨true, [1]⟩,
    ⟨false, []⟩]

/-- Surroundings for a magnetometer read made after `enableAccX`, whose five
register operations came first: the bypass write succeeds, `MAG_ST1` reads data
ready, and the burst is `34 12 FF FF 00 80 10`. -/
def envMagRead : Env :=
  envScript [⟨true, []⟩, ⟨true, []⟩, ⟨true, []⟩, ⟨true, []⟩, ⟨true, []⟩, ⟨true, []⟩,
    ⟨true, [0x01]⟩, ⟨true, [0x34, 0x12, 0xFF, 0xFF, 0x00, 0x80, 0x10]⟩]

/-- Surroundings of a build with `MPU_9250_SENSOR_ACC_RANGE` at `ACC_RANGE_8G`, in
which the first register operation fails and the later ones succeed. -/
def env8G : Env :=
  { envScript [⟨false, []⟩] with MPU_9250_SENSOR_ACC_RANGE := ACC_RANGE_8G }

/-- The state after `enableAccX` and a `configure(SENSORS_HW_INIT, 0)`. -/
def hwInitWhileEnabledWorld : World :=
  (runCalls (envScript []) (enableAccX ++ [Call.configure 1 SENSORS_HW_INIT 0])
    World.init).getD World.init

/-! ## Lemmas -/

theorem toInt16_idem (n : Int) : toInt16 (toInt16 n) = toInt16 n := by
  unfold toInt16
  omega

theorem toInt16_range (n : Int) : -32768 ≤ toInt16 n ∧ toInt16 n ≤ 32767 := by
  unfold toInt16
  omega

theorem roundHalfEven_intCast (n : Int) : roundHalfEven (n : ℚ) = n := by
  simp [roundHalfEven]

theorem roundHalfEven_error (q : ℚ) : |(roundHalfEven q : ℚ) - q| ≤ 1 / 2 := by
  have h1 := Int.floor_le q
  have h2 := Int.lt_floor_add_one q
  unfold roundHalfEven
  split_ifs with ha hb hc
  · rw [abs_le]; constructor <;> linarith
  · rw [abs_le]; push_cast; constructor <;> linarith
  · rw [abs_le]; constructor <;> linarith
  · rw [abs_le]; push_cast; constructor <;> linarith

theorem roundBinary_dyadic (p : Nat) (m : Int) (k : Nat) (hm : |m| < 2 ^ p) :
    roundBinary p ((m : ℚ) / 2 ^ k) = (m : ℚ) / 2 ^ k := by
  by_cases h0 : m = 0
  · simp [roundBinary, h0]
  have hq : (m : ℚ) / 2 ^ k ≠ 0 := by
    have : (m : ℚ) ≠ 0 := by exact_mod_cast h0
    positivity
  have hpos : 0 < |(m : ℚ) / 2 ^ k| := abs_pos.mpr hq
  -- the exponent is small enough
  have hlt : |(m : ℚ) / 2 ^ k| < ((2 : ℕ) : ℚ) ^ ((p : Int) - (k : Int)) := by
    rw [abs_div, abs_of_pos (by positivity : (0 : ℚ) < 2 ^ k), zpow_sub₀ (by norm_num)]
    have hm' : |(m : ℚ)| < 2 ^ p := by exact_mod_cast hm
    push_cast
    simp only [zpow_natCast]
    exact div_lt_div_of_pos_right hm' (by positivity)
  have he : Int.log 2 |(m : ℚ) / 2 ^ k| + 1 - (p : Int) < 1 - (k : Int) := by
    have := (Int.lt_zpow_iff_log_lt (by norm_num) hpos).mp hlt
    omega
  unfold roundBinary
  rw [if_neg hq]
  generalize Int.log 2 |(m : ℚ) / 2 ^ k| + 1 - (p : Int) = t at he ⊢
  have ht : t ≤ -(k : Int) := by omega
  obtain ⟨j, hj⟩ : ∃ j : ℕ, (j : Int) = -(k : Int) - t :=
    ⟨(-(k : Int) - t).toNat, Int.toNat_of_nonneg (by omega)⟩
  have hpow : (2 : ℚ) ^ j = (2 ^ k)⁻¹ * (2 ^ t)⁻¹ := by
    rw [← zpow_natCast (2 : ℚ) j, hj, sub_eq_add_neg, zpow_add₀ (by norm_num), zpow_neg,
      zpow_neg, zpow_natCast]
  have hdiv : (m : ℚ) / 2 ^ k / (2 : ℚ) ^ t = ((m * 2 ^ j : Int) : ℚ) := by
    push_cast
    rw [hpow]
    field_simp
  rw [hdiv, roundHalfEven_intCast, ← hdiv]
  field_simp
  ring

theorem roundBinary_error (p : Nat) (q : ℚ) :
    |roundBinary p q - q| ≤ |q| / 2 ^ p := by
  by_cases hq : q = 0
  · simp [roundBinary, hq]
  have hpos : 0 < |q| := abs_pos.mpr hq
  unfold roundBinary
  rw [if_neg hq]
  set t : Int := Int.log 2 |q| + 1 - (p : Int) with ht
  have hu : (0 : ℚ) < 2 ^ t := by positivity
  have h1 := roundHalfEven_error (q / 2 ^ t)
  have h2 : (roundHalfEven (q / 2 ^ t) : ℚ) * 2 ^ t - q =
      ((roundHalfEven (q / 2 ^ t) : ℚ) - q / 2 ^ t) * 2 ^ t := by
    field_simp
  rw [h2, abs_mul, abs_of_pos hu]
  have h3 : (2 : ℚ) ^ t = 2 ^ (Int.log 2 |q|) * 2 / 2 ^ p := by
    rw [ht, zpow_sub₀ (by norm_num), zpow_add₀ (by norm_num)]
    simp
  have h4 : ((2 : ℕ) : ℚ) ^ (Int.log 2 |q|) ≤ |q| := Int.zpow_log_le_self (by norm_num) hpos
  push_cast at h4
  have h5 : (0 : ℚ) < 2 ^ p := by positivity
  calc |(roundHalfEven (q / 2 ^ t) : ℚ) - q / 2 ^ t| * 2 ^ t
      ≤ 1 / 2 * 2 ^ t := by
        exact mul_le_mul_of_nonneg_right h1 hu.le
    _ = 2 ^ (Int.log 2 |q|) / 2 ^ p := by rw [h3]; ring
    _ ≤ |q| / 2 ^ p := by
        exact div_le_div_of_nonneg_right h4 h5.le

/-- A dyadic value with a numerator below `2^24` is a `float`. -/
theorem toFloat_dyadic (m : Int) (k : Nat) (hm : |m| < 2 ^ 24) :
    toFloat ((m : ℚ) / 2 ^ k) = (m : ℚ) / 2 ^ k :=
  roundBinary_dyadic 24 m k hm

/-- A dyadic value with a numerator below `2^53` is a `double`. -/
theorem toDouble_dyadic (m : Int) (k : Nat) (hm : |m| < 2 ^ 53) :
    toDouble ((m : ℚ) / 2 ^ k) = (m : ℚ) / 2 ^ k :=
  roundBinary_dyadic 53 m k hm

theorem toFloat_int (m : Int) (hm : |m| < 2 ^ 24) : toFloat (m : ℚ) = m := by
  have := toFloat_dyadic m 0 hm
  simpa using this

theorem toDouble_int (m : Int) (hm : |m| < 2 ^ 53) : toDouble (m : ℚ) = m := by
  have := toDouble_dyadic m 0 hm
  simpa using this

/-- The steps of `acc_convert` round nothing away: a 16-bit sample over `2^k`. -/
theorem convert_dyadic (s : Int) (k : Nat) (hs : -32768 ≤ s ∧ s ≤ 32767) :
    toFloat (toDouble (toDouble ((s : ℚ) * 1) / 2 ^ k)) = (s : ℚ) / 2 ^ k := by
  have h53 : |s| < 2 ^ 53 := by
    rw [abs_lt]; constructor <;> omega
  have h24 : |s| < 2 ^ 24 := by
    rw [abs_lt]; constructor <;> omega
  rw [mul_one, toDouble_int s h53, toDouble_dyadic s k h53, toFloat_dyadic s k h24]

/-- The product by 100 of a converted accelerometer sample is a `float`. -/
theorem times100_dyadic (s : Int) (k : Nat) (hs : -32768 ≤ s ∧ s ≤ 32767) :
    toFloat ((s : ℚ) / 2 ^ k * 100) = (s : ℚ) / 2 ^ k * 100 := by
  have h24 : |s * 100| < 2 ^ 24 := by
    rw [abs_lt]; constructor <;> omega
  have := toFloat_dyadic (s * 100) k h24
  have e : ((s * 100 : Int) : ℚ) / 2 ^ k = (s : ℚ) / 2 ^ k * 100 := by
    push_cast
    ring
  rw [e] at this
  exact this


/-- Truncation agrees on two values that lie strictly between the same two
consecutive integers. -/
theorem truncToInt_near (y g : ℚ) (N : Int) (δ : ℚ)
    (hy1 : (N : ℚ) + δ ≤ y) (hy2 : y ≤ (N : ℚ) + 1 - δ) (hg : |g - y| < δ) :
    truncToInt g = truncToInt y := by
  have hδ : 0 < δ := lt_of_le_of_lt (abs_nonneg _) hg
  rw [abs_lt] at hg
  have hgl : (N : ℚ) < g := by linarith
  have hgu : g < (N : ℚ) + 1 := by linarith
  have hyl : (N : ℚ) < y := by linarith
  have hyu : y < (N : ℚ) + 1 := by linarith
  unfold truncToInt
  by_cases hN : 0 ≤ N
  · have hN' : (0 : ℚ) ≤ N := by exact_mod_cast hN
    rw [if_pos (by linarith : (0 : ℚ) ≤ g), if_pos (by linarith : (0 : ℚ) ≤ y)]
    rw [Int.floor_eq_iff.mpr ⟨hgl.le, hgu⟩, Int.floor_eq_iff.mpr ⟨hyl.le, hyu⟩]
  · have hN' : (N : ℚ) + 1 ≤ 0 := by
      have : N + 1 ≤ 0 := by omega
      exact_mod_cast this
    rw [if_neg (by linarith : ¬ (0 : ℚ) ≤ g), if_neg (by linarith : ¬ (0 : ℚ) ≤ y)]
    have e1 : ⌊-g⌋ = -N - 1 := by
      rw [Int.floor_eq_iff]
      push_cast
      constructor <;> linarith
    have e2 : ⌊-y⌋ = -N - 1 := by
      rw [Int.floor_eq_iff]
      push_cast
      constructor <;> linarith
    rw [e1, e2]

/-- The rounding errors of the gyroscope conversion, for a quotient `x` of a
16-bit sample by 131: of the conversion itself, and of the product by 100. -/
theorem gyro_chain_error (x : ℚ) (hx : |x| ≤ 32768 / 131) :
    |toFloat (toDouble x) - x| < 1 / 65536 ∧
    |toFloat (toFloat (toDouble x) * 100) - 100 * x| < 1 / 131 := by
  have hd := roundBinary_error 53 x
  have hf := roundBinary_error 24 (toDouble x)
  have hg := roundBinary_error 24 (toFloat (toDouble x) * 100)
  change |toDouble x - x| ≤ _ at hd
  change |toFloat (toDouble x) - toDouble x| ≤ _ at hf
  change |toFloat (toFloat (toDouble x) * 100) - toFloat (toDouble x) * 100| ≤ _ at hg
  generalize toFloat (toFloat (toDouble x) * 100) = g at hg ⊢
  generalize toFloat (toDouble x) = f at hf hg ⊢
  generalize toDouble x = d at hd hf ⊢
  have ha := abs_nonneg x
  -- sizes
  have h1 : |d| ≤ |x| + |x| / 2 ^ 53 := by
    have := abs_sub_abs_le_abs_sub d x
    linarith
  have h2 : |f - d| ≤ (|x| + |x| / 2 ^ 53) / 2 ^ 24 := by
    have : |d| / 2 ^ 24 ≤ (|x| + |x| / 2 ^ 53) / 2 ^ 24 :=
      div_le_div_of_nonneg_right h1 (by positivity)
    linarith
  have h3 : |f - x| ≤ (|x| + |x| / 2 ^ 53) / 2 ^ 24 + |x| / 2 ^ 53 := by
    have := abs_sub_le f d x
    linarith
  have h4 : |f| ≤ |x| + ((|x| + |x| / 2 ^ 53) / 2 ^ 24 + |x| / 2 ^ 53) := by
    have := abs_sub_abs_le_abs_sub f x
    linarith
  have h5 : |g - f * 100| ≤
      (|x| + ((|x| + |x| / 2 ^ 53) / 2 ^ 24 + |x| / 2 ^ 53)) * 100 / 2 ^ 24 := by
    have e : |f * 100| = |f| * 100 := by
      rw [abs_mul]
      norm_num
    rw [e] at hg
    have : |f| * 100 / 2 ^ 24 ≤
        (|x| + ((|x| + |x| / 2 ^ 53) / 2 ^ 24 + |x| / 2 ^ 53)) * 100 / 2 ^ 24 :=
      div_le_div_of_nonneg_right (by linarith) (by positivity)
    linarith
  have h6 : |g - 100 * x| ≤ |g - f * 100| + 100 * |f - x| := by
    have := abs_sub_le g (f * 100) (100 * x)
    have e : |f * 100 - 100 * x| = 100 * |f - x| := by
      rw [show f * 100 - 100 * x = 100 * (f - x) by ring, abs_mul]
      norm_num
    linarith
  constructor
  · calc |f - x| ≤ (|x| + |x| / 2 ^ 53) / 2 ^ 24 + |x| / 2 ^ 53 := h3
      _ ≤ (32768 / 131 + 32768 / 131 / 2 ^ 53) / 2 ^ 24 + 32768 / 131 / 2 ^ 53 := by
        gcongr
      _ < 1 / 65536 := by norm_num
  · calc |g - 100 * x| ≤ |g - f * 100| + 100 * |f - x| := h6
      _ ≤ (|x| + ((|x| + |x| / 2 ^ 53) / 2 ^ 24 + |x| / 2 ^ 53)) * 100 / 2 ^ 24 +
            100 * ((|x| + |x| / 2 ^ 53) / 2 ^ 24 + |x| / 2 ^ 53) := by
        linarith
      _ ≤ (32768 / 131 + ((32768 / 131 + 32768 / 131 / 2 ^ 53) / 2 ^ 24 +
              32768 / 131 / 2 ^ 53)) * 100 / 2 ^ 24 +
            100 * ((32768 / 131 + 32768 / 131 / 2 ^ 53) / 2 ^ 24 + 32768 / 131 / 2 ^ 53) := by
        gcongr
      _ < 1 / 131 := by norm_num


/-- `gyro_convert` on a 16-bit sample: the quotient by 131, rounded to `double` and
then to `float`. -/
theorem gyro_convert_eq (s : Int) (hs : -32768 ≤ s ∧ s ≤ 32767) :
    gyro_convert s = toFloat (toDouble ((s : ℚ) / 131)) := by
  have hr : toInt16 s = s := by
    unfold toInt16
    omega
  have h53 : |s| < 2 ^ 53 := by
    rw [abs_lt]; constructor <;> omega
  have hd : ((65536 / 500 : Int) : ℚ) = 131 := by norm_num
  unfold gyro_convert
  rw [hr, mul_one, toDouble_int s h53, hd]

theorem quotient_bound (s : Int) (hs : -32768 ≤ s ∧ s ≤ 32767) :
    |(s : ℚ) / 131| ≤ 32768 / 131 := by
  rw [abs_div, abs_of_pos (by norm_num : (0 : ℚ) < 131)]
  have : |(s : ℚ)| ≤ 32768 := by
    rw [abs_le]
    constructor
    · have : (-32768 : Int) ≤ s := hs.1
      exact_mod_cast this
    · have : s ≤ (32768 : Int) := by omega
      exact_mod_cast this
  exact div_le_div_of_nonneg_right this (by norm_num)

/-- The centi-unit reading of the gyroscope: the roundings of the conversion never
carry the product by 100 across an integer. -/
theorem gyro_centi (s : Int) (hs : -32768 ≤ s ∧ s ≤ 32767) :
    truncToInt (toFloat (gyro_convert s * 100)) = truncToInt (100 * (s : ℚ) / 131) := by
  rw [gyro_convert_eq s hs]
  by_cases hdvd : s % 131 = 0
  · -- the quotient is an integer: nothing is rounded
    obtain ⟨t, ht⟩ : ∃ t : Int, s = 131 * t := ⟨s / 131, by omega⟩
    have ht1 : -251 ≤ t ∧ t ≤ 251 := by omega
    have e1 : (s : ℚ) / 131 = (t : ℚ) := by
      rw [ht]
      push_cast
      field_simp
    have h53 : |t| < 2 ^ 53 := by
      rw [abs_lt]; constructor <;> omega
    have h24 : |t| < 2 ^ 24 := by
      rw [abs_lt]; constructor <;> omega
    have h24' : |t * 100| < 2 ^ 24 := by
      rw [abs_lt]; constructor <;> omega
    have e2 : (t : ℚ) * 100 = ((t * 100 : Int) : ℚ) := by push_cast; ring
    have e3 : 100 * (s : ℚ) / 131 = ((t * 100 : Int) : ℚ) := by
      rw [ht]
      push_cast
      field_simp
      ring
    rw [e1, toDouble_int t h53, toFloat_int t h24, e2, toFloat_int _ h24', e3]
  · have hN : (100 * s) % 131 ≠ 0 := by omega
    have hr1 : 1 ≤ (100 * s) % 131 := by omega
    have hr2 : (100 * s) % 131 ≤ 130 := by omega
    have hdecomp : (100 * (s : ℚ)) / 131 =
        (((100 * s) / 131 : Int) : ℚ) + (((100 * s) % 131 : Int) : ℚ) / 131 := by
      have := Int.emod_add_ediv (100 * s) 131
      have hq : (100 * (s : ℚ)) = (((100 * s) % 131 : Int) : ℚ) +
          131 * (((100 * s) / 131 : Int) : ℚ) := by
        exact_mod_cast this.symm
      rw [hq]
      field_simp
      ring
    have hr1' : (1 : ℚ) ≤ (((100 * s) % 131 : Int) : ℚ) := by exact_mod_cast hr1
    have hr2' : (((100 * s) % 131 : Int) : ℚ) ≤ 130 := by exact_mod_cast hr2
    have herr := (gyro_chain_error ((s : ℚ) / 131) (quotient_bound s hs)).2
    have e : 100 * ((s : ℚ) / 131) = 100 * (s : ℚ) / 131 := by ring
    rw [e] at herr
    apply truncToInt_near (100 * (s : ℚ) / 131) _ ((100 * s) / 131) (1 / 131) _ _ herr
    · rw [hdecomp]
      have : (1 : ℚ) / 131 ≤ (((100 * s) % 131 : Int) : ℚ) / 131 :=
        div_le_div_of_nonneg_right hr1' (by norm_num)
      linarith
    · rw [hdecomp]
      have : (((100 * s) % 131 : Int) : ℚ) / 131 ≤ 130 / 131 :=
        div_le_div_of_nonneg_right hr2' (by norm_num)
      linarith

/-- `gyro_convert` yields 250 for the sample 32750 only. -/
theorem gyro_convert_250 (s : Int) (hs : -32768 ≤ s ∧ s ≤ 32767) :
    gyro_convert s = 250 ↔ s = 32750 := by
  rw [gyro_convert_eq s hs]
  constructor
  · intro h
    have herr := (gyro_chain_error ((s : ℚ) / 131) (quotient_bound s hs)).1
    rw [h, abs_lt] at herr
    have h1 : (32749 : ℚ) < s := by
      have := herr.2
      have e : (s : ℚ) = (s : ℚ) / 131 * 131 := by field_simp
      rw [e]
      linarith
    have h2 : (s : ℚ) < 32751 := by
      have := herr.1
      have e : (s : ℚ) = (s : ℚ) / 131 * 131 := by field_simp
      rw [e]
      linarith
    have h1' : (32749 : Int) < s := by exact_mod_cast h1
    have h2' : s < (32751 : Int) := by exact_mod_cast h2
    omega
  · intro h
    rw [h]
    have e : ((32750 : Int) : ℚ) / 131 = ((250 : Int) : ℚ) := by norm_num
    rw [e, toDouble_int 250 (by norm_num), toFloat_int 250 (by norm_num)]
    norm_num

/-- `acc_convert` on a 16-bit sample, for the four ranges: nothing is rounded. -/
theorem acc_convert_eq (w : World) (s : Int) (hs : -32768 ≤ s ∧ s ≤ 32767)
    (hrange : w.acc_range ≤ 3) :
    acc_convert w s = (s : ℚ) / 2 ^ (14 - w.acc_range) ∧
    toFloat (acc_convert w s * 100) = (s : ℚ) / 2 ^ (14 - w.acc_range) * 100 := by
  have hr : toInt16 s = s := by
    unfold toInt16
    omega
  have key : acc_convert w s = (s : ℚ) / 2 ^ (14 - w.acc_range) := by
    obtain ⟨r, hr'⟩ : ∃ r, w.acc_range = r := ⟨_, rfl⟩
    have hr3 : r ≤ 3 := by rw [← hr']; exact hrange
    unfold acc_convert
    rw [hr, hr']
    interval_cases r
    · have h := convert_dyadic s 14 hs
      simpa [ACC_RANGE_2G] using h
    · have h := convert_dyadic s 13 hs
      simpa [ACC_RANGE_2G, ACC_RANGE_4G] using h
    · have h := convert_dyadic s 12 hs
      simpa [ACC_RANGE_2G, ACC_RANGE_4G, ACC_RANGE_8G] using h
    · have h := convert_dyadic s 11 hs
      simpa [ACC_RANGE_2G, ACC_RANGE_4G, ACC_RANGE_8G, ACC_RANGE_16G] using h
  refine ⟨key, ?_⟩
  rw [key]
  exact times100_dyadic s _ hs

/-- Scaling an `int16_t` by 256 and shifting right by 8 gives it back. -/
theorem scale_256 (n : Int) : toInt16 ((toInt16 n * 256) >>> (8 : Nat)) = toInt16 n := by
  rw [Int.shiftRight_eq_div_pow]
  have : (toInt16 n * 256) / ((2 ^ 8 : Nat) : Int) = toInt16 n := by
    norm_num
  rw [this, toInt16_idem]

/-- Every byte an answer leaves in a buffer is a byte. -/
theorem bytes_lt (r : BusResp) (len : Nat) : ∀ b ∈ r.bytes len, b < 256 := by
  intro b hb
  simp only [BusResp.bytes, List.mem_map] at hb
  obtain ⟨i, _, rfl⟩ := hb
  exact Nat.mod_lt _ (by norm_num)

/-- The little-endian word of two bytes in memory is `(hi << 8) | lo`. -/
theorem lo_add_hi (hi lo : Nat) (h : lo < 256) : lo + 256 * hi = hi <<< 8 ||| lo := by
  have := Nat.mul_add_lt_is_or (i := 8) (b := lo) (by simpa using h) hi
  rw [Nat.shiftLeft_eq, Nat.mul_comm hi, ← this]
  norm_num
  omega

theorem status_ne_zero {s : Nat} (h : s &&& BIT_RAW_RDY_EN ≠ 0) : s ≠ 0 := by
  intro h0
  rw [h0] at h
  simp at h

/-- The byte written to `MAG_CNTL1`. -/
theorem cntl1_byte : toUInt8 ((scale <<< 4 ||| mode : Nat) : Int) = 0x11 := by decide

theorem map_fst_of_pair {o : Option (Int × World)} {a : Int} {b : Nat}
    (h : o.map (fun r => (r.1, r.2.nbus)) = some (a, b)) : o.map Prod.fst = some a := by
  cases o with
  | none => simp at h
  | some r =>
    simp only [Option.map_some', Option.some.injEq, Prod.mk.injEq] at h
    simp [h.1]

/-- The polling loop leaves at its `n`-th round when the status byte read there is
the first nonzero one and the timeout has not struck before. -/
theorem pollLoop_exit (env : Env) (n : Nat) :
    ∀ (w : World) (fuel : Nat), n < fuel →
      (∀ k, k < n → statusByte env (w.nbus + k) = 0 ∧ stillWaiting env w.t0 (w.nclk + k) = true) →
      statusByte env (w.nbus + n) ≠ 0 →
      ∃ w1, pollLoop fuel env w = some w1 ∧
        w1.interrupt_status = statusByte env (w.nbus + n) ∧
        w1.nbus = w.nbus + n + 1 ∧ w1.acc_range = w.acc_range ∧ w1.state = w.state := by
  induction n with
  | zero =>
    intro w fuel hfuel _ hst
    obtain ⟨f, rfl⟩ : ∃ f, fuel = f + 1 := ⟨fuel - 1, by omega⟩
    refine ⟨(int_status env w).2, ?_, ?_, ?_, ?_, ?_⟩
    · have : (int_status env w).1 ≠ 0 := by
        simpa [int_status, SENSOR_SELECT, SENSOR_DESELECT, board_i2c_select, board_i2c_deselect,
          sensor_common_read_reg, statusByte] using hst
      simp [pollLoop, this]
    all_goals
      simp [int_status, SENSOR_SELECT, SENSOR_DESELECT, board_i2c_select, board_i2c_deselect,
        sensor_common_read_reg, statusByte]
  | succ n ih =>
    intro w fuel hfuel hzero hst
    obtain ⟨f, rfl⟩ : ∃ f, fuel = f + 1 := ⟨fuel - 1, by omega⟩
    have h0 := hzero 0 (by omega)
    have hs : (int_status env w).1 = 0 := by
      simpa [int_status, SENSOR_SELECT, SENSOR_DESELECT, board_i2c_select, board_i2c_deselect,
        sensor_common_read_reg, statusByte] using h0.1
    have hw : RTIMER_CLOCK_LT (RTIMER_NOW env (int_status env w).2).1
        (((RTIMER_NOW env (int_status env w).2).2.t0 + READING_WAIT_TIMEOUT) % 4294967296)
        = true := by
      simpa [RTIMER_NOW, int_status, SENSOR_SELECT, SENSOR_DESELECT, board_i2c_select,
        board_i2c_deselect, sensor_common_read_reg, stillWaiting] using h0.2
    have hnb : (RTIMER_NOW env (int_status env w).2).2.nbus = w.nbus + 1 := by
      simp [RTIMER_NOW, int_status, SENSOR_SELECT, SENSOR_DESELECT, board_i2c_select,
        board_i2c_deselect, sensor_common_read_reg]
    have hnc : (RTIMER_NOW env (int_status env w).2).2.nclk = w.nclk + 1 := by
      simp [RTIMER_NOW, int_status, SENSOR_SELECT, SENSOR_DESELECT, board_i2c_select,
        board_i2c_deselect, sensor_common_read_reg]
    have ht0 : (RTIMER_NOW env (int_status env w).2).2.t0 = w.t0 := by
      simp [RTIMER_NOW, int_status, SENSOR_SELECT, SENSOR_DESELECT, board_i2c_select,
        board_i2c_deselect, sensor_common_read_reg]
    have har : (RTIMER_NOW env (int_status env w).2).2.acc_range = w.acc_range := by
      simp [RTIMER_NOW, int_status, SENSOR_SELECT, SENSOR_DESELECT, board_i2c_select,
        board_i2c_deselect, sensor_common_read_reg]
    have hstt : (RTIMER_NOW env (int_status env w).2).2.state = w.state := by
      simp [RTIMER_NOW, int_status, SENSOR_SELECT, SENSOR_DESELECT, board_i2c_select,
        board_i2c_deselect, sensor_common_read_reg]
    obtain ⟨w1, hp, h1, h2, h3, h4⟩ := ih (RTIMER_NOW env (int_status env w).2).2 f (by omega)
      (by
        intro k hk
        have := hzero (k + 1) (by omega)
        rw [hnb, hnc, ht0]
        simpa [Nat.add_assoc, Nat.add_comm 1 k] using this)
      (by
        rw [hnb]
        simpa [Nat.add_assoc, Nat.add_comm 1 n] using hst)
    refine ⟨w1, ?_, ?_, ?_, ?_, ?_⟩
    · simp only [pollLoop, hs, if_true, hw]
      exact hp
    · rw [h1, hnb]; congr 1; omega
    · rw [h2, hnb]; omega
    · rw [h3, har]
    · rw [h4, hstt]

/-- What `value` returns once the polling loop has seen a ready status and
the burst read has succeeded: the accelerometer branch. -/
theorem value_acc_ready (env : Env) (w : World) (n fuel : Nat) (type : Int)
    (b0 b1 b2 b3 b4 b5 : Nat)
    (hen : w.state ≠ SENSOR_STATE_DISABLED)
    (hacc : Int.land type MPU_9250_SENSOR_TYPE_ACC ≠ 0)
    (hfuel : n < fuel)
    (hwait : ∀ k, k < n → statusByte env (w.nbus + k) = 0 ∧
      stillWaiting env (env.rtimer w.nclk % 4294967296) (w.nclk + 1 + k) = true)
    (hrdy : statusByte env (w.nbus + n) &&& BIT_RAW_RDY_EN ≠ 0)
    (hok : (env.bus (w.nbus + n + 1)).ok = true)
    (hburst : (env.bus (w.nbus + n + 1)).bytes 6 = [b0, b1, b2, b3, b4, b5]) :
    (value fuel env type w).map (fun r => (r.1, r.2.nbus)) = some (truncToInt (toFloat (
      (if type = MPU_9250_SENSOR_TYPE_ACC_X then acc_convert w (word16 b0 b1)
       else if type = MPU_9250_SENSOR_TYPE_ACC_Y then acc_convert w (word16 b2 b3)
       else if type = MPU_9250_SENSOR_TYPE_ACC_Z then acc_convert w (word16 b4 b5)
       else 0) * 100)), w.nbus + n + 2) := by
  have hall := bytes_lt (env.bus (w.nbus + n + 1)) 6
  rw [hburst] at hall
  have h0 := hall b0 (by simp)
  have h1 := hall b1 (by simp)
  have h2 := hall b2 (by simp)
  have h3 := hall b3 (by simp)
  have h4 := hall b4 (by simp)
  have h5 := hall b5 (by simp)
  obtain ⟨w1, hp, hi, hnb, har, _⟩ := pollLoop_exit env n
    { (RTIMER_NOW env { w with sensor_value := List.replicate 6 0 }).2 with
      t0 := (RTIMER_NOW env { w with sensor_value := List.replicate 6 0 }).1 } fuel hfuel
    (by simpa [RTIMER_NOW] using hwait)
    (by simpa [RTIMER_NOW] using status_ne_zero hrdy)
  simp only [RTIMER_NOW] at hp hi hnb har
  have hr1 : w1.interrupt_status &&& BIT_RAW_RDY_EN ≠ 0 := by rw [hi]; exact hrdy
  simp only [value, if_neg hen, if_pos hacc, RTIMER_NOW, hp]
  have hb : (env.bus w1.nbus).bytes DATA_SIZE = [b0, b1, b2, b3, b4, b5] := by
    rw [hnb]; exact hburst
  have hk : (env.bus w1.nbus).ok = true := by rw [hnb]; exact hok
  simp only [acc_read, if_pos hr1, sensor_common_read_reg, SENSOR_SELECT, board_i2c_select,
    hb, hk]
  simp [SENSOR_DESELECT, board_i2c_deselect, DATA_SIZE, convert_to_le, hnb,
    sensor_word, acc_convert, har, word16, h0, h1, h2, h3, h4, h5,
    lo_add_hi, toInt16_idem]

/-- What `value` returns once the polling loop has seen a ready status and
the burst read has succeeded: the gyroscope branch. -/
theorem value_gyro_ready (env : Env) (w : World) (n fuel : Nat) (type : Int)
    (b0 b1 b2 b3 b4 b5 : Nat)
    (hen : w.state ≠ SENSOR_STATE_DISABLED)
    (hacc : Int.land type MPU_9250_SENSOR_TYPE_ACC = 0)
    (hgyro : Int.land type MPU_9250_SENSOR_TYPE_GYRO ≠ 0)
    (hfuel : n < fuel)
    (hwait : ∀ k, k < n → statusByte env (w.nbus + k) = 0 ∧
      stillWaiting env (env.rtimer w.nclk % 4294967296) (w.nclk + 1 + k) = true)
    (hrdy : statusByte env (w.nbus + n) &&& BIT_RAW_RDY_EN ≠ 0)
    (hok : (env.bus (w.nbus + n + 1)).ok = true)
    (hburst : (env.bus (w.nbus + n + 1)).bytes 6 = [b0, b1, b2, b3, b4, b5]) :
    (value fuel env type w).map (fun r => (r.1, r.2.nbus)) = some (truncToInt (toFloat (
      (if type = MPU_9250_SENSOR_TYPE_GYRO_X then gyro_convert (word16 b0 b1)
       else if type = MPU_9250_SENSOR_TYPE_GYRO_Y then gyro_convert (word16 b2 b3)
       else if type = MPU_9250_SENSOR_TYPE_GYRO_Z then gyro_convert (word16 b4 b5)
       else 0) * 100)), w.nbus + n + 2) := by
  have hall := bytes_lt (env.bus (w.nbus + n + 1)) 6
  rw [hburst] at hall
  have h0 := hall b0 (by simp)
  have h1 := hall b1 (by simp)
  have h2 := hall b2 (by simp)
  have h3 := hall b3 (by simp)
  have h4 := hall b4 (by simp)
  have h5 := hall b5 (by simp)
  obtain ⟨w1, hp, hi, hnb, _, _⟩ := pollLoop_exit env n
    { (RTIMER_NOW env { w with sensor_value := List.replicate 6 0 }).2 with
      t0 := (RTIMER_NOW env { w with sensor_value := List.replicate 6 0 }).1 } fuel hfuel
    (by simpa [RTIMER_NOW] using hwait)
    (by simpa [RTIMER_NOW] using status_ne_zero hrdy)
  simp only [RTIMER_NOW] at hp hi hnb
  have hr1 : w1.interrupt_status &&& BIT_RAW_RDY_EN ≠ 0 := by rw [hi]; exact hrdy
  have hacc1 : ¬ (Int.land type MPU_9250_SENSOR_TYPE_ACC ≠ 0) := by simpa using hacc
  simp only [value, if_neg hen, if_neg hacc1, if_pos hgyro, RTIMER_NOW, hp]
  have hb : (env.bus w1.nbus).bytes DATA_SIZE = [b0, b1, b2, b3, b4, b5] := by
    rw [hnb]; exact hburst
  have hk : (env.bus w1.nbus).ok = true := by rw [hnb]; exact hok
  simp only [gyro_read, if_pos hr1, sensor_common_read_reg, SENSOR_SELECT, board_i2c_select,
    hb, hk]
  simp [SENSOR_DESELECT, board_i2c_deselect, DATA_SIZE, convert_to_le, hnb,
    sensor_word, gyro_convert, word16, h0, h1, h2, h3, h4, h5,
    lo_add_hi, toInt16_idem]

theorem int_status_withState (env : Env) (w : World) (s : Int) :
    int_status env (w.withState s) =
      ((int_status env w).1, (int_status env w).2.withState s) := by
  rfl

theorem RTIMER_NOW_withState (env : Env) (w : World) (s : Int) :
    RTIMER_NOW env (w.withState s) =
      ((RTIMER_NOW env w).1, (RTIMER_NOW env w).2.withState s) := by
  rfl

theorem pollLoop_withState (env : Env) (s : Int) (fuel : Nat) :
    ∀ w : World, pollLoop fuel env (w.withState s) =
      (pollLoop fuel env w).map (fun w1 => w1.withState s) := by
  induction fuel with
  | zero => intro w; rfl
  | succ f ih =>
    intro w
    simp only [pollLoop, int_status_withState, RTIMER_NOW_withState]
    by_cases h1 : (int_status env w).1 = 0
    · simp only [h1, if_true]
      have ht : ((RTIMER_NOW env (int_status env w).2).2.withState s).t0 =
          (RTIMER_NOW env (int_status env w).2).2.t0 := rfl
      rw [ht]
      by_cases h2 : RTIMER_CLOCK_LT (RTIMER_NOW env (int_status env w).2).1
          (((RTIMER_NOW env (int_status env w).2).2.t0 + READING_WAIT_TIMEOUT) % 4294967296)
          = true
      · simp only [h2, if_true]
        exact ih _
      · simp [h2]
    · simp [h1]

theorem acc_read_withState (env : Env) (data : List Nat) (w : World) (s : Int) :
    acc_read env data (w.withState s) =
      ((acc_read env data w).1, (acc_read env data w).2.1,
        (acc_read env data w).2.2.withState s) := by
  unfold acc_read
  by_cases h : w.interrupt_status &&& BIT_RAW_RDY_EN ≠ 0
  · have h' : (w.withState s).interrupt_status &&& BIT_RAW_RDY_EN ≠ 0 := h
    rw [if_pos h, if_pos h']
    cases hr : (env.bus w.nbus).ok <;>
      simp [sensor_common_read_reg, SENSOR_SELECT, SENSOR_DESELECT, board_i2c_select,
        board_i2c_deselect, World.withState, hr]
  · have h' : ¬ ((w.withState s).interrupt_status &&& BIT_RAW_RDY_EN ≠ 0) := h
    rw [if_neg h, if_neg h']

theorem gyro_read_withState (env : Env) (data : List Nat) (w : World) (s : Int) :
    gyro_read env data (w.withState s) =
      ((gyro_read env data w).1, (gyro_read env data w).2.1,
        (gyro_read env data w).2.2.withState s) := by
  unfold gyro_read
  by_cases h : w.interrupt_status &&& BIT_RAW_RDY_EN ≠ 0
  · have h' : (w.withState s).interrupt_status &&& BIT_RAW_RDY_EN ≠ 0 := h
    rw [if_pos h, if_pos h']
    cases hr : (env.bus w.nbus).ok <;>
      simp [sensor_common_read_reg, SENSOR_SELECT, SENSOR_DESELECT, board_i2c_select,
        board_i2c_deselect, World.withState, hr]
  · have h' : ¬ ((w.withState s).interrupt_status &&& BIT_RAW_RDY_EN ≠ 0) := h
    rw [if_neg h, if_neg h']

/-- Apart from the test for `SENSOR_STATE_DISABLED`, `value` does not look at the
life-cycle state. -/
theorem value_withState (fuel : Nat) (env : Env) (type : Int) (w : World) (s : Int)
    (hw : w.state ≠ SENSOR_STATE_DISABLED) (hs : s ≠ SENSOR_STATE_DISABLED) :
    value fuel env type (w.withState s) =
      (value fuel env type w).map (fun r => (r.1, r.2.withState s)) := by
  have hs' : (w.withState s).state ≠ SENSOR_STATE_DISABLED := hs
  unfold value
  rw [if_neg hw, if_neg hs']
  have e1 : ({ w.withState s with sensor_value := List.replicate 6 0 } : World) =
      ({ w with sensor_value := List.replicate 6 0 } : World).withState s := rfl
  simp only [e1, RTIMER_NOW_withState]
  have e2 : ∀ v : World, ({ v.withState s with t0 := (RTIMER_NOW env ({ w with sensor_value := List.replicate 6 0 } : World)).1 } : World) =
      ({ v with t0 := (RTIMER_NOW env ({ w with sensor_value := List.replicate 6 0 } : World)).1 } : World).withState s := fun _ => rfl
  simp only [e2, pollLoop_withState]
  by_cases ha : Int.land type MPU_9250_SENSOR_TYPE_ACC ≠ 0
  · simp only [if_pos ha]
    generalize pollLoop fuel env _ = p
    cases p with
    | none => rfl
    | some w3 =>
      simp only [Option.map_some', acc_read_withState]
      have e3 : (w3.withState s).sensor_value = w3.sensor_value := rfl
      rw [e3]
      cases hr : (acc_read env w3.sensor_value w3).1 <;> simp [World.withState, acc_convert]
  · simp only [if_neg ha]
    by_cases hg : Int.land type MPU_9250_SENSOR_TYPE_GYRO ≠ 0
    · simp only [if_pos hg]
      generalize pollLoop fuel env _ = p
      cases p with
      | none => rfl
      | some w3 =>
        simp only [Option.map_some', gyro_read_withState]
        have e3 : (w3.withState s).sensor_value = w3.sensor_value := rfl
        rw [e3]
        cases hr : (gyro_read env w3.sensor_value w3).1 <;> simp [World.withState]
    · simp only [if_neg hg]
      rfl

/-! ## The magnetometer read -/

/-- C1 (fails on the code): for every driver state, when the write of the bypass byte
to `INT_PIN_CFG` fails, `SensorMpu9250_magRead` stores `MAG_BYPASS_FAIL` in
`magStatus` but leaves through `return false`: the byte it returns is 0, which
is `MAG_STATUS_OK`, not `MAG_BYPASS_FAIL`.  The call does abort without
addressing the magnetometer: its whole traffic is select, the failed write and
deselect on the main device, and the buffer is untouched. -/
theorem magRead_bypass_fail_returns_ok (env : Env) (data : MagData) (w : World)
    (hfail : (env.bus w.nbus).ok = false) :
    (SensorMpu9250_magRead env data w).1 = MAG_STATUS_OK ∧
    (SensorMpu9250_magRead env data w).1 ≠ MAG_BYPASS_FAIL ∧
    (SensorMpu9250_magRead env data w).2.1 = data ∧
    (SensorMpu9250_magRead env data w).2.2.magStatus = MAG_BYPASS_FAIL ∧
    (SensorMpu9250_magRead env data w).2.2.trace = w.trace ++
      [BusEvent.select SENSOR_I2C_ADDRESS,
       BusEvent.write (some SENSOR_I2C_ADDRESS) INT_PIN_CFG [0x22] false,
       BusEvent.deselect] := by
  simp [SensorMpu9250_magRead, SENSOR_SELECT, SENSOR_DESELECT, board_i2c_select,
    board_i2c_deselect, sensor_common_write_reg, hfail, MAG_BYPASS_FAIL, MAG_STATUS_OK,
    BIT_BYPASS_EN, BIT_LATCH_EN]

/-- C1 at a concrete input: the initial state, a bus on which the first write
fails. -/
theorem magRead_bypass_fail_returns_ok_witness :
    ((envScript [⟨false, []⟩]).bus World.init.nbus).ok = false ∧
    (SensorMpu9250_magRead (envScript [⟨false, []⟩]) (1, 2, 3) World.init).1 = 0 ∧
    MAG_BYPASS_FAIL = 5 :=
  ⟨rfl, (magRead_bypass_fail_returns_ok (envScript [⟨false, []⟩]) (1, 2, 3) World.init rfl).1,
    rfl⟩

/-- C2: for every 7-byte burst `b0..b6` whose overflow bit `0x08` of `b6` is clear,
given a successful bypass write, a successful read of `MAG_ST1` with the
data-ready bit set and the calibration triple `(256, 256, 256)`,
`SensorMpu9250_magRead` returns `MAG_STATUS_OK` and stores in `data[i]` the
signed 16-bit value `(b[2i+1] << 8) | b[2i]`, unchanged by the scaling. -/
theorem magRead_identity_calibration (env : Env) (data : MagData) (w : World)
    (b0 b1 b2 b3 b4 b5 b6 : Nat)
    (hcal : w.calX = 256 ∧ w.calY = 256 ∧ w.calZ = 256)
    (hbypass : (env.bus w.nbus).ok = true)
    (hst1 : (env.bus (w.nbus + 1)).ok = true)
    (hrdy : statusByte env (w.nbus + 1) &&& 0x01 ≠ 0)
    (hok : (env.bus (w.nbus + 2)).ok = true)
    (hburst : (env.bus (w.nbus + 2)).bytes 7 = [b0, b1, b2, b3, b4, b5, b6])
    (hovf : b6 &&& 0x08 = 0) :
    (SensorMpu9250_magRead env data w).1 = MAG_STATUS_OK ∧
    (SensorMpu9250_magRead env data w).2.1 =
      (toInt16 ((b1 <<< 8 ||| b0 : Nat) : Int),
       toInt16 ((b3 <<< 8 ||| b2 : Nat) : Int),
       toInt16 ((b5 <<< 8 ||| b4 : Nat) : Int)) := by
  obtain ⟨hx, hy, hz⟩ := hcal
  have hrdy1 : ((env.bus (w.nbus + 1)).bytes 1)[0]?.getD 0 % 2 = 1 := by
    simpa [statusByte] using hrdy
  simp [SensorMpu9250_magRead, SENSOR_SELECT, SENSOR_DESELECT, SENSOR_SELECT_MAG,
    board_i2c_select, board_i2c_deselect, sensor_common_write_reg, sensor_common_read_reg,
    hbypass, hst1, hok, hburst, hrdy1, hovf, hx, hy, hz, scale_256, MAG_STATUS_OK]

/-- C2 at a concrete input: the burst `34 12 FF FF 00 80 10` gives
`(0x1234, -1, -32768)`. -/
theorem magRead_identity_calibration_witness :
    (SensorMpu9250_magRead
      (envScript [⟨true, []⟩, ⟨true, [0x01]⟩, ⟨true, [0x34, 0x12, 0xFF, 0xFF, 0x00, 0x80, 0x10]⟩])
      (0, 0, 0) calibratedWorld).1 = 0 ∧
    (SensorMpu9250_magRead
      (envScript [⟨true, []⟩, ⟨true, [0x01]⟩, ⟨true, [0x34, 0x12, 0xFF, 0xFF, 0x00, 0x80, 0x10]⟩])
      (0, 0, 0) calibratedWorld).2.1 = (4660, -1, -32768) :=
  magRead_identity_calibration
    (envScript [⟨true, []⟩, ⟨true, [0x01]⟩, ⟨true, [0x34, 0x12, 0xFF, 0xFF, 0x00, 0x80, 0x10]⟩])
    (0, 0, 0) calibratedWorld 0x34 0x12 0xFF 0xFF 0x00 0x80 0x10
    (by decide) rfl rfl (by decide) rfl rfl (by decide)

/-- C3: for every 7-byte burst whose 7th byte has the overflow bit `0x08` set (the
bypass write, the read of `MAG_ST1` with the data-ready bit set and the burst
read having succeeded), `SensorMpu9250_magRead` returns `MAG_OVERFLOW` and the
caller's buffer is exactly what it was before the call. -/
theorem magRead_overflow_untouched (env : Env) (data : MagData) (w : World)
    (b0 b1 b2 b3 b4 b5 b6 : Nat)
    (hbypass : (env.bus w.nbus).ok = true)
    (hst1 : (env.bus (w.nbus + 1)).ok = true)
    (hrdy : statusByte env (w.nbus + 1) &&& 0x01 ≠ 0)
    (hok : (env.bus (w.nbus + 2)).ok = true)
    (hburst : (env.bus (w.nbus + 2)).bytes 7 = [b0, b1, b2, b3, b4, b5, b6])
    (hovf : b6 &&& 0x08 ≠ 0) :
    (SensorMpu9250_magRead env data w).1 = MAG_OVERFLOW ∧
    (SensorMpu9250_magRead env data w).2.1 = data := by
  have hrdy1 : ((env.bus (w.nbus + 1)).bytes 1)[0]?.getD 0 % 2 = 1 := by
    simpa [statusByte] using hrdy
  simp [SensorMpu9250_magRead, SENSOR_SELECT, SENSOR_DESELECT, SENSOR_SELECT_MAG,
    board_i2c_select, board_i2c_deselect, sensor_common_write_reg, sensor_common_read_reg,
    hbypass, hst1, hok, hburst, hrdy1, hovf, MAG_STATUS_OK, MAG_OVERFLOW]

/-- C3 at a concrete input: a burst ending in `0x18` leaves `(7, 8, 9)` in place. -/
theorem magRead_overflow_untouched_witness :
    (SensorMpu9250_magRead
      (envScript [⟨true, []⟩, ⟨true, [0x01]⟩, ⟨true, [0x34, 0x12, 0xFF, 0xFF, 0x00, 0x80, 0x18]⟩])
      (7, 8, 9) calibratedWorld).1 = 3 ∧
    (SensorMpu9250_magRead
      (envScript [⟨true, []⟩, ⟨true, [0x01]⟩, ⟨true, [0x34, 0x12, 0xFF, 0xFF, 0x00, 0x80, 0x18]⟩])
      (7, 8, 9) calibratedWorld).2.1 = (7, 8, 9) :=
  magRead_overflow_untouched
    (envScript [⟨true, []⟩, ⟨true, [0x01]⟩, ⟨true, [0x34, 0x12, 0xFF, 0xFF, 0x00, 0x80, 0x18]⟩])
    (7, 8, 9) calibratedWorld 0x34 0x12 0xFF 0xFF 0x00 0x80 0x18
    rfl rfl (by decide) rfl rfl (by decide)

/-- C4: when the bypass write succeeds, each failure point of
`SensorMpu9250_magRead` has its own status and the buffer is untouched: a failed
read of `MAG_ST1` returns `MAG_READ_ST_ERR`; a successful one with the data-ready
bit `0x01` clear returns `MAG_DATA_NOT_RDY`, and the call issues no 7-byte read;
a failed 7-byte burst read returns `MAG_READ_DATA_ERR`. -/
theorem magRead_failure_statuses (env : Env) (data : MagData) (w : World)
    (hbypass : (env.bus w.nbus).ok = true) :
    ((env.bus (w.nbus + 1)).ok = false →
      (SensorMpu9250_magRead env data w).1 = MAG_READ_ST_ERR ∧
      (SensorMpu9250_magRead env data w).2.1 = data) ∧
    ((env.bus (w.nbus + 1)).ok = true → statusByte env (w.nbus + 1) &&& 0x01 = 0 →
      (SensorMpu9250_magRead env data w).1 = MAG_DATA_NOT_RDY ∧
      (SensorMpu9250_magRead env data w).2.1 = data ∧
      ∀ e ∈ callEvents w (SensorMpu9250_magRead env data w).2.2, e.isReadOfLen 7 = false) ∧
    ((env.bus (w.nbus + 1)).ok = true → statusByte env (w.nbus + 1) &&& 0x01 ≠ 0 →
      (env.bus (w.nbus + 2)).ok = false →
      (SensorMpu9250_magRead env data w).1 = MAG_READ_DATA_ERR ∧
      (SensorMpu9250_magRead env data w).2.1 = data) := by
  refine ⟨?_, ?_, ?_⟩
  · intro h1
    simp [SensorMpu9250_magRead, SENSOR_SELECT, SENSOR_DESELECT, SENSOR_SELECT_MAG,
      board_i2c_select, board_i2c_deselect, sensor_common_write_reg, sensor_common_read_reg,
      hbypass, h1, MAG_STATUS_OK, MAG_READ_ST_ERR]
  · intro h1 h2
    have h2' : ((env.bus (w.nbus + 1)).bytes 1)[0]?.getD 0 % 2 = 0 := by
      simpa [statusByte] using h2
    simp [SensorMpu9250_magRead, SENSOR_SELECT, SENSOR_DESELECT, SENSOR_SELECT_MAG,
      board_i2c_select, board_i2c_deselect, sensor_common_write_reg, sensor_common_read_reg,
      hbypass, h1, h2', MAG_STATUS_OK, MAG_DATA_NOT_RDY, callEvents, BusEvent.isReadOfLen]
  · intro h1 h2 h3
    have h2' : ((env.bus (w.nbus + 1)).bytes 1)[0]?.getD 0 % 2 = 1 := by
      simpa [statusByte] using h2
    simp [SensorMpu9250_magRead, SENSOR_SELECT, SENSOR_DESELECT, SENSOR_SELECT_MAG,
      board_i2c_select, board_i2c_deselect, sensor_common_write_reg, sensor_common_read_reg,
      hbypass, h1, h2', h3, MAG_STATUS_OK, MAG_READ_DATA_ERR]

/-- C4 at concrete inputs, one for each failure point. -/
theorem magRead_failure_statuses_witness :
    (SensorMpu9250_magRead (envScript [⟨true, []⟩, ⟨false, []⟩]) (7, 8, 9) World.init).1 = 1 ∧
    (SensorMpu9250_magRead (envScript [⟨true, []⟩, ⟨true, [0x00]⟩]) (7, 8, 9) World.init).1 = 2 ∧
    (SensorMpu9250_magRead (envScript [⟨true, []⟩, ⟨true, [0x01]⟩, ⟨false, []⟩]) (7, 8, 9)
      World.init).1 = 4 ∧
    (SensorMpu9250_magRead (envScript [⟨true, []⟩, ⟨true, [0x01]⟩, ⟨false, []⟩]) (7, 8, 9)
      World.init).2.1 = (7, 8, 9) :=
  ⟨((magRead_failure_statuses (envScript [⟨true, []⟩, ⟨false, []⟩]) (7, 8, 9) World.init
      rfl).1 rfl).1,
   ((magRead_failure_statuses (envScript [⟨true, []⟩, ⟨true, [0x00]⟩]) (7, 8, 9) World.init
      rfl).2.1 rfl (by decide)).1,
   ((magRead_failure_statuses (envScript [⟨true, []⟩, ⟨true, [0x01]⟩, ⟨false, []⟩]) (7, 8, 9)
      World.init rfl).2.2 rfl (by decide) rfl).1,
   ((magRead_failure_statuses (envScript [⟨true, []⟩, ⟨true, [0x01]⟩, ⟨false, []⟩]) (7, 8, 9)
      World.init rfl).2.2 rfl (by decide) rfl).2⟩

/-- C5: in every call of `SensorMpu9250_magRead` whose bypass write succeeded,
whatever the status check and the data read did, the last register operation of
the call is a write of the byte `(scale << 4) | mode = 0x11` to `MAG_CNTL1` with
the magnetometer selected; it is the only write to `MAG_CNTL1` of the call, and
only the deselect follows it. -/
theorem magRead_rearms_last (env : Env) (data : MagData) (w : World)
    (hbypass : (env.bus w.nbus).ok = true) :
    ∃ ok : Bool,
      ((callEvents w (SensorMpu9250_magRead env data w).2.2).filter BusEvent.isRegOp).getLast? =
        some (BusEvent.write (some Board_MPU9250_MAG_ADDR) MAG_CNTL1 [0x11] ok) ∧
      ((callEvents w (SensorMpu9250_magRead env data w).2.2).filter
        (BusEvent.isWriteTo MAG_CNTL1)).length = 1 ∧
      (callEvents w (SensorMpu9250_magRead env data w).2.2).getLast? = some BusEvent.deselect := by
  cases h1 : (env.bus (w.nbus + 1)).ok
  · refine ⟨(env.bus (w.nbus + 2)).ok, ?_⟩
    simp [SensorMpu9250_magRead, SENSOR_SELECT, SENSOR_DESELECT, SENSOR_SELECT_MAG,
      board_i2c_select, board_i2c_deselect, sensor_common_write_reg, sensor_common_read_reg,
      hbypass, h1, MAG_STATUS_OK, callEvents, BusEvent.isRegOp, BusEvent.isWriteTo,
      List.filter_cons, List.getLast?_cons_cons, cntl1_byte, INT_PIN_CFG, MAG_CNTL1]
  · by_cases h2 : ((env.bus (w.nbus + 1)).bytes 1)[0]?.getD 0 % 2 = 1
    · cases h3 : (env.bus (w.nbus + 2)).ok
      · refine ⟨(env.bus (w.nbus + 3)).ok, ?_⟩
        simp [SensorMpu9250_magRead, SENSOR_SELECT, SENSOR_DESELECT, SENSOR_SELECT_MAG,
          board_i2c_select, board_i2c_deselect, sensor_common_write_reg, sensor_common_read_reg,
          hbypass, h1, h2, h3, MAG_STATUS_OK, callEvents, BusEvent.isRegOp, BusEvent.isWriteTo,
          List.filter_cons, List.getLast?_cons_cons, cntl1_byte, INT_PIN_CFG, MAG_CNTL1]
      · refine ⟨(env.bus (w.nbus + 3)).ok, ?_⟩
        by_cases h4 : ((env.bus (w.nbus + 2)).bytes 7)[6]?.getD 0 &&& 8 = 0
        · simp [SensorMpu9250_magRead, SENSOR_SELECT, SENSOR_DESELECT, SENSOR_SELECT_MAG,
            board_i2c_select, board_i2c_deselect, sensor_common_write_reg,
            sensor_common_read_reg, hbypass, h1, h2, h3, h4, MAG_STATUS_OK, callEvents,
            BusEvent.isRegOp, BusEvent.isWriteTo, List.filter_cons, List.getLast?_cons_cons,
            cntl1_byte, INT_PIN_CFG, MAG_CNTL1]
        · simp [SensorMpu9250_magRead, SENSOR_SELECT, SENSOR_DESELECT, SENSOR_SELECT_MAG,
            board_i2c_select, board_i2c_deselect, sensor_common_write_reg,
            sensor_common_read_reg, hbypass, h1, h2, h3, h4, MAG_STATUS_OK, callEvents,
            BusEvent.isRegOp, BusEvent.isWriteTo, List.filter_cons, List.getLast?_cons_cons,
            cntl1_byte, INT_PIN_CFG, MAG_CNTL1]
    · refine ⟨(env.bus (w.nbus + 2)).ok, ?_⟩
      simp [SensorMpu9250_magRead, SENSOR_SELECT, SENSOR_DESELECT, SENSOR_SELECT_MAG,
        board_i2c_select, board_i2c_deselect, sensor_common_write_reg, sensor_common_read_reg,
        hbypass, h1, h2, MAG_STATUS_OK, callEvents, BusEvent.isRegOp, BusEvent.isWriteTo,
        List.filter_cons, List.getLast?_cons_cons, cntl1_byte, INT_PIN_CFG, MAG_CNTL1]

/-- C5 at a concrete input: a call that finds the data not ready. -/
theorem magRead_rearms_last_witness :
    ∃ ok : Bool,
      ((callEvents World.init (SensorMpu9250_magRead (envScript [⟨true, []⟩, ⟨true, [0x00]⟩])
        (7, 8, 9) World.init).2.2).filter BusEvent.isRegOp).getLast? =
        some (BusEvent.write (some Board_MPU9250_MAG_ADDR) MAG_CNTL1 [0x11] ok) ∧
      ((callEvents World.init (SensorMpu9250_magRead (envScript [⟨true, []⟩, ⟨true, [0x00]⟩])
        (7, 8, 9) World.init).2.2).filter (BusEvent.isWriteTo MAG_CNTL1)).length = 1 ∧
      (callEvents World.init (SensorMpu9250_magRead (envScript [⟨true, []⟩, ⟨true, [0x00]⟩])
        (7, 8, 9) World.init).2.2).getLast? = some BusEvent.deselect :=
  magRead_rearms_last (envScript [⟨true, []⟩, ⟨true, [0x00]⟩]) (7, 8, 9) World.init rfl

/-! ## Sampling: `value` -/

/-- C6, counterexample: in state Booting `value` is not refused.  With the first
status poll answering `0x01` and the burst read `40 00 00 00 00 00`,
`value(MPU_9250_SENSOR_TYPE_ACC_X)` returns 100, which is not
`CC26XX_SENSOR_READING_ERROR`, after two register operations. -/
theorem value_booting_counterexample :
    bootingWorld.state = SENSOR_STATE_BOOTING ∧ bootingWorld.nbus = 0 ∧
    (value 1 (envScript [⟨true, [0x01]⟩, ⟨true, [0x40, 0, 0, 0, 0, 0]⟩])
      MPU_9250_SENSOR_TYPE_ACC_X bootingWorld).map (fun r => (r.1, r.2.nbus)) = some (100, 2) ∧
    (100 : Int) ≠ CC26XX_SENSOR_READING_ERROR := by
  refine ⟨rfl, rfl, ?_, by decide⟩
  have h := value_acc_ready (envScript [⟨true, [0x01]⟩, ⟨true, [0x40, 0, 0, 0, 0, 0]⟩])
    bootingWorld 0 1 MPU_9250_SENSOR_TYPE_ACC_X 0x40 0 0 0 0 0 (by decide) (by decide)
    (by decide) (by intro k hk; omega) (by decide) rfl rfl
  rw [h]
  have hw : word16 0x40 0 = 16384 := by decide
  have hr : bootingWorld.acc_range = 0 := rfl
  have hc := (acc_convert_eq bootingWorld 16384 (by decide) (by decide)).2
  simp only [if_true, hw, hc, hr]
  norm_num [truncToInt]
  rfl

/-- C6, amended: for every channel selector, `value` called while the life-cycle
state is Disabled returns `CC26XX_SENSOR_READING_ERROR` at once and leaves the
whole state, bus trace included, as it was.  In state Booting the call is not
refused: it returns what the same call returns in state Enabled, with the same
effects. -/
theorem value_refused_when_disabled (fuel : Nat) (env : Env) (type : Int) (w : World) :
    (w.state = SENSOR_STATE_DISABLED →
      value fuel env type w = some (CC26XX_SENSOR_READING_ERROR, w)) ∧
    (w.state = SENSOR_STATE_BOOTING →
      value fuel env type w =
        (value fuel env type (w.withState SENSOR_STATE_ENABLED)).map
          (fun r => (r.1, r.2.withState SENSOR_STATE_BOOTING))) := by
  constructor
  · intro h
    simp [value, h]
  · intro h
    have hw : (w.withState SENSOR_STATE_ENABLED).withState SENSOR_STATE_BOOTING = w := by
      cases w
      simp only [World.withState] at h ⊢
      simp only [h]
    have hne : (w.withState SENSOR_STATE_ENABLED).state ≠ SENSOR_STATE_DISABLED := by
      show SENSOR_STATE_ENABLED ≠ SENSOR_STATE_DISABLED
      decide
    have := value_withState fuel env type (w.withState SENSOR_STATE_ENABLED)
      SENSOR_STATE_BOOTING hne (by decide)
    rw [hw] at this
    exact this

/-- C7 (fails on the code): in state Enabled, after a poll that saw the ready bit and
a successful burst read, `value` returns 0, not `CC26XX_SENSOR_READING_ERROR`,
for every selector that has an accelerometer or gyroscope bit but is none of
the six single-axis selectors, such as `ACC_X | ACC_Y`. -/
theorem value_combined_selector_zero (env : Env) (w : World) (n fuel : Nat) (type : Int)
    (b0 b1 b2 b3 b4 b5 : Nat)
    (hen : w.state = SENSOR_STATE_ENABLED)
    (hbits : Int.land type MPU_9250_SENSOR_TYPE_ACC ≠ 0 ∨
      Int.land type MPU_9250_SENSOR_TYPE_GYRO ≠ 0)
    (hnone : type ≠ MPU_9250_SENSOR_TYPE_ACC_X ∧ type ≠ MPU_9250_SENSOR_TYPE_ACC_Y ∧
      type ≠ MPU_9250_SENSOR_TYPE_ACC_Z ∧ type ≠ MPU_9250_SENSOR_TYPE_GYRO_X ∧
      type ≠ MPU_9250_SENSOR_TYPE_GYRO_Y ∧ type ≠ MPU_9250_SENSOR_TYPE_GYRO_Z)
    (hfuel : n < fuel)
    (hwait : ∀ k, k < n → statusByte env (w.nbus + k) = 0 ∧
      stillWaiting env (env.rtimer w.nclk % 4294967296) (w.nclk + 1 + k) = true)
    (hrdy : statusByte env (w.nbus + n) &&& BIT_RAW_RDY_EN ≠ 0)
    (hok : (env.bus (w.nbus + n + 1)).ok = true)
    (hburst : (env.bus (w.nbus + n + 1)).bytes 6 = [b0, b1, b2, b3, b4, b5]) :
    (value fuel env type w).map Prod.fst = some 0 ∧
    (0 : Int) ≠ CC26XX_SENSOR_READING_ERROR := by
  refine ⟨?_, by decide⟩
  have hen' : w.state ≠ SENSOR_STATE_DISABLED := by rw [hen]; decide
  obtain ⟨hax, hay, haz, hgx, hgy, hgz⟩ := hnone
  have hz : truncToInt (toFloat ((0 : ℚ) * 100)) = 0 := by
    simp [toFloat, roundBinary, truncToInt]
  by_cases hacc : Int.land type MPU_9250_SENSOR_TYPE_ACC ≠ 0
  · have h := value_acc_ready env w n fuel type b0 b1 b2 b3 b4 b5 hen' hacc hfuel hwait hrdy
      hok hburst
    rw [map_fst_of_pair h, if_neg hax, if_neg hay, if_neg haz, hz]
  · have hacc0 : Int.land type MPU_9250_SENSOR_TYPE_ACC = 0 := by simpa using hacc
    have hg : Int.land type MPU_9250_SENSOR_TYPE_GYRO ≠ 0 := by
      rcases hbits with h | h
      · exact absurd h hacc
      · exact h
    have h := value_gyro_ready env w n fuel type b0 b1 b2 b3 b4 b5 hen' hacc0 hg hfuel hwait
      hrdy hok hburst
    rw [map_fst_of_pair h, if_neg hgx, if_neg hgy, if_neg hgz, hz]

/-- C7 at the failing input: state Enabled, selector `0x30 = ACC_X | ACC_Y`, the
first poll answers `0x01`, the burst read succeeds with `7F FF 00 00 00 00`. -/
theorem value_combined_selector_zero_witness :
    (0x30 : Int) = Int.lor MPU_9250_SENSOR_TYPE_ACC_X MPU_9250_SENSOR_TYPE_ACC_Y ∧
    (value 1 (envScript [⟨true, [0x01]⟩, ⟨true, [0x7F, 0xFF, 0, 0, 0, 0]⟩]) 0x30
      enabledWorld).map Prod.fst = some 0 :=
  ⟨by decide,
   (value_combined_selector_zero (envScript [⟨true, [0x01]⟩, ⟨true, [0x7F, 0xFF, 0, 0, 0, 0]⟩])
    enabledWorld 0 1 0x30 0x7F 0xFF 0 0 0 0 rfl (Or.inl (by decide)) (by decide) (by decide)
    (by intro k hk; omega) (by decide) rfl rfl).1⟩

/-- C8, counterexample: in state Enabled, ready bit seen, burst `7F FF 00 00 00 00`
(the word 32767): `value(MPU_9250_SENSOR_TYPE_GYRO_X)` returns 25012, whereas
`trunc(100 * 32767 / (65536 / 500))` over the rationals is 24999. -/
theorem value_gyro_counterexample :
    enabledWorld.state = SENSOR_STATE_ENABLED ∧
    (value 1 (envScript [⟨true, [0x01]⟩, ⟨true, [0x7F, 0xFF, 0, 0, 0, 0]⟩])
      MPU_9250_SENSOR_TYPE_GYRO_X enabledWorld).map Prod.fst = some 25012 ∧
    truncToInt (100 * (word16 0x7F 0xFF : ℚ) / ((65536 : ℚ) / 500)) = 24999 := by
  have hw : word16 0x7F 0xFF = 32767 := by decide
  refine ⟨rfl, ?_, ?_⟩
  · have h := value_gyro_ready (envScript [⟨true, [0x01]⟩, ⟨true, [0x7F, 0xFF, 0, 0, 0, 0]⟩])
      enabledWorld 0 1 MPU_9250_SENSOR_TYPE_GYRO_X 0x7F 0xFF 0 0 0 0 (by decide) (by decide)
      (by decide) (by decide) (by intro k hk; omega) (by decide) rfl rfl
    rw [map_fst_of_pair h]
    simp only [if_true, hw]
    rw [gyro_centi 32767 (by decide)]
    norm_num [truncToInt, Int.floor_eq_iff]
  · rw [hw]
    norm_num [truncToInt, Int.floor_eq_iff]

/-- C8, amended: in state Enabled, when the polling loop ends on a status with the
raw-data-ready bit set and the 6-byte burst read succeeds with bytes `b0..b5`,
`value(t)` for the single-axis selector `t` of axis `i` returns the truncation
toward zero of 100 times the converted value of the signed big-endian word
`s = (b[2i] << 8) | b[2i+1]`: `trunc(100 * s * fs / 32768)` for an
accelerometer selector with cached range `r` in `0..3`, `fs = 2^(r+1)`, and
`trunc(100 * s / 131)` for a gyroscope selector, 131 being the C integer
quotient `65536 / 500`.  The right-hand sides are exact rationals; the left-hand
sides go through the floating-point roundings of the code. -/
theorem value_single_axis (env : Env) (w : World) (n fuel : Nat)
    (b0 b1 b2 b3 b4 b5 : Nat)
    (hen : w.state = SENSOR_STATE_ENABLED)
    (hrange : w.acc_range ≤ ACC_RANGE_16G)
    (hfuel : n < fuel)
    (hwait : ∀ k, k < n → statusByte env (w.nbus + k) = 0 ∧
      stillWaiting env (env.rtimer w.nclk % 4294967296) (w.nclk + 1 + k) = true)
    (hrdy : statusByte env (w.nbus + n) &&& BIT_RAW_RDY_EN ≠ 0)
    (hok : (env.bus (w.nbus + n + 1)).ok = true)
    (hburst : (env.bus (w.nbus + n + 1)).bytes 6 = [b0, b1, b2, b3, b4, b5]) :
    (value fuel env MPU_9250_SENSOR_TYPE_ACC_X w).map Prod.fst =
      some (truncToInt (100 * (word16 b0 b1 : ℚ) * 2 ^ (w.acc_range + 1) / 32768)) ∧
    (value fuel env MPU_9250_SENSOR_TYPE_ACC_Y w).map Prod.fst =
      some (truncToInt (100 * (word16 b2 b3 : ℚ) * 2 ^ (w.acc_range + 1) / 32768)) ∧
    (value fuel env MPU_9250_SENSOR_TYPE_ACC_Z w).map Prod.fst =
      some (truncToInt (100 * (word16 b4 b5 : ℚ) * 2 ^ (w.acc_range + 1) / 32768)) ∧
    (value fuel env MPU_9250_SENSOR_TYPE_GYRO_X w).map Prod.fst =
      some (truncToInt (100 * (word16 b0 b1 : ℚ) / 131)) ∧
    (value fuel env MPU_9250_SENSOR_TYPE_GYRO_Y w).map Prod.fst =
      some (truncToInt (100 * (word16 b2 b3 : ℚ) / 131)) ∧
    (value fuel env MPU_9250_SENSOR_TYPE_GYRO_Z w).map Prod.fst =
      some (truncToInt (100 * (word16 b4 b5 : ℚ) / 131)) := by
  have hen' : w.state ≠ SENSOR_STATE_DISABLED := by rw [hen]; decide
  have hconv : ∀ hi lo : Nat, toFloat (acc_convert w (word16 hi lo) * 100) =
      100 * (word16 hi lo : ℚ) * 2 ^ (w.acc_range + 1) / 32768 := by
    intro hi lo
    rw [(acc_convert_eq w (word16 hi lo) (toInt16_range _) hrange).2]
    obtain ⟨r, hr⟩ : ∃ r, w.acc_range = r := ⟨_, rfl⟩
    have hr3 : r ≤ 3 := by rw [← hr]; exact hrange
    rw [hr]
    interval_cases r <;> norm_num <;> ring
  have hgyro : ∀ hi lo : Nat, truncToInt (toFloat (gyro_convert (word16 hi lo) * 100)) =
      truncToInt (100 * (word16 hi lo : ℚ) / 131) :=
    fun hi lo => gyro_centi (word16 hi lo) (toInt16_range _)
  refine ⟨?_, ?_, ?_, ?_, ?_, ?_⟩
  · rw [map_fst_of_pair (value_acc_ready env w n fuel _ b0 b1 b2 b3 b4 b5 hen' (by decide)
      hfuel hwait hrdy hok hburst)]
    rw [if_pos rfl, hconv]
  · rw [map_fst_of_pair (value_acc_ready env w n fuel _ b0 b1 b2 b3 b4 b5 hen' (by decide)
      hfuel hwait hrdy hok hburst)]
    rw [if_neg (by decide), if_pos rfl, hconv]
  · rw [map_fst_of_pair (value_acc_ready env w n fuel _ b0 b1 b2 b3 b4 b5 hen' (by decide)
      hfuel hwait hrdy hok hburst)]
    rw [if_neg (by decide), if_neg (by decide), if_pos rfl, hconv]
  · rw [map_fst_of_pair (value_gyro_ready env w n fuel _ b0 b1 b2 b3 b4 b5 hen' (by decide)
      (by decide) hfuel hwait hrdy hok hburst)]
    rw [if_pos rfl, hgyro]
  · rw [map_fst_of_pair (value_gyro_ready env w n fuel _ b0 b1 b2 b3 b4 b5 hen' (by decide)
      (by decide) hfuel hwait hrdy hok hburst)]
    rw [if_neg (by decide), if_pos rfl, hgyro]
  · rw [map_fst_of_pair (value_gyro_ready env w n fuel _ b0 b1 b2 b3 b4 b5 hen' (by decide)
      (by decide) hfuel hwait hrdy hok hburst)]
    rw [if_neg (by decide), if_neg (by decide), if_pos rfl, hgyro]

/-- C8 at a concrete input: two idle polls, then status `0x01` and the burst
`40 00 C0 00 7F FF`; with the range 2G the X readings are
`trunc(100 * 16384 * 2 / 32768) = 100` and `trunc(100 * 16384 / 131) = 12506`. -/
theorem value_single_axis_witness :
    (value 3 (envScript [⟨true, [0]⟩, ⟨true, [0]⟩, ⟨true, [0x01]⟩,
        ⟨true, [0x40, 0x00, 0xC0, 0x00, 0x7F, 0xFF]⟩])
      MPU_9250_SENSOR_TYPE_ACC_X enabledWorld).map Prod.fst = some 100 ∧
    (value 3 (envScript [⟨true, [0]⟩, ⟨true, [0]⟩, ⟨true, [0x01]⟩,
        ⟨true, [0x40, 0x00, 0xC0, 0x00, 0x7F, 0xFF]⟩])
      MPU_9250_SENSOR_TYPE_GYRO_X enabledWorld).map Prod.fst = some 12506 := by
  have h := value_single_axis (envScript [⟨true, [0]⟩, ⟨true, [0]⟩, ⟨true, [0x01]⟩,
        ⟨true, [0x40, 0x00, 0xC0, 0x00, 0x7F, 0xFF]⟩]) enabledWorld 2 3
      0x40 0x00 0xC0 0x00 0x7F 0xFF rfl (by decide) (by decide)
      (by intro k hk; interval_cases k <;> decide) (by decide) rfl rfl
  have hw : word16 0x40 0x00 = 16384 := by decide
  have hr : enabledWorld.acc_range = 0 := rfl
  refine ⟨?_, ?_⟩
  · rw [h.1, hw, hr]
    norm_num [truncToInt]
  · rw [h.2.2.2.1, hw]
    norm_num [truncToInt, Int.floor_eq_iff]

/-! ## Unit conversion -/

/-- C9: for every signed 16-bit raw sample and each of the four cached ranges, with
full scale 2, 4, 8, 16, `acc_convert(raw)` is exactly `raw / (32768 / fs)`, the
floating-point steps rounding nothing away, so that `raw = 16384` yields the
half-scale value 1, 2, 4, 8; for any other cached range value it yields 0. -/
theorem acc_convert_exact (w : World) (raw : Int) (hraw : -32768 ≤ raw ∧ raw ≤ 32767) :
    (w.acc_range = ACC_RANGE_2G →
      acc_convert w raw = (raw : ℚ) / (32768 / 2) ∧ acc_convert w 16384 = 1) ∧
    (w.acc_range = ACC_RANGE_4G →
      acc_convert w raw = (raw : ℚ) / (32768 / 4) ∧ acc_convert w 16384 = 2) ∧
    (w.acc_range = ACC_RANGE_8G →
      acc_convert w raw = (raw : ℚ) / (32768 / 8) ∧ acc_convert w 16384 = 4) ∧
    (w.acc_range = ACC_RANGE_16G →
      acc_convert w raw = (raw : ℚ) / (32768 / 16) ∧ acc_convert w 16384 = 8) ∧
    (ACC_RANGE_16G < w.acc_range → acc_convert w raw = 0) := by
  refine ⟨?_, ?_, ?_, ?_, ?_⟩
  · intro h
    simp only [ACC_RANGE_2G] at h
    rw [(acc_convert_eq w raw hraw (by omega)).1, (acc_convert_eq w 16384 (by decide) (by omega)).1,
      h]
    constructor <;> norm_num
  · intro h
    simp only [ACC_RANGE_4G] at h
    rw [(acc_convert_eq w raw hraw (by omega)).1, (acc_convert_eq w 16384 (by decide) (by omega)).1,
      h]
    constructor <;> norm_num
  · intro h
    simp only [ACC_RANGE_8G] at h
    rw [(acc_convert_eq w raw hraw (by omega)).1, (acc_convert_eq w 16384 (by decide) (by omega)).1,
      h]
    constructor <;> norm_num
  · intro h
    simp only [ACC_RANGE_16G] at h
    rw [(acc_convert_eq w raw hraw (by omega)).1, (acc_convert_eq w 16384 (by decide) (by omega)).1,
      h]
    constructor <;> norm_num
  · intro h
    simp only [ACC_RANGE_16G] at h
    have h0 : w.acc_range ≠ 0 := by omega
    have h1 : w.acc_range ≠ 1 := by omega
    have h2 : w.acc_range ≠ 2 := by omega
    have h3 : w.acc_range ≠ 3 := by omega
    simp [acc_convert, ACC_RANGE_2G, ACC_RANGE_4G, ACC_RANGE_8G, ACC_RANGE_16G, h0, h1, h2, h3]

/-- C9 at a concrete input: the initial state (range 2G) and the raw sample 16384. -/
theorem acc_convert_exact_witness :
    acc_convert World.init 16384 = ((16384 : Int) : ℚ) / (32768 / 2) ∧
    acc_convert World.init 16384 = 1 :=
  (acc_convert_exact World.init 16384 (by decide)).1 rfl

/-- C10, counterexample: `gyro_convert` applied to 32768 does not yield 250.  The
value 32768 is not an `int16_t`: it reaches the function as -32768, and the
result is below -250.  Even without that conversion, the quotient by the C
integer `65536 / 500 = 131` would be `32768 / 131`, which is not 250 either. -/
theorem gyro_convert_32768_counterexample :
    toInt16 32768 = -32768 ∧ gyro_convert 32768 = gyro_convert (-32768) ∧
    gyro_convert 32768 < -250 ∧ gyro_convert 32768 ≠ 250 ∧
    ((32768 : ℚ) * 1) / (((65536 / 500 : Int)) : ℚ) ≠ 250 := by
  have h : toInt16 32768 = -32768 := by decide
  have h' : toInt16 (-32768) = -32768 := by decide
  have he : gyro_convert 32768 = gyro_convert (-32768) := by
    unfold gyro_convert
    rw [h, h']
  have hlt : gyro_convert 32768 < -250 := by
    rw [he, gyro_convert_eq (-32768) (by decide)]
    have herr := (gyro_chain_error (((-32768 : Int) : ℚ) / 131)
      (quotient_bound (-32768) (by decide))).1
    rw [abs_lt] at herr
    have := herr.2
    push_cast at this ⊢
    linarith
  refine ⟨h, he, hlt, ?_, ?_⟩
  · intro h250
    rw [h250] at hlt
    norm_num at hlt
  · norm_num

/-- C10, amended: for every signed 16-bit raw value, `gyro_convert(raw)` is
`raw / 131` rounded to `double` and then to `float`, the divisor `65536 / 500`
being a C integer division; it is within `2^-16` of `raw / 131`, and it is
exactly 250 deg/s for the raw value 32750 and for no other. -/
theorem gyro_convert_by_131 (raw : Int) (hraw : -32768 ≤ raw ∧ raw ≤ 32767) :
    gyro_convert raw = toFloat (toDouble ((raw : ℚ) / 131)) ∧
    |gyro_convert raw - (raw : ℚ) / 131| < 1 / 65536 ∧
    (gyro_convert raw = 250 ↔ raw = 32750) := by
  refine ⟨gyro_convert_eq raw hraw, ?_, gyro_convert_250 raw hraw⟩
  rw [gyro_convert_eq raw hraw]
  exact (gyro_chain_error ((raw : ℚ) / 131) (quotient_bound raw hraw)).1

/-- C10 at a concrete input: the raw value 32750. -/
theorem gyro_convert_by_131_witness :
    |gyro_convert 32750 - ((32750 : Int) : ℚ) / 131| < 1 / 65536 ∧ gyro_convert 32750 = 250 :=
  ⟨(gyro_convert_by_131 32750 (by decide)).2.1, (gyro_convert_by_131 32750 (by decide)).2.2.2 rfl⟩

/-! ## Lemmas on the life cycle -/

theorem sensor_sleep_life (env : Env) (w : World) : (sensor_sleep env w).life = w.life := rfl

theorem sensor_wakeup_life (env : Env) (w : World) : (sensor_wakeup env w).life = w.life := rfl

theorem select_axes_life (env : Env) (w : World) : (select_axes env w).life = w.life := by
  simp only [select_axes, World.life, SENSOR_SELECT, SENSOR_DESELECT, board_i2c_select,
    board_i2c_deselect, sensor_common_write_reg]

theorem acc_set_range_life (env : Env) (n : Nat) (w : World) :
    (acc_set_range env n w).2.life = w.life := by
  unfold acc_set_range
  split
  · rfl
  · dsimp only
    split <;> rfl

theorem enable_sensor_life (env : Env) (axes : Nat) (w : World) :
    (enable_sensor env axes w).life = w.life := by
  unfold enable_sensor
  dsimp only
  split
  · rw [select_axes_life]
    split
    · exact sensor_wakeup_life env w
    · rfl
  · rw [sensor_sleep_life]
    split
    · exact sensor_wakeup_life env w
    · rfl

theorem int_status_life (env : Env) (w : World) : (int_status env w).2.life = w.life := rfl

theorem pollLoop_life (env : Env) (fuel : Nat) :
    ∀ w w1 : World, pollLoop fuel env w = some w1 → w1.life = w.life := by
  induction fuel with
  | zero => intro w w1 h; simp [pollLoop] at h
  | succ f ih =>
    intro w w1 h
    simp only [pollLoop] at h
    split at h
    · split at h
      · exact (ih _ _ h).trans rfl
      · injection h with h
        rw [← h]; rfl
    · injection h with h
      rw [← h]; rfl

theorem acc_read_life (env : Env) (data : List Nat) (w : World) :
    (acc_read env data w).2.2.life = w.life := by
  unfold acc_read
  split
  · dsimp only
    split <;> rfl
  · rfl

theorem gyro_read_life (env : Env) (data : List Nat) (w : World) :
    (gyro_read env data w).2.2.life = w.life := by
  unfold gyro_read
  split
  · dsimp only
    split <;> rfl
  · rfl

theorem value_life (fuel : Nat) (env : Env) (type : Int) (w : World) (r : Int × World)
    (h : value fuel env type w = some r) : r.2.life = w.life := by
  unfold value at h
  split at h
  · injection h with h; rw [← h]
  · dsimp only at h
    split at h
    · split at h
      · exact absurd h (by simp)
      · rename_i w3 hp
        have h3 := pollLoop_life env fuel _ _ hp
        have h4 := acc_read_life env w3.sensor_value w3
        split at h <;> (injection h with h; rw [← h]; exact h4.trans h3)
    · split at h
      · split at h
        · exact absurd h (by simp)
        · rename_i w3 hp
          have h3 := pollLoop_life env fuel _ _ hp
          have h4 := gyro_read_life env w3.sensor_value w3
          split at h <;> (injection h with h; rw [← h]; exact h4.trans h3)
      · injection h with h; rw [← h]; rfl

theorem magRead_life (env : Env) (data : MagData) (w : World) :
    (SensorMpu9250_magRead env data w).2.2.life = w.life := by
  simp only [SensorMpu9250_magRead, World.life, SENSOR_SELECT, SENSOR_DESELECT,
    SENSOR_SELECT_MAG, board_i2c_select, board_i2c_deselect, sensor_common_write_reg,
    sensor_common_read_reg]
  split_ifs <;> rfl

theorem busyLoop_life (env : Env) (fuel : Nat) :
    ∀ w w1 : World, busyLoop fuel env w = some w1 → w1.life = w.life ∧ w1.trace = w.trace ∧
      w1.mpu_config = w.mpu_config ∧ w1.acc_range = w.acc_range := by
  induction fuel with
  | zero => intro w w1 h; simp [busyLoop] at h
  | succ f ih =>
    intro w w1 h
    simp only [busyLoop] at h
    split at h
    · have := ih _ _ h
      exact ⟨this.1.trans rfl, this.2.1.trans rfl, this.2.2.1.trans rfl, this.2.2.2.trans rfl⟩
    · injection h with h
      rw [← h]; exact ⟨rfl, rfl, rfl, rfl⟩

theorem busyLoop_idle (env : Env) (k : Nat) :
    ∀ (fuel : Nat) (w : World), idleAfter env w k → k < fuel →
      ∃ w1, busyLoop fuel env w = some w1 := by
  induction k with
  | zero =>
    intro fuel w h hk
    obtain ⟨f, rfl⟩ : ∃ f, fuel = f + 1 := ⟨fuel - 1, by omega⟩
    have h0 : env.i2c_busy w.nbusy = false := by simpa using h.2
    exact ⟨{ w with nbusy := w.nbusy + 1 }, by simp [busyLoop, h0]⟩
  | succ k ih =>
    intro fuel w h hk
    obtain ⟨f, rfl⟩ : ∃ f, fuel = f + 1 := ⟨fuel - 1, by omega⟩
    have h0 : env.i2c_busy w.nbusy = true := by simpa using h.1 0 (by omega)
    have h1 : idleAfter env { w with nbusy := w.nbusy + 1 } k := by
      constructor
      · intro j hj
        have := h.1 (j + 1) (by omega)
        simpa [Nat.add_assoc, Nat.add_comm 1 j] using this
      · have := h.2
        simpa [Nat.add_assoc, Nat.add_comm 1 k] using this
    obtain ⟨w1, hw1⟩ := ih f _ h1 (by omega)
    exact ⟨w1, by simp [busyLoop, h0, hw1]⟩

theorem life_eq {w w1 : World} (h : w1.life = w.life) :
    w1.state = w.state ∧ w1.elements = w.elements ∧ w1.power = w.power ∧
      w1.startup_timer = w.startup_timer ∧ w1.notified = w.notified := by
  simpa [World.life] using h

theorem initialise_life (env : Env) (w : World) :
    (initialise env w).life =
      (w.state, w.elements, w.power, some (SENSOR_STARTUP_DELAY, Callback.notify_ready),
        w.notified) := by
  have h2 := life_eq (enable_sensor_life env
    (toUInt16 (Int.land (if Int.land w.elements MPU_9250_SENSOR_TYPE_ACC ≠ 0 then
          (acc_set_range env (env.MPU_9250_SENSOR_ACC_RANGE % 256) w).2 else w).elements
        MPU_9250_SENSOR_TYPE_ALL))
    (if Int.land w.elements MPU_9250_SENSOR_TYPE_ACC ≠ 0 then
          (acc_set_range env (env.MPU_9250_SENSOR_ACC_RANGE % 256) w).2 else w))
  have h1 : (if Int.land w.elements MPU_9250_SENSOR_TYPE_ACC ≠ 0 then
          (acc_set_range env (env.MPU_9250_SENSOR_ACC_RANGE % 256) w).2 else w).life = w.life := by
    split
    · exact acc_set_range_life env _ w
    · rfl
  have h1 := life_eq h1
  simp only [initialise, ctimer_set, World.life]
  rw [h2.1, h2.2.1, h2.2.2.1, h2.2.2.2.2, h1.1, h1.2.1, h1.2.2.1, h1.2.2.2.2]

/-- The events of `sensor_sleep`. -/
theorem sensor_sleep_events (env : Env) (w : World) :
    callEvents w (sensor_sleep env w) =
      [BusEvent.select SENSOR_I2C_ADDRESS,
       BusEvent.write (some SENSOR_I2C_ADDRESS) PWR_MGMT_2 [0x3F] (env.bus w.nbus).ok,
       BusEvent.write (some SENSOR_I2C_ADDRESS) PWR_MGMT_1 [0x4F] (env.bus (w.nbus + 1)).ok,
       BusEvent.deselect] := by
  simp [callEvents, sensor_sleep, SENSOR_SELECT, SENSOR_DESELECT, board_i2c_select,
    board_i2c_deselect, sensor_common_write_reg, ALL_AXES, MPU_SLEEP]

/-- The four ways through `configure`. -/
theorem configure_cases (fuel : Nat) (env : Env) (type enable : Int) (w : World)
    (r : Int × World) (h : configure fuel env type enable w = some r) :
    (type = SENSORS_HW_INIT ∧
      r = (w.state, { w with power := false, elements := MPU_9250_SENSOR_TYPE_NONE })) ∨
    (type = SENSORS_ACTIVE ∧
      (Int.land enable MPU_9250_SENSOR_TYPE_ACC ≠ 0 ∨
        Int.land enable MPU_9250_SENSOR_TYPE_GYRO ≠ 0) ∧
      r = (SENSOR_STATE_BOOTING,
        { w with elements := Int.land enable MPU_9250_SENSOR_TYPE_ALL, power := true,
                 state := SENSOR_STATE_BOOTING,
                 startup_timer := some (SENSOR_BOOT_DELAY, Callback.initialise) })) ∨
    (type = SENSORS_ACTIVE ∧
      ¬ (Int.land enable MPU_9250_SENSOR_TYPE_ACC ≠ 0 ∨
        Int.land enable MPU_9250_SENSOR_TYPE_GYRO ≠ 0) ∧ w.power = true ∧
      r.1 = SENSOR_STATE_DISABLED ∧
      r.2.life = (SENSOR_STATE_DISABLED, MPU_9250_SENSOR_TYPE_NONE, false, none, w.notified) ∧
      callEvents w r.2 = callEvents w (sensor_sleep env w) ∧
      r.2.mpu_config = w.mpu_config ∧ r.2.acc_range = w.acc_range) ∨
    (type ≠ SENSORS_HW_INIT ∧
      (type = SENSORS_ACTIVE →
        ¬ (Int.land enable MPU_9250_SENSOR_TYPE_ACC ≠ 0 ∨
          Int.land enable MPU_9250_SENSOR_TYPE_GYRO ≠ 0) ∧ w.power = false) ∧
      r = (w.state, w)) := by
  unfold configure at h
  split at h
  · rename_i ht
    left
    injection h with h
    exact ⟨ht, h.symm⟩
  · rename_i ht
    split at h
    · rename_i ha
      split at h
      · rename_i hen
        right; left
        injection h with h
        exact ⟨ha, hen, h.symm⟩
      · rename_i hen
        split at h
        · rename_i hp
          right; right; left
          dsimp only at h
          split at h
          · exact absurd h (by simp)
          · rename_i w4 hb
            injection h with h
            have hb := busyLoop_life env fuel _ _ hb
            have hl := life_eq hb.1
            refine ⟨ha, hen, hp, ?_, ?_, ?_, ?_, ?_⟩
            · rw [← h]
            · rw [← h]
              simp only [World.life]
              rw [hl.2.1, hl.2.2.2.1, hl.2.2.2.2]
              rfl
            · rw [← h]
              simp only [callEvents]
              rw [hb.2.1]
              rfl
            · rw [← h]
              exact hb.2.2.1
            · rw [← h]
              exact hb.2.2.2
        · rename_i hp
          right; right; right
          injection h with h
          refine ⟨ht, fun _ => ⟨hen, by simpa using hp⟩, h.symm⟩
    · rename_i ha
      right; right; right
      injection h with h
      exact ⟨ht, fun h' => absurd h' ha, h.symm⟩

/-- A property that every permitted call preserves holds after every sequence of
permitted calls. -/
theorem runCalls_invariant (env : Env) (P : World → Prop) (ok : Call → Prop)
    (step : ∀ c w w1, ok c → P w → c.run env w = some w1 → P w1) :
    ∀ (calls : List Call) (w w1 : World), (∀ c ∈ calls, ok c) → P w →
      runCalls env calls w = some w1 → P w1 := by
  intro calls
  induction calls with
  | nil =>
    intro w w1 _ hP h
    simp only [runCalls] at h
    injection h with h
    rw [← h]; exact hP
  | cons c cs ih =>
    intro w w1 hok hP h
    simp only [runCalls] at h
    cases hc : c.run env w with
    | none => rw [hc] at h; simp at h
    | some w2 =>
      rw [hc] at h
      simp only [Option.some_bind] at h
      exact ih w2 w1 (fun c' hc' => hok c' (List.mem_cons_of_mem _ hc'))
        (step c w w2 (hok c (List.mem_cons_self _ _)) hP hc) h

/-- What a call does to the life-cycle variables. -/
theorem Call.run_life (env : Env) (c : Call) (w w1 : World) (h : c.run env w = some w1) :
    w1.life = w.life ∨
    (c.isHwInit = true ∧
      w1.life = (w.state, MPU_9250_SENSOR_TYPE_NONE, false, w.startup_timer, w.notified)) ∨
    (c.isEnable = true ∧ w1.state = SENSOR_STATE_BOOTING ∧ w1.power = true ∧
      w1.startup_timer = some (SENSOR_BOOT_DELAY, Callback.initialise) ∧
      w1.notified = w.notified) ∨
    (w.power = true ∧
      w1.life = (SENSOR_STATE_DISABLED, MPU_9250_SENSOR_TYPE_NONE, false, none, w.notified)) ∨
    ((∃ d, w.startup_timer = some (d, Callback.initialise)) ∧
      w1.life = (w.state, w.elements, w.power,
        some (SENSOR_STARTUP_DELAY, Callback.notify_ready), w.notified)) ∨
    ((∃ d, w.startup_timer = some (d, Callback.notify_ready)) ∧
      w1.life = (SENSOR_STATE_ENABLED, w.elements, w.power, none, w.notified + 1)) := by
  cases c with
  | configure fuel type enable =>
    simp only [Call.run, Option.map_eq_some'] at h
    obtain ⟨r, hr, rfl⟩ := h
    rcases configure_cases fuel env type enable w r hr with
      ⟨ht, rfl⟩ | ⟨ht, hen, rfl⟩ | ⟨_, _, hp, _, hl, _⟩ | ⟨_, _, rfl⟩
    · right; left
      exact ⟨by simp [Call.isHwInit, ht], rfl⟩
    · right; right; left
      refine ⟨?_, rfl, rfl, rfl, rfl⟩
      simp only [Call.isEnable, ht, beq_self_eq_true, Bool.true_and, Bool.or_eq_true,
        bne_iff_ne]
      exact hen
    · right; right; right; left
      exact ⟨hp, hl⟩
    · left; rfl
  | value fuel type =>
    simp only [Call.run, Option.map_eq_some'] at h
    obtain ⟨r, hr, rfl⟩ := h
    left
    exact value_life fuel env type w r hr
  | status type =>
    simp only [Call.run] at h
    injection h with h
    left; rw [← h]
  | magRead data =>
    simp only [Call.run] at h
    injection h with h
    left; rw [← h]
    exact magRead_life env data w
  | expire =>
    simp only [Call.run] at h
    injection h with h
    rw [← h]
    unfold ctimer_expire
    split
    · left; rfl
    · rename_i d ht
      right; right; right; right; left
      exact ⟨⟨d, ht⟩, initialise_life env _⟩
    · rename_i d ht
      right; right; right; right; right
      exact ⟨⟨d, ht⟩, rfl⟩

theorem state_codes : SENSOR_STATE_BOOTING ≠ SENSOR_STATE_DISABLED ∧
    SENSOR_STATE_ENABLED ≠ SENSOR_STATE_DISABLED ∧
    SENSOR_STATE_ENABLED ≠ SENSOR_STATE_BOOTING := by decide

/-- In every state reached from the initial one, a disabled driver has its power
latch clear. -/
theorem disabled_unpowered (env : Env) (w : World) (h : Reachable env w) :
    w.state = SENSOR_STATE_DISABLED → w.power = false := by
  obtain ⟨calls, hc⟩ := h
  refine runCalls_invariant env
    (fun w => w.state = SENSOR_STATE_DISABLED → w.power = false) (fun _ => True) ?_
    calls World.init w (fun _ _ => trivial) (fun _ => rfl) hc
  intro c w w1 _ hP h
  rcases Call.run_life env c w w1 h with
    hl | ⟨_, hl⟩ | ⟨_, hs, _⟩ | ⟨_, hl⟩ | ⟨_, hl⟩ | ⟨_, hl⟩
  · have := life_eq hl
    intro hd
    rw [this.2.2.1]
    exact hP (this.1 ▸ hd)
  · intro _
    simp only [World.life, Prod.mk.injEq] at hl
    exact hl.2.2.1
  · intro hd
    rw [hs] at hd
    exact absurd hd state_codes.1
  · intro _
    simp only [World.life, Prod.mk.injEq] at hl
    exact hl.2.2.1
  · simp only [World.life, Prod.mk.injEq] at hl
    intro hd
    rw [hl.2.2.1]
    exact hP (hl.1 ▸ hd)
  · simp only [World.life, Prod.mk.injEq] at hl
    intro hd
    rw [hl.1] at hd
    exact absurd hd state_codes.2.1

/-- A call that is not an enable request returns when the driver is disabled and
unpowered. -/
theorem quiet_returns (env : Env) (c : Call) (w : World) (hc : c.isEnable = false)
    (hs : w.state = SENSOR_STATE_DISABLED) (hp : w.power = false) :
    ∃ w1, c.run env w = some w1 := by
  cases c with
  | configure fuel type enable =>
    simp only [Call.run, configure]
    by_cases h1 : type = SENSORS_HW_INIT
    · simp [h1]
    · by_cases h2 : type = SENSORS_ACTIVE
      · have hen : ¬ (Int.land enable MPU_9250_SENSOR_TYPE_ACC ≠ 0 ∨
            Int.land enable MPU_9250_SENSOR_TYPE_GYRO ≠ 0) := by
          intro hen
          simp only [Call.isEnable, h2, beq_self_eq_true, Bool.true_and, Bool.or_eq_false_iff,
            bne_eq_false_iff_eq] at hc
          rcases hen with h | h
          · exact h hc.1
          · exact h hc.2
        rw [if_neg h1, if_pos h2, if_neg hen]
        simp [hp]
      · simp [h1, h2]
  | value fuel type => simp [Call.run, value, hs]
  | status type => exact ⟨_, rfl⟩
  | magRead data => exact ⟨_, rfl⟩
  | expire => exact ⟨_, rfl⟩

/-- Once the driver is disabled and unpowered with no boot stage pending, it stays
so, and posts no notification, through every sequence of calls without an enable
request; and every such call returns. -/
theorem quiet_run (env : Env) (n : Nat) :
    ∀ (calls : List Call) (w : World), (∀ c ∈ calls, c.isEnable = false) →
      w.state = SENSOR_STATE_DISABLED → w.power = false → w.startup_timer = none →
      w.notified = n →
      ∃ w2, runCalls env calls w = some w2 ∧ w2.state = SENSOR_STATE_DISABLED ∧
        w2.power = false ∧ w2.startup_timer = none ∧ w2.notified = n := by
  intro calls
  induction calls with
  | nil =>
    intro w _ hs hp ht hn
    exact ⟨w, rfl, hs, hp, ht, hn⟩
  | cons c cs ih =>
    intro w hok hs hp ht hn
    have hs' : w.state = SENSOR_STATE_DISABLED := hs
    obtain ⟨w1, h1⟩ := quiet_returns env c w (hok c (List.mem_cons_self _ _)) hs' hp
    have hq : w1.state = SENSOR_STATE_DISABLED ∧ w1.power = false ∧
        w1.startup_timer = none ∧ w1.notified = n := by
      rcases Call.run_life env c w w1 h1 with
        hl | ⟨_, hl⟩ | ⟨he, _⟩ | ⟨hp', _⟩ | ⟨⟨d, hd⟩, _⟩ | ⟨⟨d, hd⟩, _⟩
      · have := life_eq hl
        exact ⟨this.1.trans hs', this.2.2.1.trans hp, this.2.2.2.1.trans ht,
          this.2.2.2.2.trans hn⟩
      · simp only [World.life, Prod.mk.injEq] at hl
        exact ⟨hl.1.trans hs', hl.2.2.1, hl.2.2.2.1.trans ht, hl.2.2.2.2.trans hn⟩
      · rw [hok c (List.mem_cons_self _ _)] at he
        exact absurd he (by simp)
      · rw [hp] at hp'
        exact absurd hp' (by simp)
      · rw [ht] at hd
        exact absurd hd (by simp)
      · rw [ht] at hd
        exact absurd hd (by simp)
    obtain ⟨w2, h2, hr⟩ := ih w1 (fun c' hc' => hok c' (List.mem_cons_of_mem _ hc'))
      hq.1 hq.2.1 hq.2.2.1 hq.2.2.2
    exact ⟨w2, by simp [runCalls, h1, h2], hr⟩

theorem toUInt8_small (a : Nat) (ha : a < 256) : toUInt8 (a : Int) = a := by
  unfold toUInt8
  omega

theorem ldiff_63 (a : Nat) (ha : a < 64) : Nat.ldiff 63 a = 63 - a := by
  apply Nat.eq_of_testBit_eq
  intro i
  have h1 : (63 : Nat) = 2 ^ 6 - 1 := by norm_num
  have h2 : 63 - a = 2 ^ 6 - (a + 1) := by omega
  rw [Nat.testBit_ldiff, h2, Nat.testBit_two_pow_sub_succ (by simpa using ha), h1,
    Nat.testBit_two_pow_sub_one]

/-- The byte `~mpu_config` for an axis set `a` within the six valid bits, next to
the C expression `(~a) & 0x3F`. -/
theorem complement_byte (a : Nat) (ha : a < 64) :
    toUInt8 (~~~ (a : Int)) = 255 - a ∧
    Int.land (~~~ (a : Int)) 0x3F = ((63 - a : Nat) : Int) ∧
    toUInt8 (~~~ (a : Int)) = 0xC0 + (Int.land (~~~ (a : Int)) 0x3F).toNat := by
  have e : ~~~ (a : Int) = Int.negSucc a := rfl
  have h1 : toUInt8 (~~~ (a : Int)) = 255 - a := by
    rw [e, Int.negSucc_eq]
    unfold toUInt8
    omega
  have h2 : Int.land (~~~ (a : Int)) 0x3F = ((63 - a : Nat) : Int) := by
    rw [e]
    show ((Nat.ldiff 63 a : Nat) : Int) = _
    rw [ldiff_63 a ha]
  refine ⟨h1, h2, ?_⟩
  rw [h1, h2]
  simp only [Int.toNat_ofNat]
  omega

/-- The last write of `enable_sensor` to the standby register, for a nonzero
axis set that fits the byte `mpu_config`. -/
theorem enable_sensor_last_standby (env : Env) (w : World) (a : Nat)
    (ha0 : a ≠ 0) (ha : a < 256) :
    ∃ ok, (writesTo PWR_MGMT_2 w (enable_sensor env a w)).getLast? =
      some (BusEvent.write (some SENSOR_I2C_ADDRESS) PWR_MGMT_2 [toUInt8 (~~~ (a : Int))] ok) := by
  have h8 := toUInt8_small a ha
  by_cases hc : w.mpu_config = 0
  · refine ⟨(env.bus (w.nbus + 4)).ok, ?_⟩
    simp [writesTo, callEvents, enable_sensor, hc, ha0, h8, select_axes, sensor_wakeup,
      SENSOR_SELECT, SENSOR_DESELECT, board_i2c_select, board_i2c_deselect,
      sensor_common_write_reg, sensor_common_read_reg, BusEvent.isWriteTo, List.filter_cons,
      PWR_MGMT_1, PWR_MGMT_2, ACCEL_CONFIG]
  · refine ⟨(env.bus w.nbus).ok, ?_⟩
    simp [writesTo, callEvents, enable_sensor, hc, ha0, h8, select_axes,
      SENSOR_SELECT, SENSOR_DESELECT, board_i2c_select, board_i2c_deselect,
      sensor_common_write_reg, BusEvent.isWriteTo, List.filter_cons]

theorem ctimer_expire_initialise (env : Env) (w : World) (d : Nat)
    (h : w.startup_timer = some (d, Callback.initialise)) :
    ctimer_expire env w = initialise env { w with startup_timer := none } := by
  unfold ctimer_expire
  rw [h]

theorem ctimer_expire_notify (env : Env) (w : World) (d : Nat)
    (h : w.startup_timer = some (d, Callback.notify_ready)) :
    ctimer_expire env w = notify_ready { w with startup_timer := none } := by
  unfold ctimer_expire
  rw [h]

/-- The two boot stages, from a state in which the first one is pending. -/
theorem boot_stages (env : Env) (w1 : World) (d : Nat)
    (ht : w1.startup_timer = some (d, Callback.initialise)) :
    (ctimer_expire env w1).state = w1.state ∧
    (ctimer_expire env w1).notified = w1.notified ∧
    (ctimer_expire env w1).startup_timer =
      some (SENSOR_STARTUP_DELAY, Callback.notify_ready) ∧
    (ctimer_expire env (ctimer_expire env w1)).state = SENSOR_STATE_ENABLED ∧
    (ctimer_expire env (ctimer_expire env w1)).notified = w1.notified + 1 ∧
    (ctimer_expire env (ctimer_expire env w1)).startup_timer = none := by
  have h1 := initialise_life env { w1 with startup_timer := none }
  rw [← ctimer_expire_initialise env w1 _ ht] at h1
  simp only [World.life, Prod.mk.injEq] at h1
  have h2 := ctimer_expire_notify env (ctimer_expire env w1) _ h1.2.2.2.1
  refine ⟨h1.1, h1.2.2.2.2, h1.2.2.2.1, ?_, ?_, ?_⟩
  · rw [h2]; rfl
  · rw [h2]
    show (ctimer_expire env w1).notified + 1 = _
    rw [h1.2.2.2.2]
  · rw [h2]; rfl

/-- The enable branch of `configure`. -/
theorem configure_enable_eq (fuel : Nat) (env : Env) (enable : Int) (w : World)
    (hen : Int.land enable MPU_9250_SENSOR_TYPE_ACC ≠ 0 ∨
      Int.land enable MPU_9250_SENSOR_TYPE_GYRO ≠ 0) :
    configure fuel env SENSORS_ACTIVE enable w =
      some (SENSOR_STATE_BOOTING,
        { w with elements := Int.land enable MPU_9250_SENSOR_TYPE_ALL, power := true,
                 state := SENSOR_STATE_BOOTING,
                 startup_timer := some (SENSOR_BOOT_DELAY, Callback.initialise) }) := by
  have ht : SENSORS_ACTIVE ≠ SENSORS_HW_INIT := by decide
  unfold configure
  rw [if_neg ht, if_pos rfl, if_pos hen]
  rfl

/-- As long as every `configure(SENSORS_HW_INIT, _)` finds the driver disabled
with no boot stage pending, the power latch is set whenever the driver is not
disabled and whenever a boot stage is pending. -/
theorem powered_while_active (env : Env) :
    ∀ (calls : List Call) (w w1 : World),
      ((w.state ≠ SENSOR_STATE_DISABLED → w.power = true) ∧
        (w.startup_timer ≠ none → w.power = true)) →
      hwInitWhileIdle env calls w = true → runCalls env calls w = some w1 →
      (w1.state ≠ SENSOR_STATE_DISABLED → w1.power = true) ∧
        (w1.startup_timer ≠ none → w1.power = true) := by
  intro calls
  induction calls with
  | nil =>
    intro w w1 hP _ h
    simp only [runCalls] at h
    injection h with h
    rw [← h]; exact hP
  | cons c cs ih =>
    intro w w1 hP hok h
    simp only [runCalls] at h
    cases hc : c.run env w with
    | none => rw [hc] at h; simp at h
    | some w2 =>
      rw [hc] at h
      simp only [Option.some_bind] at h
      simp only [hwInitWhileIdle, hc, Bool.and_eq_true, Bool.or_eq_true, Bool.not_eq_true',
        beq_iff_eq, Option.isNone_iff_eq_none] at hok
      refine ih w2 w1 ?_ hok.2 h
      rcases Call.run_life env c w w2 hc with
        hl | ⟨hh, hl⟩ | ⟨_, _, hp, _⟩ | ⟨_, hl⟩ | ⟨⟨d, hd⟩, hl⟩ | ⟨⟨d, hd⟩, hl⟩
      · have := life_eq hl
        rw [this.1, this.2.2.1, this.2.2.2.1]
        exact hP
      · simp only [World.life, Prod.mk.injEq] at hl
        rcases hok.1 with h0 | h0
        · rw [h0] at hh
          exact absurd hh (by simp)
        · exact ⟨fun h => absurd (hl.1.trans h0.1) h,
            fun h => absurd (hl.2.2.2.1.trans h0.2) h⟩
      · exact ⟨fun _ => hp, fun _ => hp⟩
      · simp only [World.life, Prod.mk.injEq] at hl
        exact ⟨fun h => absurd hl.1 h, fun h => absurd hl.2.2.2.1 h⟩
      · simp only [World.life, Prod.mk.injEq] at hl
        have hp : w.power = true := hP.2 (by rw [hd]; simp)
        rw [hl.2.2.1]
        exact ⟨fun _ => hp, fun _ => hp⟩
      · simp only [World.life, Prod.mk.injEq] at hl
        have hp : w.power = true := hP.2 (by rw [hd]; simp)
        rw [hl.2.2.1]
        exact ⟨fun _ => hp, fun _ => hp⟩

/-- The shutdown branch of `configure`, once the bus is idle. -/
theorem configure_shutdown (fuel : Nat) (env : Env) (enable : Int) (w : World) (k : Nat)
    (hen : ¬ (Int.land enable MPU_9250_SENSOR_TYPE_ACC ≠ 0 ∨
        Int.land enable MPU_9250_SENSOR_TYPE_GYRO ≠ 0))
    (hp : w.power = true) (hidle : idleAfter env w k) (hk : k < fuel) :
    ∃ w4,
      busyLoop fuel env
        (sensor_sleep env (ctimer_stop { w with elements := MPU_9250_SENSOR_TYPE_NONE })) =
        some w4 ∧
      w4.state = w.state ∧ w4.notified = w.notified ∧ w4.mpu_config = w.mpu_config ∧
      w4.acc_range = w.acc_range ∧
      callEvents w w4 =
        [BusEvent.select SENSOR_I2C_ADDRESS,
         BusEvent.write (some SENSOR_I2C_ADDRESS) PWR_MGMT_2 [0x3F] (env.bus w.nbus).ok,
         BusEvent.write (some SENSOR_I2C_ADDRESS) PWR_MGMT_1 [0x4F] (env.bus (w.nbus + 1)).ok,
         BusEvent.deselect] ∧
      configure fuel env SENSORS_ACTIVE enable w =
        some (SENSOR_STATE_DISABLED,
          { w4 with state := SENSOR_STATE_DISABLED, power := false }) ∧
      w4.elements = MPU_9250_SENSOR_TYPE_NONE ∧ w4.startup_timer = none := by
  have hi : idleAfter env
      (sensor_sleep env (ctimer_stop { w with elements := MPU_9250_SENSOR_TYPE_NONE })) k := hidle
  obtain ⟨w4, hw4⟩ := busyLoop_idle env k fuel _ hi hk
  have hb := busyLoop_life env fuel _ _ hw4
  have hl := life_eq hb.1
  have ht : SENSORS_ACTIVE ≠ SENSORS_HW_INIT := by decide
  refine ⟨w4, hw4, hl.1, hl.2.2.2.2, hb.2.2.1, hb.2.2.2, ?_, ?_, hl.2.1, hl.2.2.2.1⟩
  · have := sensor_sleep_events env w
    simp only [callEvents] at this ⊢
    rw [hb.2.1]
    exact this
  · unfold configure
    rw [if_neg ht, if_pos rfl, if_neg hen, if_pos hp]
    dsimp only
    rw [hw4]

/-- The first two events of `SensorMpu9250_magRead`, whatever the state. -/
theorem magRead_first_events (env : Env) (data : MagData) (w : World) :
    (callEvents w (SensorMpu9250_magRead env data w).2.2).take 2 =
      [BusEvent.select SENSOR_I2C_ADDRESS,
       BusEvent.write (some SENSOR_I2C_ADDRESS) INT_PIN_CFG [BIT_BYPASS_EN ||| BIT_LATCH_EN]
         (env.bus w.nbus).ok] := by
  simp only [SensorMpu9250_magRead, callEvents, SENSOR_SELECT, SENSOR_DESELECT,
    SENSOR_SELECT_MAG, board_i2c_select, board_i2c_deselect, sensor_common_write_reg,
    sensor_common_read_reg]
  split_ifs <;> simp

/-- In a disabled state with the power latch clear, `configure` returns without
bus traffic. -/
theorem configure_unpowered_quiet (fuel : Nat) (env : Env) (type enable : Int) (w : World)
    (hp : w.power = false) :
    ∃ r, configure fuel env type enable w = some r ∧ callEvents w r.2 = [] := by
  unfold configure
  by_cases h1 : type = SENSORS_HW_INIT
  · rw [if_pos h1]
    exact ⟨_, rfl, by simp [callEvents]⟩
  · rw [if_neg h1]
    by_cases h2 : type = SENSORS_ACTIVE
    · rw [if_pos h2]
      by_cases hen : Int.land enable MPU_9250_SENSOR_TYPE_ACC ≠ 0 ∨
          Int.land enable MPU_9250_SENSOR_TYPE_GYRO ≠ 0
      · rw [if_pos hen]
        exact ⟨_, rfl, by simp [callEvents, power_up, ctimer_set]⟩
      · rw [if_neg hen, hp]
        exact ⟨_, rfl, by simp [callEvents]⟩
    · rw [if_neg h2]
      exact ⟨_, rfl, by simp [callEvents]⟩

/-- The two ways in which `acc_read` and `gyro_read` return false. -/
theorem read_failures (env : Env) (data : List Nat) (w : World) :
    (w.interrupt_status &&& BIT_RAW_RDY_EN = 0 →
      acc_read env data w = (false, data, w) ∧ gyro_read env data w = (false, data, w)) ∧
    (w.interrupt_status &&& BIT_RAW_RDY_EN ≠ 0 → (env.bus w.nbus).ok = false →
      (acc_read env data w).1 = false ∧ (gyro_read env data w).1 = false ∧
      ((callEvents w (acc_read env data w).2.2).filter
        (BusEvent.isReadOfLen DATA_SIZE)).length = 1 ∧
      ((callEvents w (gyro_read env data w).2.2).filter
        (BusEvent.isReadOfLen DATA_SIZE)).length = 1) := by
  constructor
  · intro h
    have h' : ¬ (w.interrupt_status &&& BIT_RAW_RDY_EN ≠ 0) := fun hn => hn h
    exact ⟨by unfold acc_read; rw [if_neg h'], by unfold gyro_read; rw [if_neg h']⟩
  · intro h hf
    refine ⟨?_, ?_, ?_, ?_⟩
    · unfold acc_read
      rw [if_pos h]
      simp [sensor_common_read_reg, SENSOR_SELECT, board_i2c_select, hf]
    · unfold gyro_read
      rw [if_pos h]
      simp [sensor_common_read_reg, SENSOR_SELECT, board_i2c_select, hf]
    · unfold acc_read
      rw [if_pos h]
      simp [sensor_common_read_reg, SENSOR_SELECT, SENSOR_DESELECT, board_i2c_select,
        board_i2c_deselect, hf, callEvents, BusEvent.isReadOfLen, List.filter_cons]
    · unfold gyro_read
      rw [if_pos h]
      simp [sensor_common_read_reg, SENSOR_SELECT, SENSOR_DESELECT, board_i2c_select,
        board_i2c_deselect, hf, callEvents, BusEvent.isReadOfLen, List.filter_cons]

/-- What `value` returns, for an accelerometer or gyroscope request outside
Disabled, when the read that follows the polling loop returns false. -/
theorem value_read_false (fuel : Nat) (env : Env) (type : Int) (w w3 : World)
    (hd : w.state ≠ SENSOR_STATE_DISABLED)
    (ht : Int.land type MPU_9250_SENSOR_TYPE_ACC ≠ 0 ∨
      Int.land type MPU_9250_SENSOR_TYPE_GYRO ≠ 0)
    (hp : pollLoop fuel env (pollStart env w) = some w3)
    (ha : (acc_read env w3.sensor_value w3).1 = false)
    (hg : (gyro_read env w3.sensor_value w3).1 = false) :
    ∃ w4, value fuel env type w = some (CC26XX_SENSOR_READING_ERROR, w4) ∧
      (w4.trace = (acc_read env w3.sensor_value w3).2.2.trace ∨
        w4.trace = (gyro_read env w3.sensor_value w3).2.2.trace) := by
  have hp' : pollLoop fuel env
      { (RTIMER_NOW env { w with sensor_value := List.replicate 6 0 }).2 with
        t0 := (RTIMER_NOW env { w with sensor_value := List.replicate 6 0 }).1 } = some w3 := hp
  unfold value
  rw [if_neg hd]
  dsimp only
  by_cases h1 : Int.land type MPU_9250_SENSOR_TYPE_ACC ≠ 0
  · rw [if_pos h1, hp']
    dsimp only
    rw [if_pos ha]
    exact ⟨_, rfl, Or.inl rfl⟩
  · have h2 : Int.land type MPU_9250_SENSOR_TYPE_GYRO ≠ 0 := ht.resolve_left h1
    rw [if_neg h1, if_pos h2, hp']
    dsimp only
    rw [if_pos hg]
    exact ⟨_, rfl, Or.inr rfl⟩

/-- The value `enable & MPU_9250_SENSOR_TYPE_ALL`: it is one of 0..63, masking it
again changes nothing, and it is nonzero when `enable` has an accelerometer or a
gyroscope bit. -/
theorem land_all (x : Int) :
    ∃ e : Nat, Int.land x MPU_9250_SENSOR_TYPE_ALL = (e : Int) ∧ e < 64 ∧
      Int.land (e : Int) MPU_9250_SENSOR_TYPE_ALL = (e : Int) ∧
      (Int.land x MPU_9250_SENSOR_TYPE_ACC ≠ 0 ∨ Int.land x MPU_9250_SENSOR_TYPE_GYRO ≠ 0 →
        e ≠ 0) := by
  have h63 : ∀ i, Nat.testBit 63 i = decide (i < 6) := fun i =>
    Nat.testBit_two_pow_sub_one 6 i
  have h56 : (56 : Nat) = 63 &&& 56 := by decide
  have h7 : (7 : Nat) = 63 &&& 7 := by decide
  have hidem : ∀ e : Nat, e < 64 → Int.land (e : Int) MPU_9250_SENSOR_TYPE_ALL = (e : Int) := by
    intro e he
    show ((e &&& 63 : Nat) : Int) = _
    have : e &&& 63 = e % 2 ^ 6 := Nat.and_pow_two_sub_one_eq_mod e 6
    rw [this]
    congr 1
    omega
  cases x with
  | ofNat m =>
    have hlt : m &&& 63 < 64 := by
      have : m &&& 63 = m % 2 ^ 6 := Nat.and_pow_two_sub_one_eq_mod m 6
      omega
    refine ⟨m &&& 63, rfl, hlt, hidem _ hlt, ?_⟩
    intro h h0
    have ha : m &&& 56 = 0 := by
      rw [h56, ← Nat.and_assoc, h0, Nat.zero_and]
    have hg : m &&& 7 = 0 := by
      rw [h7, ← Nat.and_assoc, h0, Nat.zero_and]
    rcases h with h | h
    · exact h (show ((m &&& 56 : Nat) : Int) = 0 by rw [ha]; rfl)
    · exact h (show ((m &&& 7 : Nat) : Int) = 0 by rw [hg]; rfl)
  | negSucc m =>
    have hlt : Nat.ldiff 63 m < 64 := by
      apply Nat.lt_pow_two_of_testBit (n := 6)
      intro i hi
      rw [Nat.testBit_ldiff, h63]
      simp [Nat.not_lt.mpr hi]
    refine ⟨Nat.ldiff 63 m, rfl, hlt, hidem _ hlt, ?_⟩
    intro h h0
    have ha : Nat.ldiff 56 m = 0 := by
      have : Nat.ldiff 56 m = Nat.ldiff 63 m &&& 56 := by
        apply Nat.eq_of_testBit_eq
        intro i
        rw [Nat.testBit_and, Nat.testBit_ldiff, Nat.testBit_ldiff]
        nth_rewrite 1 [h56]
        rw [Nat.testBit_and]
        cases Nat.testBit 63 i <;> cases Nat.testBit 56 i <;> cases Nat.testBit m i <;> rfl
      rw [this, h0, Nat.zero_and]
    have hg : Nat.ldiff 7 m = 0 := by
      have : Nat.ldiff 7 m = Nat.ldiff 63 m &&& 7 := by
        apply Nat.eq_of_testBit_eq
        intro i
        rw [Nat.testBit_and, Nat.testBit_ldiff, Nat.testBit_ldiff]
        nth_rewrite 1 [h7]
        rw [Nat.testBit_and]
        cases Nat.testBit 63 i <;> cases Nat.testBit 7 i <;> cases Nat.testBit m i <;> rfl
      rw [this, h0, Nat.zero_and]
    rcases h with h | h
    · exact h (show ((Nat.ldiff 56 m : Nat) : Int) = 0 by rw [ha]; rfl)
    · exact h (show ((Nat.ldiff 7 m : Nat) : Int) = 0 by rw [hg]; rfl)

/-- The events of `acc_set_range`: none, or one write to `ACCEL_CONFIG` between a
select and a deselect; `mpu_config` and `elements` are left alone. -/
theorem acc_set_range_events (env : Env) (n : Nat) (w : World) :
    ∃ pre, (acc_set_range env n w).2.trace = w.trace ++ pre ∧
      (pre = [] ∨ ∃ b ok, pre = [BusEvent.select SENSOR_I2C_ADDRESS,
        BusEvent.write (some SENSOR_I2C_ADDRESS) ACCEL_CONFIG [b] ok, BusEvent.deselect]) ∧
      (acc_set_range env n w).2.mpu_config = w.mpu_config ∧
      (acc_set_range env n w).2.elements = w.elements := by
  unfold acc_set_range
  by_cases hr : n = w.acc_range
  · rw [if_pos hr]
    exact ⟨[], by simp, Or.inl rfl, rfl, rfl⟩
  · rw [if_neg hr]
    refine ⟨[BusEvent.select SENSOR_I2C_ADDRESS,
        BusEvent.write (some SENSOR_I2C_ADDRESS) ACCEL_CONFIG
          [toUInt8 ((n <<< 3 : Nat) : Int)] (env.bus w.nbus).ok, BusEvent.deselect],
      ?_, Or.inr ⟨_, _, rfl⟩, ?_, ?_⟩
    · cases hok : (env.bus w.nbus).ok <;>
        simp [SENSOR_SELECT, SENSOR_DESELECT, board_i2c_select, board_i2c_deselect,
          sensor_common_write_reg, hok]
    · cases hok : (env.bus w.nbus).ok <;>
        simp [SENSOR_SELECT, SENSOR_DESELECT, board_i2c_select, board_i2c_deselect,
          sensor_common_write_reg, hok]
    · cases hok : (env.bus w.nbus).ok <;>
        simp [SENSOR_SELECT, SENSOR_DESELECT, board_i2c_select, board_i2c_deselect,
          sensor_common_write_reg, hok]

/-- The first boot stage in a state whose `mpu_config` is not zero, with a nonzero
axis set: no write to `PWR_MGMT_1`, no one-byte read, one write to `PWR_MGMT_2`. -/
theorem initialise_no_wakeup (env : Env) (w : World) (e : Nat)
    (hcfg : w.mpu_config ≠ 0) (hel : Int.land w.elements MPU_9250_SENSOR_TYPE_ALL = (e : Int))
    (he : e < 64) (he0 : e ≠ 0) :
    writesTo PWR_MGMT_1 w (initialise env w) = [] ∧
    (callEvents w (initialise env w)).filter (BusEvent.isReadOfLen 1) = [] ∧
    regWrites PWR_MGMT_2 w (initialise env w) = 1 := by
  have h16 : toUInt16 (e : Int) = e := by unfold toUInt16; omega
  have h8 : toUInt8 (e : Int) = e := toUInt8_small e (by omega)
  have key : ∀ w1 : World, w1.mpu_config ≠ 0 → w1.elements = w.elements →
      ∀ pre : List BusEvent, w1.trace = w.trace ++ pre →
      (pre = [] ∨ ∃ b ok, pre = [BusEvent.select SENSOR_I2C_ADDRESS,
        BusEvent.write (some SENSOR_I2C_ADDRESS) ACCEL_CONFIG [b] ok, BusEvent.deselect]) →
      writesTo PWR_MGMT_1 w
        (ctimer_set SENSOR_STARTUP_DELAY Callback.notify_ready
          (enable_sensor env (toUInt16 (Int.land w1.elements MPU_9250_SENSOR_TYPE_ALL)) w1)) = [] ∧
      (callEvents w
        (ctimer_set SENSOR_STARTUP_DELAY Callback.notify_ready
          (enable_sensor env (toUInt16 (Int.land w1.elements MPU_9250_SENSOR_TYPE_ALL)) w1))).filter
        (BusEvent.isReadOfLen 1) = [] ∧
      regWrites PWR_MGMT_2 w
        (ctimer_set SENSOR_STARTUP_DELAY Callback.notify_ready
          (enable_sensor env (toUInt16 (Int.land w1.elements MPU_9250_SENSOR_TYPE_ALL)) w1)) = 1 := by
    intro w1 hc1 hel1 pre htr hpre
    rw [hel1, hel, h16]
    rcases hpre with rfl | ⟨b, ok, rfl⟩ <;>
    simp [writesTo, regWrites, callEvents, ctimer_set, enable_sensor, hc1, he0, h8, select_axes,
      SENSOR_SELECT, SENSOR_DESELECT, board_i2c_select, board_i2c_deselect,
      sensor_common_write_reg, htr, BusEvent.isWriteTo,
      BusEvent.isReadOfLen, List.filter_cons, PWR_MGMT_1, PWR_MGMT_2, ACCEL_CONFIG]
  unfold initialise
  dsimp only
  by_cases ha : Int.land w.elements MPU_9250_SENSOR_TYPE_ACC ≠ 0
  · rw [if_pos ha]
    obtain ⟨pre, h1, h2, h3, h4⟩ :=
      acc_set_range_events env (env.MPU_9250_SENSOR_ACC_RANGE % 256) w
    exact key _ (by rw [h3]; exact hcfg) h4 pre h1 h2
  · rw [if_neg ha]
    exact key w hcfg rfl [] (by simp) (Or.inl rfl)

/-! ## The accelerometer range -/

/-- C11, counterexample: in the initial state the cached range is `ACC_RANGE_2G`,
so two calls `acc_set_range(ACC_RANGE_2G)` issue no write at all; and when the
write of the first call `acc_set_range(ACC_RANGE_8G)` fails, the second call
writes again, two writes in total. -/
theorem acc_set_range_twice_counterexample :
    World.init.acc_range = ACC_RANGE_2G ∧
    regWrites ACCEL_CONFIG World.init
      (acc_set_range (envScript []) ACC_RANGE_2G
        (acc_set_range (envScript []) ACC_RANGE_2G World.init).2).2 = 0 ∧
    regWrites ACCEL_CONFIG World.init
      (acc_set_range (envScript [⟨false, []⟩]) ACC_RANGE_8G
        (acc_set_range (envScript [⟨false, []⟩]) ACC_RANGE_8G World.init).2).2 = 2 := by
  decide

/-- C11, amended: two consecutive calls `acc_set_range(R)` issue no write to
`ACCEL_CONFIG` when `R` is the cached range; exactly one, the second call being a
no-op that returns true in the same state, when `R` differs from the cached range
and the write succeeds; and two when `R` differs and the first write fails, the
cached range being unchanged by the first call. -/
theorem acc_set_range_twice (env : Env) (w : World) (R : Nat) :
    (R = w.acc_range →
      regWrites ACCEL_CONFIG w (acc_set_range env R (acc_set_range env R w).2).2 = 0) ∧
    (R ≠ w.acc_range → (env.bus w.nbus).ok = true →
      regWrites ACCEL_CONFIG w (acc_set_range env R (acc_set_range env R w).2).2 = 1 ∧
      acc_set_range env R (acc_set_range env R w).2 = (true, (acc_set_range env R w).2)) ∧
    (R ≠ w.acc_range → (env.bus w.nbus).ok = false →
      (acc_set_range env R w).2.acc_range = w.acc_range ∧
      regWrites ACCEL_CONFIG w (acc_set_range env R (acc_set_range env R w).2).2 = 2) := by
  refine ⟨?_, ?_, ?_⟩
  · intro h
    simp [acc_set_range, h, regWrites, callEvents]
  · intro h hok
    simp [acc_set_range, h, hok, regWrites, callEvents, SENSOR_SELECT, SENSOR_DESELECT,
      board_i2c_select, board_i2c_deselect, sensor_common_write_reg, BusEvent.isWriteTo,
      List.filter_cons]
  · intro h hok
    by_cases h2 : (env.bus (w.nbus + 1)).ok = true <;>
    simp [acc_set_range, h, hok, h2, regWrites, callEvents, SENSOR_SELECT, SENSOR_DESELECT,
      board_i2c_select, board_i2c_deselect, sensor_common_write_reg, BusEvent.isWriteTo,
      List.filter_cons]

/-- C11 at a concrete input: the initial state (cached range 2G), the range 8G
and a bus on which the write succeeds. -/
theorem acc_set_range_twice_witness :
    regWrites ACCEL_CONFIG World.init
      (acc_set_range (envScript []) ACC_RANGE_8G
        (acc_set_range (envScript []) ACC_RANGE_8G World.init).2).2 = 1 :=
  ((acc_set_range_twice (envScript []) World.init ACC_RANGE_8G).2.1
    (by decide) (by decide)).1

/-- C12: when the requested range `n` differs from the cached one `r`, so that
`acc_set_range(n)` issues its write, and that write fails, the call returns false,
has issued that one write, and leaves the cached range at `r`; `acc_convert` gives
afterwards what it gave before, for every raw value: for `r` one of the four
ranges it divides by `32768 / 2^(r+1) = 2^(14-r)`, the divisor of `r`. -/
theorem acc_set_range_failed (env : Env) (w : World) (n : Nat)
    (hn : n ≠ w.acc_range) (hfail : (env.bus w.nbus).ok = false) :
    (acc_set_range env n w).1 = false ∧
    (acc_set_range env n w).2.acc_range = w.acc_range ∧
    regWrites ACCEL_CONFIG w (acc_set_range env n w).2 = 1 ∧
    (∀ raw : Int, acc_convert (acc_set_range env n w).2 raw = acc_convert w raw) ∧
    (w.acc_range ≤ 3 → ∀ raw : Int, -32768 ≤ raw ∧ raw ≤ 32767 →
      acc_convert (acc_set_range env n w).2 raw = (raw : ℚ) / 2 ^ (14 - w.acc_range)) := by
  have h : (acc_set_range env n w).1 = false ∧
      (acc_set_range env n w).2.acc_range = w.acc_range ∧
      regWrites ACCEL_CONFIG w (acc_set_range env n w).2 = 1 ∧
      ∀ raw : Int, acc_convert (acc_set_range env n w).2 raw = acc_convert w raw := by
    simp [acc_set_range, hn, hfail, regWrites, callEvents, SENSOR_SELECT, SENSOR_DESELECT,
      board_i2c_select, board_i2c_deselect, sensor_common_write_reg, BusEvent.isWriteTo,
      List.filter_cons, acc_convert]
  refine ⟨h.1, h.2.1, h.2.2.1, h.2.2.2, ?_⟩
  intro hr raw hraw
  rw [h.2.2.2 raw]
  exact (acc_convert_eq w raw hraw hr).1

/-- C12 at a concrete input: the initial state (cached range 2G), the request
8G and a bus on which the write fails; the raw value 16384 still converts to
`16384 / 2^14`, that is 1 G. -/
theorem acc_set_range_failed_witness :
    (acc_set_range (envScript [⟨false, []⟩]) ACC_RANGE_8G World.init).1 = false ∧
    (acc_set_range (envScript [⟨false, []⟩]) ACC_RANGE_8G World.init).2.acc_range
      = ACC_RANGE_2G ∧
    acc_convert (acc_set_range (envScript [⟨false, []⟩]) ACC_RANGE_8G World.init).2 16384
      = ((16384 : Int) : ℚ) / 2 ^ (14 - World.init.acc_range) :=
  ⟨(acc_set_range_failed (envScript [⟨false, []⟩]) World.init ACC_RANGE_8G
      (by decide) (by decide)).1,
   (acc_set_range_failed (envScript [⟨false, []⟩]) World.init ACC_RANGE_8G
      (by decide) (by decide)).2.1,
   (acc_set_range_failed (envScript [⟨false, []⟩]) World.init ACC_RANGE_8G
      (by decide) (by decide)).2.2.2.2 (by decide) 16384 (by decide)⟩

/-! ## The standby register -/

/-- C13, counterexample: for the axis set `{accelX, gyroY}` = 0x22 the byte
written to `PWR_MGMT_2` is 0xDD, whereas `(~0x22) & 0x3F` is 0x1D. -/
theorem enable_sensor_standby_counterexample :
    Int.lor MPU_9250_SENSOR_TYPE_ACC_X MPU_9250_SENSOR_TYPE_GYRO_Y = 0x22 ∧
    (writesTo PWR_MGMT_2 World.init (enable_sensor (envScript []) 0x22 World.init)).getLast? =
      some (BusEvent.write (some SENSOR_I2C_ADDRESS) PWR_MGMT_2 [0xDD] true) ∧
    Int.land (~~~ (0x22 : Int)) 0x3F = 0x1D := by
  refine ⟨by decide, by decide, ?_⟩
  simpa using (complement_byte 0x22 (by decide)).2.1

/-- C13, amended: for every nonzero axis set `a` within the six valid bits, the
last byte `enable_sensor(a)` writes to `PWR_MGMT_2` is the complement of `a` as a
whole byte, `(uint8_t)~a`: it is `0xC0 + ((~a) & 0x3F)`, the two top bits being
set as well; its low six bits are `(~a) & 0x3F`, and it is never equal to
`(~a) & 0x3F`. -/
theorem enable_sensor_standby_byte (env : Env) (w : World) (a : Nat)
    (ha0 : a ≠ 0) (ha : a < 64) :
    (∃ ok, (writesTo PWR_MGMT_2 w (enable_sensor env a w)).getLast? =
      some (BusEvent.write (some SENSOR_I2C_ADDRESS) PWR_MGMT_2
        [0xC0 + (Int.land (~~~ (a : Int)) 0x3F).toNat] ok)) ∧
    0xC0 + (Int.land (~~~ (a : Int)) 0x3F).toNat = toUInt8 (~~~ (a : Int)) ∧
    ((0xC0 + (Int.land (~~~ (a : Int)) 0x3F).toNat) % 64 : Nat) =
      (Int.land (~~~ (a : Int)) 0x3F).toNat ∧
    0xC0 + (Int.land (~~~ (a : Int)) 0x3F).toNat ≠ (Int.land (~~~ (a : Int)) 0x3F).toNat := by
  have hc := complement_byte a ha
  obtain ⟨ok, hok⟩ := enable_sensor_last_standby env w a ha0 (by omega)
  refine ⟨⟨ok, ?_⟩, hc.2.2.symm, ?_, by omega⟩
  · rw [← hc.2.2]; exact hok
  · rw [hc.2.1]
    simp only [Int.toNat_ofNat]
    omega

/-- C13 at a concrete input: the axis set `{accelX}` = 0x20 in the initial
state; the byte written is 0xDF. -/
theorem enable_sensor_standby_byte_witness :
    (∃ ok, (writesTo PWR_MGMT_2 World.init
        (enable_sensor (envScript []) 0x20 World.init)).getLast? =
      some (BusEvent.write (some SENSOR_I2C_ADDRESS) PWR_MGMT_2
        [0xC0 + (Int.land (~~~ ((0x20 : Nat) : Int)) 0x3F).toNat] ok)) ∧
    0xC0 + (Int.land (~~~ ((0x20 : Nat) : Int)) 0x3F).toNat = toUInt8 (~~~ ((0x20 : Nat) : Int)) ∧
    toUInt8 (~~~ ((0x20 : Nat) : Int)) = 0xDF :=
  ⟨(enable_sensor_standby_byte (envScript []) World.init 0x20 (by decide) (by decide)).1,
   (enable_sensor_standby_byte (envScript []) World.init 0x20 (by decide) (by decide)).2.1,
   by decide⟩

/-! ## The boot sequence and the hardware initialisation -/

/-- C14: `configure(SENSORS_ACTIVE, enable)` with an accelerometer or gyroscope bit
in `enable` (such as `{accelX}`), from any state and so from Disabled, returns
Booting and leaves the state Booting with the first stage pending after the boot
delay; when that timer fires the state is still Booting, no notification has been
posted, and the second stage is pending after the startup delay; when that timer
fires the state is Enabled, exactly one notification has been posted, and no timer
is pending. -/
theorem configure_enable_sequence (fuel : Nat) (env : Env) (enable : Int) (w : World)
    (hen : Int.land enable MPU_9250_SENSOR_TYPE_ACC ≠ 0 ∨
      Int.land enable MPU_9250_SENSOR_TYPE_GYRO ≠ 0) :
    ∃ w1, configure fuel env SENSORS_ACTIVE enable w = some (SENSOR_STATE_BOOTING, w1) ∧
      w1.state = SENSOR_STATE_BOOTING ∧ w1.notified = w.notified ∧
      w1.startup_timer = some (SENSOR_BOOT_DELAY, Callback.initialise) ∧
      (ctimer_expire env w1).state = SENSOR_STATE_BOOTING ∧
      (ctimer_expire env w1).notified = w.notified ∧
      (ctimer_expire env w1).startup_timer =
        some (SENSOR_STARTUP_DELAY, Callback.notify_ready) ∧
      (ctimer_expire env (ctimer_expire env w1)).state = SENSOR_STATE_ENABLED ∧
      (ctimer_expire env (ctimer_expire env w1)).notified = w.notified + 1 ∧
      (ctimer_expire env (ctimer_expire env w1)).startup_timer = none := by
  exact ⟨_, configure_enable_eq fuel env enable w hen, rfl, rfl, rfl,
    boot_stages env _ SENSOR_BOOT_DELAY rfl⟩

/-- C14 at a concrete input: `{accelX}` from the initial state, which is
Disabled. -/
theorem configure_enable_sequence_witness :
    World.init.state = SENSOR_STATE_DISABLED ∧
    ∃ w1, configure 1 (envScript []) SENSORS_ACTIVE MPU_9250_SENSOR_TYPE_ACC_X World.init =
        some (SENSOR_STATE_BOOTING, w1) ∧
      w1.state = SENSOR_STATE_BOOTING ∧ w1.notified = World.init.notified ∧
      w1.startup_timer = some (SENSOR_BOOT_DELAY, Callback.initialise) ∧
      (ctimer_expire (envScript []) w1).state = SENSOR_STATE_BOOTING ∧
      (ctimer_expire (envScript []) w1).notified = World.init.notified ∧
      (ctimer_expire (envScript []) w1).startup_timer =
        some (SENSOR_STARTUP_DELAY, Callback.notify_ready) ∧
      (ctimer_expire (envScript []) (ctimer_expire (envScript []) w1)).state =
        SENSOR_STATE_ENABLED ∧
      (ctimer_expire (envScript []) (ctimer_expire (envScript []) w1)).notified =
        World.init.notified + 1 ∧
      (ctimer_expire (envScript []) (ctimer_expire (envScript []) w1)).startup_timer = none :=
  ⟨rfl, configure_enable_sequence 1 (envScript []) MPU_9250_SENSOR_TYPE_ACC_X World.init
    (Or.inl (by decide))⟩

/-- C16, counterexample: `configure(SENSORS_HW_INIT, 0)` called in a state that is
Enabled returns Enabled and leaves the state Enabled. -/
theorem configure_hw_init_counterexample :
    enabledAccXWorld.state = SENSOR_STATE_ENABLED ∧
    (configure 1 (envScript []) SENSORS_HW_INIT 0 enabledAccXWorld).map Prod.fst =
      some SENSOR_STATE_ENABLED ∧
    (configure 1 (envScript []) SENSORS_HW_INIT 0 enabledAccXWorld).map (fun r => r.2.state) =
      some SENSOR_STATE_ENABLED ∧
    SENSOR_STATE_ENABLED ≠ SENSOR_STATE_DISABLED := by
  decide

/-- C16, amended: for every prior state, `configure(SENSORS_HW_INIT, _)` returns,
empties the axis set and clears the power latch; it issues no bus traffic and
leaves the life-cycle state and a pending boot stage as they were, and the value
it returns is that unchanged state.  The state afterwards is Disabled exactly
when it was Disabled before. -/
theorem configure_hw_init_keeps_state (fuel : Nat) (env : Env) (enable : Int) (w : World) :
    ∃ w1, configure fuel env SENSORS_HW_INIT enable w = some (w.state, w1) ∧
      w1.elements = MPU_9250_SENSOR_TYPE_NONE ∧ w1.power = false ∧
      w1.state = w.state ∧ w1.startup_timer = w.startup_timer ∧
      callEvents w w1 = [] ∧
      (w1.state = SENSOR_STATE_DISABLED ↔ w.state = SENSOR_STATE_DISABLED) :=
  ⟨{ w with power := false, elements := MPU_9250_SENSOR_TYPE_NONE },
    by simp [configure], rfl, rfl, rfl, rfl, by simp [callEvents], Iff.rfl⟩

/-! ## Disabling -/

/-- C15, counterexample: after the X axis of the accelerometer has been enabled
and both boot stages have run, a `configure(SENSORS_HW_INIT, 0)` leaves the state
Enabled with the power latch clear; `configure(SENSORS_ACTIVE, 0)` then returns
Enabled and changes nothing. -/
theorem configure_disable_counterexample :
    runCalls (envScript []) (enableAccX ++ [Call.configure 1 SENSORS_HW_INIT 0]) World.init =
      some hwInitWhileEnabledWorld ∧
    hwInitWhileEnabledWorld.state = SENSOR_STATE_ENABLED ∧
    hwInitWhileEnabledWorld.power = false ∧
    configure 1 (envScript []) SENSORS_ACTIVE 0 hwInitWhileEnabledWorld =
      some (SENSOR_STATE_ENABLED, hwInitWhileEnabledWorld) ∧
    SENSOR_STATE_ENABLED ≠ SENSOR_STATE_DISABLED := by
  refine ⟨rfl, by decide, by decide, ?_, by decide⟩
  have hp : hwInitWhileEnabledWorld.power = false := by decide
  have hs : hwInitWhileEnabledWorld.state = SENSOR_STATE_ENABLED := by decide
  have ht : SENSORS_ACTIVE ≠ SENSORS_HW_INIT := by decide
  have hen : ¬ (Int.land 0 MPU_9250_SENSOR_TYPE_ACC ≠ 0 ∨
      Int.land 0 MPU_9250_SENSOR_TYPE_GYRO ≠ 0) := by decide
  unfold configure
  rw [if_neg ht, if_pos rfl, if_neg hen, hp, hs]
  rfl

/-- C15, amended: in a state that is Enabled and was reached from the initial
one by calls among which every `configure(SENSORS_HW_INIT, _)` found the driver
disabled with no boot stage pending, the power latch is set, and
`configure(SENSORS_ACTIVE, 0)` returns Disabled once the bus is idle: the state
is Enabled until the one assignment that makes it Disabled, so Booting is not
passed through, and afterwards the power latch is clear and no boot stage is
pending.  In an Enabled state with the power latch clear the call changes nothing
and returns Enabled. -/
theorem configure_disable_when_enabled (fuel : Nat) (env : Env) (calls : List Call)
    (w : World) (k : Nat)
    (hreach : runCalls env calls World.init = some w)
    (hs : w.state = SENSOR_STATE_ENABLED) :
    (hwInitWhileIdle env calls World.init = true → w.power = true) ∧
    (w.power = true → idleAfter env w k → k < fuel →
      ∃ w4,
        busyLoop fuel env
          (sensor_sleep env (ctimer_stop { w with elements := MPU_9250_SENSOR_TYPE_NONE })) =
          some w4 ∧
        w4.state = SENSOR_STATE_ENABLED ∧
        configure fuel env SENSORS_ACTIVE 0 w =
          some (SENSOR_STATE_DISABLED,
            { w4 with state := SENSOR_STATE_DISABLED, power := false }) ∧
        w4.startup_timer = none) ∧
    (w.power = false → configure fuel env SENSORS_ACTIVE 0 w = some (SENSOR_STATE_ENABLED, w)) := by
  have hen : ¬ (Int.land 0 MPU_9250_SENSOR_TYPE_ACC ≠ 0 ∨
      Int.land 0 MPU_9250_SENSOR_TYPE_GYRO ≠ 0) := by decide
  have ht : SENSORS_ACTIVE ≠ SENSORS_HW_INIT := by decide
  refine ⟨?_, ?_, ?_⟩
  · intro hok
    have := powered_while_active env calls World.init w
      ⟨fun h => absurd rfl h, fun h => absurd rfl h⟩ hok hreach
    exact this.1 (by rw [hs]; exact state_codes.2.1)
  · intro hp hidle hk
    obtain ⟨w4, h1, h2, _, _, _, _, h3, _, h4⟩ := configure_shutdown fuel env 0 w k hen hp hidle hk
    exact ⟨w4, h1, h2.trans hs, h3, h4⟩
  · intro hp
    unfold configure
    rw [if_neg ht, if_pos rfl, if_neg hen, hp, hs]
    rfl

/-- C15 at a concrete input: the state after the X axis of the accelerometer has
been enabled and both boot stages have run, on a bus that is idle at once. -/
theorem configure_disable_when_enabled_witness :
    enabledAccXWorld.state = SENSOR_STATE_ENABLED ∧ enabledAccXWorld.power = true ∧
    (configure 1 (envScript []) SENSORS_ACTIVE 0 enabledAccXWorld).map Prod.fst =
      some SENSOR_STATE_DISABLED := by
  have h := configure_disable_when_enabled 1 (envScript []) enableAccX enabledAccXWorld 0
    rfl (by decide)
  refine ⟨by decide, h.1 (by decide), ?_⟩
  obtain ⟨w4, _, _, h3, _⟩ := h.2.1 (h.1 (by decide))
    ⟨fun j hj => absurd hj (Nat.not_lt_zero j), rfl⟩ (by decide)
  rw [h3]
  rfl

/-! ## Bus traffic while disabled -/

/-- C17, counterexample: in the initial state, which is Disabled,
`SensorMpu9250_magRead` selects the device and writes the bypass byte to
`INT_PIN_CFG`. -/
theorem disabled_traffic_counterexample :
    runCalls (envScript []) [] World.init = some World.init ∧
    World.init.state = SENSOR_STATE_DISABLED ∧
    (callEvents World.init (SensorMpu9250_magRead (envScript []) (0, 0, 0) World.init).2.2).take 2
      = [BusEvent.select SENSOR_I2C_ADDRESS,
         BusEvent.write (some SENSOR_I2C_ADDRESS) INT_PIN_CFG [0x22] true] ∧
    (BusEvent.write (some SENSOR_I2C_ADDRESS) INT_PIN_CFG [0x22] true).isRegOp = true :=
  ⟨rfl, by decide, by decide, by decide⟩

/-- C17, amended: in every reachable state whose life-cycle state is Disabled,
`value` returns the error value and `configure` returns, for every argument,
without any bus event, and `status` has no effect at all.
`SensorMpu9250_magRead` has no such guard: also there it selects the device and
writes the bypass byte to `INT_PIN_CFG`. -/
theorem disabled_no_traffic (env : Env) (w : World) (hr : Reachable env w)
    (hs : w.state = SENSOR_STATE_DISABLED) :
    (∀ (fuel : Nat) (type : Int),
      value fuel env type w = some (CC26XX_SENSOR_READING_ERROR, w) ∧ callEvents w w = []) ∧
    (∀ (fuel : Nat) (type enable : Int),
      ∃ r, configure fuel env type enable w = some r ∧ callEvents w r.2 = []) ∧
    (∀ type : Int, (Call.status type).run env w = some w ∧
      status type w = SENSOR_STATE_DISABLED) ∧
    (∀ data : MagData,
      (callEvents w (SensorMpu9250_magRead env data w).2.2).take 2 =
        [BusEvent.select SENSOR_I2C_ADDRESS,
         BusEvent.write (some SENSOR_I2C_ADDRESS) INT_PIN_CFG [BIT_BYPASS_EN ||| BIT_LATCH_EN]
           (env.bus w.nbus).ok]) := by
  have hp := disabled_unpowered env w hr hs
  refine ⟨?_, ?_, ?_, ?_⟩
  · intro fuel type
    exact ⟨by simp [value, hs], by simp [callEvents]⟩
  · intro fuel type enable
    exact configure_unpowered_quiet fuel env type enable w hp
  · intro type
    refine ⟨rfl, ?_⟩
    unfold status
    split
    · exact hs
    · rfl
  · intro data
    exact magRead_first_events env data w

/-- C17 at a concrete input: the state after the X axis of the accelerometer has
been enabled, both boot stages have run and the sensor has been shut down, on a
bus that answers every operation with success. -/
theorem disabled_no_traffic_witness :
    runCalls (envScript []) enableThenDisable World.init = some shutDownWorld ∧
    shutDownWorld.state = SENSOR_STATE_DISABLED ∧
    value 1 (envScript []) MPU_9250_SENSOR_TYPE_ACC_X shutDownWorld =
      some (CC26XX_SENSOR_READING_ERROR, shutDownWorld) ∧
    ∃ r, configure 1 (envScript []) SENSORS_ACTIVE 0 shutDownWorld = some r ∧
      callEvents shutDownWorld r.2 = [] :=
  ⟨rfl, by decide,
    ((disabled_no_traffic (envScript []) shutDownWorld ⟨enableThenDisable, rfl⟩ (by decide)).1 1
      MPU_9250_SENSOR_TYPE_ACC_X).1,
    (disabled_no_traffic (envScript []) shutDownWorld ⟨enableThenDisable, rfl⟩
      (by decide)).2.1 1 SENSORS_ACTIVE 0⟩

/-! ## Shutdown and enabling again -/

/-- C19: `configure(SENSORS_ACTIVE, 0)` called while the power latch is set, in
whatever life-cycle state and so in state Booting with a boot stage pending,
returns Disabled once the bus is idle.  It has then issued, between a select and
a deselect, the write of 0x3F to `PWR_MGMT_2` and after it the write of 0x4F to
`PWR_MGMT_1`; the state is Disabled, the axis set empty, the power latch clear
and no timer pending.
Afterwards an expiry of the timer does nothing, and every sequence of calls
without an enable request returns and leaves the state Disabled, no timer pending
and the number of notifications as it was. -/
theorem configure_shutdown_while_booting (fuel : Nat) (env : Env) (w : World) (k : Nat)
    (hp : w.power = true) (hidle : idleAfter env w k) (hk : k < fuel) :
    ∃ w1, configure fuel env SENSORS_ACTIVE 0 w = some (SENSOR_STATE_DISABLED, w1) ∧
      callEvents w w1 =
        [BusEvent.select SENSOR_I2C_ADDRESS,
         BusEvent.write (some SENSOR_I2C_ADDRESS) PWR_MGMT_2 [0x3F] (env.bus w.nbus).ok,
         BusEvent.write (some SENSOR_I2C_ADDRESS) PWR_MGMT_1 [0x4F] (env.bus (w.nbus + 1)).ok,
         BusEvent.deselect] ∧
      w1.state = SENSOR_STATE_DISABLED ∧ w1.elements = MPU_9250_SENSOR_TYPE_NONE ∧
      w1.power = false ∧ w1.startup_timer = none ∧ w1.notified = w.notified ∧
      ctimer_expire env w1 = w1 ∧
      ∀ calls : List Call, (∀ c ∈ calls, c.isEnable = false) →
        ∃ w2, runCalls env calls w1 = some w2 ∧ w2.state = SENSOR_STATE_DISABLED ∧
          w2.startup_timer = none ∧ w2.notified = w.notified := by
  have hen : ¬ (Int.land 0 MPU_9250_SENSOR_TYPE_ACC ≠ 0 ∨
      Int.land 0 MPU_9250_SENSOR_TYPE_GYRO ≠ 0) := by decide
  obtain ⟨w4, _, _, hn, _, _, hev, hcfg, hel, htm⟩ :=
    configure_shutdown fuel env 0 w k hen hp hidle hk
  refine ⟨{ w4 with state := SENSOR_STATE_DISABLED, power := false }, hcfg, hev, rfl, hel, rfl,
    htm, hn, ?_, ?_⟩
  · unfold ctimer_expire
    have : ({ w4 with state := SENSOR_STATE_DISABLED, power := false } : World).startup_timer
        = none := htm
    rw [this]
  · intro calls hok
    obtain ⟨w2, h2, hs, _, ht, hn2⟩ := quiet_run env w.notified calls
      { w4 with state := SENSOR_STATE_DISABLED, power := false } hok rfl rfl htm hn
    exact ⟨w2, h2, hs, ht, hn2⟩

/-- C19 at a concrete input: the state right after the enable request for the X
axis of the accelerometer, Booting with the first stage pending, on a bus that is
idle at once; the calls that follow are two expiries of the timer and a sample
request. -/
theorem configure_shutdown_while_booting_witness :
    bootPendingWorld.state = SENSOR_STATE_BOOTING ∧
    bootPendingWorld.startup_timer = some (SENSOR_BOOT_DELAY, Callback.initialise) ∧
    ∃ w1, configure 1 (envScript []) SENSORS_ACTIVE 0 bootPendingWorld =
        some (SENSOR_STATE_DISABLED, w1) ∧
      callEvents bootPendingWorld w1 =
        [BusEvent.select SENSOR_I2C_ADDRESS,
         BusEvent.write (some SENSOR_I2C_ADDRESS) PWR_MGMT_2 [0x3F] true,
         BusEvent.write (some SENSOR_I2C_ADDRESS) PWR_MGMT_1 [0x4F] true,
         BusEvent.deselect] ∧
      w1.state = SENSOR_STATE_DISABLED ∧ w1.startup_timer = none ∧
      ∃ w2, runCalls (envScript [])
          [Call.expire, Call.expire, Call.value 20 MPU_9250_SENSOR_TYPE_ACC_X] w1 = some w2 ∧
        w2.state = SENSOR_STATE_DISABLED ∧ w2.notified = 0 := by
  obtain ⟨w1, h1, h2, h3, _, _, h4, _, _, h5⟩ :=
    configure_shutdown_while_booting 1 (envScript []) bootPendingWorld 0 (by decide)
      ⟨fun j hj => absurd hj (Nat.not_lt_zero j), rfl⟩ (by decide)
  obtain ⟨w2, h6, h7, _, h8⟩ :=
    h5 [Call.expire, Call.expire, Call.value 20 MPU_9250_SENSOR_TYPE_ACC_X] (by decide)
  exact ⟨by decide, by decide, w1, h1, h2, h3, h4, w2, h6, h7, h8⟩

/-- C20: after a shutdown by `configure(SENSORS_ACTIVE, 0)`, which writes the sleep
byte to `PWR_MGMT_1` and leaves `mpu_config` at the axis set of the previous
enable, the first boot stage of a new enable request with a nonzero axis set
issues no write to `PWR_MGMT_1` and no read of `INT_STATUS`: of the wake sequence
nothing is issued, and the only write to `PWR_MGMT_2` is the standby write of the
axis set. -/
theorem reenable_skips_wakeup (fuel : Nat) (env : Env) (enable : Int) (w : World) (k : Nat)
    (hen : Int.land enable MPU_9250_SENSOR_TYPE_ACC ≠ 0 ∨
      Int.land enable MPU_9250_SENSOR_TYPE_GYRO ≠ 0)
    (hcfg : w.mpu_config ≠ 0)
    (hp : w.power = true) (hidle : idleAfter env w k) (hk : k < fuel) :
    ∃ w1 w2, configure fuel env SENSORS_ACTIVE 0 w = some (SENSOR_STATE_DISABLED, w1) ∧
      writesTo PWR_MGMT_1 w w1 =
        [BusEvent.write (some SENSOR_I2C_ADDRESS) PWR_MGMT_1 [MPU_SLEEP]
          (env.bus (w.nbus + 1)).ok] ∧
      w1.mpu_config = w.mpu_config ∧
      configure fuel env SENSORS_ACTIVE enable w1 = some (SENSOR_STATE_BOOTING, w2) ∧
      w2.startup_timer = some (SENSOR_BOOT_DELAY, Callback.initialise) ∧
      Int.land w2.elements MPU_9250_SENSOR_TYPE_ALL ≠ 0 ∧
      ctimer_expire env w2 = initialise env { w2 with startup_timer := none } ∧
      writesTo PWR_MGMT_1 w2 (ctimer_expire env w2) = [] ∧
      (callEvents w2 (ctimer_expire env w2)).filter (BusEvent.isReadOfLen 1) = [] ∧
      regWrites PWR_MGMT_2 w2 (ctimer_expire env w2) = 1 := by
  have hen0 : ¬ (Int.land 0 MPU_9250_SENSOR_TYPE_ACC ≠ 0 ∨
      Int.land 0 MPU_9250_SENSOR_TYPE_GYRO ≠ 0) := by decide
  obtain ⟨w4, _, _, _, hm, _, hev, hc, _, _⟩ :=
    configure_shutdown fuel env 0 w k hen0 hp hidle hk
  obtain ⟨e, he1, he2, he3, he4⟩ := land_all enable
  have hexp := ctimer_expire_initialise env
    { ({ w4 with state := SENSOR_STATE_DISABLED, power := false } : World) with
      elements := Int.land enable MPU_9250_SENSOR_TYPE_ALL, power := true,
      state := SENSOR_STATE_BOOTING,
      startup_timer := some (SENSOR_BOOT_DELAY, Callback.initialise) } SENSOR_BOOT_DELAY rfl
  have hini := initialise_no_wakeup env
    { ({ ({ w4 with state := SENSOR_STATE_DISABLED, power := false } : World) with
      elements := Int.land enable MPU_9250_SENSOR_TYPE_ALL, power := true,
      state := SENSOR_STATE_BOOTING,
      startup_timer := some (SENSOR_BOOT_DELAY, Callback.initialise) } : World) with
      startup_timer := none } e (by rw [← hm] at hcfg; exact hcfg)
      (by show Int.land (Int.land enable MPU_9250_SENSOR_TYPE_ALL) MPU_9250_SENSOR_TYPE_ALL = _
          rw [he1, he3]) he2 (he4 hen)
  refine ⟨_, _, hc, ?_, hm, configure_enable_eq fuel env enable _ hen, rfl, ?_, hexp, ?_⟩
  · simp only [writesTo] at *
    show List.filter (BusEvent.isWriteTo PWR_MGMT_1) (callEvents w w4) = _
    rw [hev]
    simp [BusEvent.isWriteTo, List.filter_cons, PWR_MGMT_1, PWR_MGMT_2, MPU_SLEEP]
  · show Int.land (Int.land enable MPU_9250_SENSOR_TYPE_ALL) MPU_9250_SENSOR_TYPE_ALL ≠ 0
    rw [he1, he3]
    exact_mod_cast he4 hen
  · rw [hexp]
    exact hini

/-- C20 at a concrete input: the sensor is shut down and enabled again in the
state reached by enabling the X axis of the accelerometer.  Next to it, the first
enable from the initial state: there the first boot stage does write the wake-up
byte to `PWR_MGMT_1`. -/
theorem reenable_skips_wakeup_witness :
    enabledAccXWorld.mpu_config = 0x20 ∧
    (∃ w1 w2, configure 1 (envScript []) SENSORS_ACTIVE 0 enabledAccXWorld =
        some (SENSOR_STATE_DISABLED, w1) ∧
      configure 1 (envScript []) SENSORS_ACTIVE MPU_9250_SENSOR_TYPE_ACC_X w1 =
        some (SENSOR_STATE_BOOTING, w2) ∧
      writesTo PWR_MGMT_1 w2 (ctimer_expire (envScript []) w2) = [] ∧
      regWrites PWR_MGMT_2 w2 (ctimer_expire (envScript []) w2) = 1) ∧
    World.init.mpu_config = 0 ∧
    callEvents bootPendingWorld (ctimer_expire (envScript []) bootPendingWorld) =
      [BusEvent.select SENSOR_I2C_ADDRESS,
       BusEvent.write (some SENSOR_I2C_ADDRESS) PWR_MGMT_1 [MPU_WAKE_UP] true,
       BusEvent.write (some SENSOR_I2C_ADDRESS) PWR_MGMT_2 [ALL_AXES] true,
       BusEvent.write (some SENSOR_I2C_ADDRESS) ACCEL_CONFIG [0] true,
       BusEvent.read (some SENSOR_I2C_ADDRESS) INT_STATUS 1 true [0],
       BusEvent.deselect,
       BusEvent.select SENSOR_I2C_ADDRESS,
       BusEvent.write (some SENSOR_I2C_ADDRESS) PWR_MGMT_2 [0xDF] true,
       BusEvent.deselect] := by
  obtain ⟨w1, w2, h1, _, _, h2, _, _, _, h3, _, h4⟩ :=
    reenable_skips_wakeup 1 (envScript []) MPU_9250_SENSOR_TYPE_ACC_X enabledAccXWorld 0
      (Or.inl (by decide)) (by decide) (by decide)
      ⟨fun j hj => absurd hj (Nat.not_lt_zero j), rfl⟩ (by decide)
  exact ⟨by decide, ⟨w1, w2, h1, h2, h3, h4⟩, by decide, by decide⟩

/-! ## Lemmas on the polling loop and the calibration -/

/-- The polling loop issues no read of `DATA_SIZE` bytes, and what it leaves in
`interrupt_status` is the answer to its last register operation. -/
theorem pollLoop_events (env : Env) (fuel : Nat) :
    ∀ w w1 : World, pollLoop fuel env w = some w1 →
      ∃ evs, w1.trace = w.trace ++ evs ∧
        evs.filter (BusEvent.isReadOfLen DATA_SIZE) = [] ∧
        w.nbus < w1.nbus ∧ w1.interrupt_status = statusByte env (w1.nbus - 1) := by
  induction fuel with
  | zero => intro w w1 h; simp [pollLoop] at h
  | succ f ih =>
    intro w w1 h
    have hev : (int_status env w).2.trace = w.trace ++
        [BusEvent.select SENSOR_I2C_ADDRESS,
         BusEvent.read (some SENSOR_I2C_ADDRESS) INT_STATUS 1 (env.bus w.nbus).ok
           ((env.bus w.nbus).bytes 1), BusEvent.deselect] := by
      simp [int_status, SENSOR_SELECT, SENSOR_DESELECT, board_i2c_select, board_i2c_deselect,
        sensor_common_read_reg]
    have hnb : (int_status env w).2.nbus = w.nbus + 1 := rfl
    have hst : (int_status env w).2.interrupt_status = statusByte env w.nbus := rfl
    have hflt : List.filter (BusEvent.isReadOfLen DATA_SIZE)
        [BusEvent.select SENSOR_I2C_ADDRESS,
         BusEvent.read (some SENSOR_I2C_ADDRESS) INT_STATUS 1 (env.bus w.nbus).ok
           ((env.bus w.nbus).bytes 1), BusEvent.deselect] = [] := by
      simp [BusEvent.isReadOfLen, List.filter_cons, DATA_SIZE]
    simp only [pollLoop] at h
    split at h
    · split at h
      · obtain ⟨evs, h1, h2, h3, h4⟩ := ih _ _ h
        refine ⟨[BusEvent.select SENSOR_I2C_ADDRESS,
          BusEvent.read (some SENSOR_I2C_ADDRESS) INT_STATUS 1 (env.bus w.nbus).ok
            ((env.bus w.nbus).bytes 1), BusEvent.deselect] ++ evs, ?_, ?_, ?_, h4⟩
        · rw [h1]
          show (int_status env w).2.trace ++ evs = _
          rw [hev, List.append_assoc]
        · rw [List.filter_append, hflt, h2]
          rfl
        · have : (RTIMER_NOW env (int_status env w).2).2.nbus = w.nbus + 1 := rfl
          omega
      · injection h with h
        rw [← h]
        exact ⟨_, hev, hflt, by show w.nbus < w.nbus + 1; omega, hst⟩
    · injection h with h
      rw [← h]
      exact ⟨_, hev, hflt, by rw [hnb]; omega, hst⟩

/-- The polling loop ends at its poll number `n` when the `n` polls before it read
0 within the timeout and that one reads a nonzero status or finds the timeout
elapsed. -/
theorem pollLoop_end (env : Env) (n : Nat) :
    ∀ (w : World) (fuel : Nat), n < fuel →
      (∀ k, k < n → statusByte env (w.nbus + k) = 0 ∧ stillWaiting env w.t0 (w.nclk + k) = true) →
      (statusByte env (w.nbus + n) ≠ 0 ∨ stillWaiting env w.t0 (w.nclk + n) = false) →
      ∃ w1, pollLoop fuel env w = some w1 ∧
        w1.interrupt_status = statusByte env (w.nbus + n) ∧ w1.nbus = w.nbus + n + 1 := by
  induction n with
  | zero =>
    intro w fuel hfuel _ hend
    obtain ⟨f, rfl⟩ : ∃ f, fuel = f + 1 := ⟨fuel - 1, by omega⟩
    by_cases hs : (int_status env w).1 = 0
    · have hst : statusByte env (w.nbus + 0) = 0 := hs
      have hw : RTIMER_CLOCK_LT (RTIMER_NOW env (int_status env w).2).1
          (((RTIMER_NOW env (int_status env w).2).2.t0 + READING_WAIT_TIMEOUT) % 4294967296)
          = false := by
        rcases hend with h | h
        · exact absurd hst h
        · exact h
      refine ⟨(RTIMER_NOW env (int_status env w).2).2, ?_, rfl, rfl⟩
      simp [pollLoop, hs, hw]
    · refine ⟨(int_status env w).2, ?_, rfl, rfl⟩
      simp [pollLoop, hs]
  | succ n ih =>
    intro w fuel hfuel hzero hend
    obtain ⟨f, rfl⟩ : ∃ f, fuel = f + 1 := ⟨fuel - 1, by omega⟩
    have h0 := hzero 0 (by omega)
    have hs : (int_status env w).1 = 0 := h0.1
    have hw : RTIMER_CLOCK_LT (RTIMER_NOW env (int_status env w).2).1
        (((RTIMER_NOW env (int_status env w).2).2.t0 + READING_WAIT_TIMEOUT) % 4294967296)
        = true := h0.2
    have hnb : (RTIMER_NOW env (int_status env w).2).2.nbus = w.nbus + 1 := rfl
    have hnc : (RTIMER_NOW env (int_status env w).2).2.nclk = w.nclk + 1 := rfl
    have ht0 : (RTIMER_NOW env (int_status env w).2).2.t0 = w.t0 := rfl
    obtain ⟨w1, hp, h1, h2⟩ := ih (RTIMER_NOW env (int_status env w).2).2 f (by omega)
      (by
        intro k hk
        have := hzero (k + 1) (by omega)
        rw [hnb, hnc, ht0]
        simpa [Nat.add_assoc, Nat.add_comm 1 k] using this)
      (by
        rw [hnb, hnc, ht0]
        simpa [Nat.add_assoc, Nat.add_comm 1 n] using hend)
    refine ⟨w1, ?_, ?_, ?_⟩
    · simp only [pollLoop, hs, if_true, hw]
      exact hp
    · rw [h1, hnb]; congr 1; omega
    · rw [h2, hnb]; omega

/-- The successful path of `SensorMpu9250_magRead`: the status returned and the
values stored, for any calibration triple. -/
theorem magRead_ok (env : Env) (data : MagData) (w : World)
    (b0 b1 b2 b3 b4 b5 b6 : Nat)
    (hbypass : (env.bus w.nbus).ok = true)
    (hst1 : (env.bus (w.nbus + 1)).ok = true)
    (hrdy : statusByte env (w.nbus + 1) &&& 0x01 ≠ 0)
    (hok : (env.bus (w.nbus + 2)).ok = true)
    (hburst : (env.bus (w.nbus + 2)).bytes 7 = [b0, b1, b2, b3, b4, b5, b6])
    (hovf : b6 &&& 0x08 = 0) :
    (SensorMpu9250_magRead env data w).1 = MAG_STATUS_OK ∧
    (SensorMpu9250_magRead env data w).2.1 =
      (toInt16 ((word16 b1 b0 * w.calX) >>> (8 : Nat)),
       toInt16 ((word16 b3 b2 * w.calY) >>> (8 : Nat)),
       toInt16 ((word16 b5 b4 * w.calZ) >>> (8 : Nat))) := by
  have hrdy1 : ((env.bus (w.nbus + 1)).bytes 1)[0]?.getD 0 % 2 = 1 := by
    simpa [statusByte] using hrdy
  simp [SensorMpu9250_magRead, SENSOR_SELECT, SENSOR_DESELECT, SENSOR_SELECT_MAG,
    board_i2c_select, board_i2c_deselect, sensor_common_write_reg, sensor_common_read_reg,
    hbypass, hst1, hok, hburst, hrdy1, hovf, MAG_STATUS_OK, word16]

/-- Storing into a signed 16-bit word keeps a value exactly when it is in range. -/
theorem toInt16_eq_iff (n : Int) : toInt16 n = n ↔ -32768 ≤ n ∧ n ≤ 32767 := by
  unfold toInt16
  omega

/-- The shift by 8 is the floor of the quotient by 256. -/
theorem shift8_floor (n : Int) : n >>> (8 : Nat) = ⌊(n : ℚ) / 256⌋ := by
  rw [Int.shiftRight_eq_div_pow]
  have := Rat.floor_intCast_div_natCast n 256
  simpa using this.symm

/-- The scaled sample stays in the signed 16-bit range when the factor is in
-255..256. -/
theorem scaled_in_range (raw cal : Int) (hraw : -32768 ≤ raw ∧ raw ≤ 32767)
    (hcal : -255 ≤ cal ∧ cal ≤ 256) :
    -32768 ≤ (raw * cal) >>> (8 : Nat) ∧ (raw * cal) >>> (8 : Nat) ≤ 32767 := by
  rw [Int.shiftRight_eq_div_pow]
  have h1 : raw * cal ≤ 32767 * 256 := by
    by_cases hc : 0 ≤ cal
    · nlinarith [mul_le_mul_of_nonneg_right hraw.2 hc]
    · have hc' : 0 ≤ -cal := by omega
      nlinarith [mul_le_mul_of_nonneg_right hraw.1 hc']
  have h2 : -32768 * 256 ≤ raw * cal := by
    by_cases hc : 0 ≤ cal
    · nlinarith [mul_le_mul_of_nonneg_right hraw.1 hc]
    · have hc' : 0 ≤ -cal := by omega
      nlinarith [mul_le_mul_of_nonneg_right hraw.2 hc']
  constructor
  · have : (-32768 * 256) / 256 ≤ (raw * cal) / 256 := Int.ediv_le_ediv (by norm_num) h2
    simpa using this
  · have : (raw * cal) / 256 ≤ (32767 * 256) / 256 := Int.ediv_le_ediv (by norm_num) h1
    simpa using this

theorem acc_set_range_cal (env : Env) (n : Nat) (w : World) :
    (acc_set_range env n w).2.cal = w.cal := by
  unfold acc_set_range
  split
  · rfl
  · dsimp only
    split <;> rfl

theorem select_axes_cal (env : Env) (w : World) : (select_axes env w).cal = w.cal := by
  simp only [select_axes, World.cal, SENSOR_SELECT, SENSOR_DESELECT, board_i2c_select,
    board_i2c_deselect, sensor_common_write_reg]

theorem enable_sensor_cal (env : Env) (axes : Nat) (w : World) :
    (enable_sensor env axes w).cal = w.cal := by
  have hw : (sensor_wakeup env w).cal = w.cal := rfl
  unfold enable_sensor
  dsimp only
  split
  · rw [select_axes_cal]
    split
    · exact hw
    · rfl
  · have hs : ∀ v : World, (sensor_sleep env v).cal = v.cal := fun _ => rfl
    rw [hs]
    split
    · exact hw
    · rfl

theorem initialise_cal (env : Env) (w : World) : (initialise env w).cal = w.cal := by
  unfold initialise
  dsimp only
  have h1 : (if Int.land w.elements MPU_9250_SENSOR_TYPE_ACC ≠ 0 then
          (acc_set_range env (env.MPU_9250_SENSOR_ACC_RANGE % 256) w).2 else w).cal = w.cal := by
    split
    · exact acc_set_range_cal env _ w
    · rfl
  exact (enable_sensor_cal env _ _).trans h1

theorem pollLoop_cal (env : Env) (fuel : Nat) :
    ∀ w w1 : World, pollLoop fuel env w = some w1 → w1.cal = w.cal := by
  induction fuel with
  | zero => intro w w1 h; simp [pollLoop] at h
  | succ f ih =>
    intro w w1 h
    simp only [pollLoop] at h
    split at h
    · split at h
      · exact (ih _ _ h).trans rfl
      · injection h with h
        rw [← h]; rfl
    · injection h with h
      rw [← h]; rfl

theorem value_cal (fuel : Nat) (env : Env) (type : Int) (w : World) (r : Int × World)
    (h : value fuel env type w = some r) : r.2.cal = w.cal := by
  have ha : ∀ w3 : World, (acc_read env w3.sensor_value w3).2.2.cal = w3.cal := by
    intro w3
    unfold acc_read
    split
    · dsimp only
      split <;> rfl
    · rfl
  have hg : ∀ w3 : World, (gyro_read env w3.sensor_value w3).2.2.cal = w3.cal := by
    intro w3
    unfold gyro_read
    split
    · dsimp only
      split <;> rfl
    · rfl
  unfold value at h
  split at h
  · injection h with h; rw [← h]
  · dsimp only at h
    split at h
    · split at h
      · exact absurd h (by simp)
      · rename_i w3 hp
        have h3 := pollLoop_cal env fuel _ _ hp
        split at h <;> (injection h with h; rw [← h]; exact (ha w3).trans h3)
    · split at h
      · split at h
        · exact absurd h (by simp)
        · rename_i w3 hp
          have h3 := pollLoop_cal env fuel _ _ hp
          split at h <;> (injection h with h; rw [← h]; exact (hg w3).trans h3)
      · injection h with h; rw [← h]; rfl

theorem magRead_cal (env : Env) (data : MagData) (w : World) :
    (SensorMpu9250_magRead env data w).2.2.cal = w.cal := by
  simp only [SensorMpu9250_magRead, World.cal, SENSOR_SELECT, SENSOR_DESELECT,
    SENSOR_SELECT_MAG, board_i2c_select, board_i2c_deselect, sensor_common_write_reg,
    sensor_common_read_reg]
  split_ifs <;> rfl

theorem busyLoop_cal (env : Env) (fuel : Nat) :
    ∀ w w1 : World, busyLoop fuel env w = some w1 → w1.cal = w.cal := by
  induction fuel with
  | zero => intro w w1 h; simp [busyLoop] at h
  | succ f ih =>
    intro w w1 h
    simp only [busyLoop] at h
    split at h
    · exact (ih _ _ h).trans rfl
    · injection h with h
      rw [← h]; rfl

theorem configure_cal (fuel : Nat) (env : Env) (type enable : Int) (w : World)
    (r : Int × World) (h : configure fuel env type enable w = some r) : r.2.cal = w.cal := by
  unfold configure at h
  split at h
  · injection h with h; rw [← h]; rfl
  · split at h
    · split at h
      · injection h with h; rw [← h]; rfl
      · split at h
        · dsimp only at h
          split at h
          · exact absurd h (by simp)
          · rename_i w4 hb
            injection h with h
            rw [← h]
            exact (busyLoop_cal env fuel _ _ hb).trans rfl
        · injection h with h; rw [← h]
    · injection h with h; rw [← h]

/-- No call from outside assigns the calibration triple. -/
theorem Call.run_cal (env : Env) (c : Call) (w w1 : World) (h : c.run env w = some w1) :
    w1.cal = w.cal := by
  cases c with
  | configure fuel type enable =>
    simp only [Call.run, Option.map_eq_some'] at h
    obtain ⟨r, hr, rfl⟩ := h
    exact configure_cal fuel env type enable w r hr
  | value fuel type =>
    simp only [Call.run, Option.map_eq_some'] at h
    obtain ⟨r, hr, rfl⟩ := h
    exact value_cal fuel env type w r hr
  | status type =>
    simp only [Call.run] at h
    injection h with h
    rw [← h]
  | magRead data =>
    simp only [Call.run] at h
    injection h with h
    rw [← h]
    exact magRead_cal env data w
  | expire =>
    simp only [Call.run] at h
    injection h with h
    rw [← h]
    unfold ctimer_expire
    split
    · rfl
    · exact initialise_cal env _
    · rfl

/-- In every state reached from the initial one the calibration triple is
`(0, 0, 0)`. -/
theorem cal_zero (env : Env) (w : World) (h : Reachable env w) :
    w.calX = 0 ∧ w.calY = 0 ∧ w.calZ = 0 := by
  obtain ⟨calls, hc⟩ := h
  have := runCalls_invariant env (fun w => w.cal = (0, 0, 0)) (fun _ => True)
    (fun c w w1 _ hP h => (Call.run_cal env c w w1 h).trans hP)
    calls World.init w (fun _ _ => trivial) rfl hc
  simpa [World.cal] using this

/-- With the calibration triple `(0, 0, 0)`, a call of `SensorMpu9250_magRead`
whose bypass write succeeds and which returns `MAG_STATUS_OK` stores
`(0, 0, 0)`. -/
theorem magRead_zero (env : Env) (data : MagData) (w : World)
    (hcal : w.calX = 0 ∧ w.calY = 0 ∧ w.calZ = 0)
    (hbypass : (env.bus w.nbus).ok = true)
    (hret : (SensorMpu9250_magRead env data w).1 = MAG_STATUS_OK) :
    (SensorMpu9250_magRead env data w).2.1 = (0, 0, 0) := by
  obtain ⟨hx, hy, hz⟩ := hcal
  have hz16 : toInt16 0 = 0 := by decide
  revert hret
  simp only [SensorMpu9250_magRead, SENSOR_SELECT, SENSOR_DESELECT,
    SENSOR_SELECT_MAG, board_i2c_select, board_i2c_deselect, sensor_common_write_reg,
    sensor_common_read_reg, hbypass, hx, hy, hz, Bool.not_true, Bool.false_eq_true, if_false,
    ne_eq, not_true_eq_false]
  split_ifs <;> simp [MAG_STATUS_OK, MAG_OVERFLOW, MAG_READ_DATA_ERR, MAG_DATA_NOT_RDY,
    MAG_READ_ST_ERR, MAG_BYPASS_FAIL, hz16]

/-- The polling loop leaves the sample buffer alone. -/
theorem pollLoop_buffer (env : Env) (fuel : Nat) :
    ∀ w w1 : World, pollLoop fuel env w = some w1 → w1.sensor_value = w.sensor_value := by
  induction fuel with
  | zero => intro w w1 h; simp [pollLoop] at h
  | succ f ih =>
    intro w w1 h
    simp only [pollLoop] at h
    split at h
    · split at h
      · exact (ih _ _ h).trans rfl
      · injection h with h
        rw [← h]; rfl
    · injection h with h
      rw [← h]; rfl

/-- The error pattern over a buffer of six bytes. -/
theorem error_data_six (r : BusResp) :
    sensor_common_set_error_data (r.bytes DATA_SIZE) DATA_SIZE =
      List.replicate 6 (toUInt8 CC26XX_SENSOR_READING_ERROR) := by
  simp [sensor_common_set_error_data, BusResp.bytes, DATA_SIZE, List.range_succ,
    List.replicate]

/-- A burst read that fails on the bus: the flag, the buffer and the events of
`acc_read` and of `gyro_read`. -/
theorem read_failed (env : Env) (data : List Nat) (w : World)
    (h : w.interrupt_status &&& BIT_RAW_RDY_EN ≠ 0) (hf : (env.bus w.nbus).ok = false) :
    acc_read env data w =
      (false, List.replicate 6 (toUInt8 CC26XX_SENSOR_READING_ERROR),
        (acc_read env data w).2.2) ∧
    (acc_read env data w).2.2.trace = w.trace ++
      [BusEvent.select SENSOR_I2C_ADDRESS,
       BusEvent.read (some SENSOR_I2C_ADDRESS) ACCEL_XOUT_H DATA_SIZE false
         ((env.bus w.nbus).bytes DATA_SIZE),
       BusEvent.deselect] ∧
    gyro_read env data w =
      (false, List.replicate 6 (toUInt8 CC26XX_SENSOR_READING_ERROR),
        (gyro_read env data w).2.2) ∧
    (gyro_read env data w).2.2.trace = w.trace ++
      [BusEvent.select SENSOR_I2C_ADDRESS,
       BusEvent.read (some SENSOR_I2C_ADDRESS) GYRO_XOUT_H DATA_SIZE false
         ((env.bus w.nbus).bytes DATA_SIZE),
       BusEvent.deselect] := by
  have he := error_data_six (env.bus w.nbus)
  refine ⟨?_, ?_, ?_, ?_⟩
  · unfold acc_read
    rw [if_pos h]
    simp only [sensor_common_read_reg, SENSOR_SELECT, board_i2c_select, hf, he]
    rfl
  · unfold acc_read
    rw [if_pos h]
    simp [sensor_common_read_reg, SENSOR_SELECT, SENSOR_DESELECT, board_i2c_select,
      board_i2c_deselect, hf]
  · unfold gyro_read
    rw [if_pos h]
    simp only [sensor_common_read_reg, SENSOR_SELECT, board_i2c_select, hf, he]
    rfl
  · unfold gyro_read
    rw [if_pos h]
    simp [sensor_common_read_reg, SENSOR_SELECT, SENSOR_DESELECT, board_i2c_select,
      board_i2c_deselect, hf]

/-- What `value` returns and leaves, for a request outside Disabled, when the read
that follows the polling loop returns false: the accelerometer branch, and the
gyroscope branch when the request has no accelerometer bit. -/
theorem value_read_false_state (fuel : Nat) (env : Env) (type : Int) (w w3 : World)
    (hd : w.state ≠ SENSOR_STATE_DISABLED)
    (hp : pollLoop fuel env (pollStart env w) = some w3) :
    (Int.land type MPU_9250_SENSOR_TYPE_ACC ≠ 0 →
      (acc_read env w3.sensor_value w3).1 = false →
      value fuel env type w = some (CC26XX_SENSOR_READING_ERROR,
        { (acc_read env w3.sensor_value w3).2.2 with
          sensor_value := (acc_read env w3.sensor_value w3).2.1 })) ∧
    (¬ Int.land type MPU_9250_SENSOR_TYPE_ACC ≠ 0 →
      Int.land type MPU_9250_SENSOR_TYPE_GYRO ≠ 0 →
      (gyro_read env w3.sensor_value w3).1 = false →
      value fuel env type w = some (CC26XX_SENSOR_READING_ERROR,
        { (gyro_read env w3.sensor_value w3).2.2 with
          sensor_value := (gyro_read env w3.sensor_value w3).2.1 })) := by
  have hp' : pollLoop fuel env
      { (RTIMER_NOW env { w with sensor_value := List.replicate 6 0 }).2 with
        t0 := (RTIMER_NOW env { w with sensor_value := List.replicate 6 0 }).1 } = some w3 := hp
  constructor
  · intro h1 ha
    unfold value
    rw [if_neg hd]
    dsimp only
    rw [if_pos h1, hp']
    dsimp only
    rw [if_pos ha]
  · intro h1 h2 hg
    unfold value
    rw [if_neg hd]
    dsimp only
    rw [if_neg h1, if_pos h2, hp']
    dsimp only
    rw [if_pos hg]

/-! ## Read failure and data not ready -/

/-- C18, counterexample: in an Enabled state, a request for the X axis of the
accelerometer returns `CC26XX_SENSOR_READING_ERROR` when the data never gets ready
(status byte 0 until the timeout, no burst read), and it returns the same
`CC26XX_SENSOR_READING_ERROR` when the data is ready (status byte 1) and the
6-byte burst read fails on the bus. -/
theorem value_failure_counterexample :
    enabledAccXWorld.state = SENSOR_STATE_ENABLED ∧
    (value 20 (envScript []) MPU_9250_SENSOR_TYPE_ACC_X enabledAccXWorld).map Prod.fst =
      some CC26XX_SENSOR_READING_ERROR ∧
    (value 20 (envScript []) MPU_9250_SENSOR_TYPE_ACC_X enabledAccXWorld).map
        (fun r => (callEvents enabledAccXWorld r.2).filter (BusEvent.isReadOfLen DATA_SIZE)) =
      some [] ∧
    (value 20 envReadFails
      MPU_9250_SENSOR_TYPE_ACC_X enabledAccXWorld).map Prod.fst =
      some CC26XX_SENSOR_READING_ERROR ∧
    (value 20 envReadFails
      MPU_9250_SENSOR_TYPE_ACC_X enabledAccXWorld).map
        (fun r => (callEvents enabledAccXWorld r.2).filter (BusEvent.isReadOfLen DATA_SIZE)) =
      some [BusEvent.read (some SENSOR_I2C_ADDRESS) ACCEL_XOUT_H 6 false [0, 0, 0, 0, 0, 0]] := by
  decide

/-- C18, amended: for an accelerometer or gyroscope request in state Enabled,
after polls of the status register that read 0 within the timeout, `value`
returns `CC26XX_SENSOR_READING_ERROR` both when the poll that ends the loop has the
raw-data-ready bit clear (the status is nonzero without that bit, or the timeout
has elapsed) and when it has the bit set and the 6-byte burst read fails on the
bus: the caller gets the same result.  The two cases differ in what the caller
does not see: in the first no 6-byte read is issued and the buffer holds the
zeroes it was cleared to; in the second one 6-byte read of `ACCEL_XOUT_H` or
`GYRO_XOUT_H` is issued, with a failure, and the buffer is filled with the error
pattern. -/
theorem value_failure_same_result (env : Env) (w : World) (n fuel : Nat) (type : Int)
    (hs : w.state = SENSOR_STATE_ENABLED)
    (ht : Int.land type MPU_9250_SENSOR_TYPE_ACC ≠ 0 ∨
      Int.land type MPU_9250_SENSOR_TYPE_GYRO ≠ 0)
    (hfuel : n < fuel)
    (hwait : ∀ k, k < n → statusByte env (w.nbus + k) = 0 ∧
      stillWaiting env (env.rtimer w.nclk % 4294967296) (w.nclk + 1 + k) = true) :
    (statusByte env (w.nbus + n) &&& BIT_RAW_RDY_EN = 0 →
      (statusByte env (w.nbus + n) ≠ 0 ∨
        stillWaiting env (env.rtimer w.nclk % 4294967296) (w.nclk + 1 + n) = false) →
      ∃ w4, value fuel env type w = some (CC26XX_SENSOR_READING_ERROR, w4) ∧
        (callEvents w w4).filter (BusEvent.isReadOfLen DATA_SIZE) = [] ∧
        w4.sensor_value = List.replicate 6 0) ∧
    (statusByte env (w.nbus + n) &&& BIT_RAW_RDY_EN ≠ 0 →
      (env.bus (w.nbus + n + 1)).ok = false →
      ∃ w4, value fuel env type w = some (CC26XX_SENSOR_READING_ERROR, w4) ∧
        (∃ reg, (reg = ACCEL_XOUT_H ∨ reg = GYRO_XOUT_H) ∧
          (callEvents w w4).filter (BusEvent.isReadOfLen DATA_SIZE) =
            [BusEvent.read (some SENSOR_I2C_ADDRESS) reg DATA_SIZE false
              ((env.bus (w.nbus + n + 1)).bytes DATA_SIZE)]) ∧
        w4.sensor_value = List.replicate 6 (toUInt8 CC26XX_SENSOR_READING_ERROR)) := by
  have hd : w.state ≠ SENSOR_STATE_DISABLED := by rw [hs]; exact state_codes.2.1
  constructor
  · intro hclear hend
    obtain ⟨w3, hp, hi, _⟩ := pollLoop_end env n (pollStart env w) fuel hfuel hwait hend
    obtain ⟨evs, he1, he2, _, _⟩ := pollLoop_events env fuel _ _ hp
    have hbuf : w3.sensor_value = List.replicate 6 0 := pollLoop_buffer env fuel _ _ hp
    have hc : w3.interrupt_status &&& BIT_RAW_RDY_EN = 0 := by rw [hi]; exact hclear
    obtain ⟨ha, hg⟩ := (read_failures env w3.sensor_value w3).1 hc
    have hv := value_read_false_state fuel env type w w3 hd hp
    have htr : w3.trace = w.trace ++ evs := he1
    by_cases h1 : Int.land type MPU_9250_SENSOR_TYPE_ACC ≠ 0
    · refine ⟨_, hv.1 h1 (by rw [ha]), ?_, ?_⟩
      · rw [ha]
        simp only [callEvents, htr, List.drop_left]
        exact he2
      · rw [ha]
        exact hbuf
    · refine ⟨_, hv.2 h1 (ht.resolve_left h1) (by rw [hg]), ?_, ?_⟩
      · rw [hg]
        simp only [callEvents, htr, List.drop_left]
        exact he2
      · rw [hg]
        exact hbuf
  · intro hrdy hfail
    obtain ⟨w3, hp, hi, hnb⟩ := pollLoop_end env n (pollStart env w) fuel hfuel hwait
      (Or.inl (status_ne_zero hrdy))
    obtain ⟨evs, he1, he2, _, _⟩ := pollLoop_events env fuel _ _ hp
    have hc : w3.interrupt_status &&& BIT_RAW_RDY_EN ≠ 0 := by rw [hi]; exact hrdy
    have hnb' : w3.nbus = w.nbus + n + 1 := hnb
    have hf : (env.bus w3.nbus).ok = false := by rw [hnb']; exact hfail
    obtain ⟨ha, hat, hg, hgt⟩ := read_failed env w3.sensor_value w3 hc hf
    have hv := value_read_false_state fuel env type w w3 hd hp
    have htr : w3.trace = w.trace ++ evs := he1
    by_cases h1 : Int.land type MPU_9250_SENSOR_TYPE_ACC ≠ 0
    · refine ⟨_, hv.1 h1 (by rw [ha]), ⟨ACCEL_XOUT_H, Or.inl rfl, ?_⟩, ?_⟩
      · show List.filter _ (callEvents w (acc_read env w3.sensor_value w3).2.2) = _
        simp only [callEvents, hat, htr, List.append_assoc, List.drop_left, List.filter_append,
          he2, hnb']
        simp [BusEvent.isReadOfLen, List.filter_cons]
      · show (acc_read env w3.sensor_value w3).2.1 = _
        rw [ha]
    · refine ⟨_, hv.2 h1 (ht.resolve_left h1) (by rw [hg]), ⟨GYRO_XOUT_H, Or.inr rfl, ?_⟩, ?_⟩
      · show List.filter _ (callEvents w (gyro_read env w3.sensor_value w3).2.2) = _
        simp only [callEvents, hgt, htr, List.append_assoc, List.drop_left, List.filter_append,
          he2, hnb']
        simp [BusEvent.isReadOfLen, List.filter_cons]
      · show (gyro_read env w3.sensor_value w3).2.1 = _
        rw [hg]

/-- C18 at a concrete input: a request for the X axis of the accelerometer in
the state reached by enabling it.  On a bus that reports the data ready at the
first poll and then fails the burst read it returns the error value after one
failed read of `ACCEL_XOUT_H`; on a bus whose status reads 0 at every poll it
returns the same error value after ten polls and no burst read. -/
theorem value_failure_same_result_witness :
    (∃ w4, value 20 envReadFails MPU_9250_SENSOR_TYPE_ACC_X enabledAccXWorld =
        some (CC26XX_SENSOR_READING_ERROR, w4) ∧
      (∃ reg, (reg = ACCEL_XOUT_H ∨ reg = GYRO_XOUT_H) ∧
        (callEvents enabledAccXWorld w4).filter (BusEvent.isReadOfLen DATA_SIZE) =
          [BusEvent.read (some SENSOR_I2C_ADDRESS) reg DATA_SIZE false
            ((envReadFails.bus (enabledAccXWorld.nbus + 0 + 1)).bytes DATA_SIZE)]) ∧
      w4.sensor_value = List.replicate 6 (toUInt8 CC26XX_SENSOR_READING_ERROR)) ∧
    (∃ w4, value 20 (envScript []) MPU_9250_SENSOR_TYPE_ACC_X enabledAccXWorld =
        some (CC26XX_SENSOR_READING_ERROR, w4) ∧
      (callEvents enabledAccXWorld w4).filter (BusEvent.isReadOfLen DATA_SIZE) = [] ∧
      w4.sensor_value = List.replicate 6 0) :=
  ⟨(value_failure_same_result envReadFails enabledAccXWorld 0 20 MPU_9250_SENSOR_TYPE_ACC_X
      (by decide) (Or.inl (by decide)) (by decide) (by decide)).2 (by decide) (by decide),
   (value_failure_same_result (envScript []) enabledAccXWorld 9 20 MPU_9250_SENSOR_TYPE_ACC_X
      (by decide) (Or.inl (by decide)) (by decide) (by decide)).1 (by decide)
      (Or.inr (by decide))⟩

/-! ## Polling that never sees the data ready -/

/-- C21, counterexample: in an Enabled state, a request for the X axis of the
accelerometer on a bus whose status register reads 0 at every poll returns
`CC26XX_SENSOR_READING_ERROR` after ten polls, when the timeout has elapsed; the
register operations of the call are those ten one-byte reads of `INT_STATUS`, and
no 6-byte read of `ACCEL_XOUT_H` is among them. -/
theorem value_not_ready_counterexample :
    enabledAccXWorld.state = SENSOR_STATE_ENABLED ∧
    (value 20 (envScript []) MPU_9250_SENSOR_TYPE_ACC_X enabledAccXWorld).map
        (fun r => (r.1, (callEvents enabledAccXWorld r.2).filter BusEvent.isRegOp)) =
      some (CC26XX_SENSOR_READING_ERROR,
        List.replicate 10 (BusEvent.read (some SENSOR_I2C_ADDRESS) INT_STATUS 1 true [0])) ∧
    (value 20 (envScript []) MPU_9250_SENSOR_TYPE_ACC_X enabledAccXWorld).map
        (fun r => (callEvents enabledAccXWorld r.2).filter (BusEvent.isReadOfLen DATA_SIZE)) =
      some [] := by
  decide

/-- C21, amended: in state Enabled, when the polls of the interrupt-status
register read 0 until one of them ends the loop with the raw-data-ready bit still
clear, because the timeout has elapsed or because the status is nonzero, `value`
returns `CC26XX_SENSOR_READING_ERROR` for an accelerometer or gyroscope request and
issues no 6-byte burst read: the read is gated on the raw-data-ready bit of the
last status read. -/
theorem value_not_ready_no_burst (env : Env) (w : World) (n fuel : Nat) (type : Int)
    (hs : w.state = SENSOR_STATE_ENABLED)
    (ht : Int.land type MPU_9250_SENSOR_TYPE_ACC ≠ 0 ∨
      Int.land type MPU_9250_SENSOR_TYPE_GYRO ≠ 0)
    (hfuel : n < fuel)
    (hwait : ∀ k, k < n → statusByte env (w.nbus + k) = 0 ∧
      stillWaiting env (env.rtimer w.nclk % 4294967296) (w.nclk + 1 + k) = true)
    (hclear : statusByte env (w.nbus + n) &&& BIT_RAW_RDY_EN = 0)
    (hend : statusByte env (w.nbus + n) ≠ 0 ∨
      stillWaiting env (env.rtimer w.nclk % 4294967296) (w.nclk + 1 + n) = false) :
    ∃ w4, value fuel env type w = some (CC26XX_SENSOR_READING_ERROR, w4) ∧
      (callEvents w w4).filter (BusEvent.isReadOfLen DATA_SIZE) = [] := by
  have hd : w.state ≠ SENSOR_STATE_DISABLED := by rw [hs]; exact state_codes.2.1
  obtain ⟨w3, hp, hi, _⟩ := pollLoop_end env n (pollStart env w) fuel hfuel hwait hend
  obtain ⟨evs, he1, he2, _, _⟩ := pollLoop_events env fuel _ _ hp
  have hc : w3.interrupt_status &&& BIT_RAW_RDY_EN = 0 := by rw [hi]; exact hclear
  obtain ⟨ha, hg⟩ := (read_failures env w3.sensor_value w3).1 hc
  obtain ⟨w4, hv, htr⟩ := value_read_false fuel env type w w3 hd ht hp
    (by rw [ha]) (by rw [hg])
  refine ⟨w4, hv, ?_⟩
  rw [ha, hg] at htr
  have h4 : w4.trace = w.trace ++ evs := by
    have : w4.trace = w3.trace := by
      rcases htr with h | h <;> exact h
    rw [this, he1]
    rfl
  simp only [callEvents, h4, List.drop_left]
  exact he2

/-- C21 at a concrete input: a request for the X axis of the accelerometer in the
state reached by enabling it, on a bus whose status register reads 0 at every
poll; the tenth poll finds the timeout elapsed. -/
theorem value_not_ready_no_burst_witness :
    ∃ w4, value 20 (envScript []) MPU_9250_SENSOR_TYPE_ACC_X enabledAccXWorld =
        some (CC26XX_SENSOR_READING_ERROR, w4) ∧
      (callEvents enabledAccXWorld w4).filter (BusEvent.isReadOfLen DATA_SIZE) = [] :=
  value_not_ready_no_burst (envScript []) enabledAccXWorld 9 20 MPU_9250_SENSOR_TYPE_ACC_X
    (by decide) (Or.inl (by decide)) (by decide) (by decide) (by decide) (Or.inr (by decide))

/-! ## The sensitivity adjustment of the magnetometer -/

/-- C22, counterexample: with the calibration factor 383 and the raw sample 32767
(burst bytes `FF 7F`), `SensorMpu9250_magRead` returns `MAG_STATUS_OK` and stores
-16514 for the X axis, whereas `(32767 * 383) >> 8` is 49022: the value wraps
around in the signed 16-bit word. -/
theorem magRead_scaling_counterexample :
    maxCalWorld.calX = 383 ∧ word16 0x7F 0xFF = 32767 ∧
    (SensorMpu9250_magRead
      (envScript [⟨true, []⟩, ⟨true, [0x01]⟩, ⟨true, [0xFF, 0x7F, 0, 0, 0, 0, 0x10]⟩])
      (0, 0, 0) maxCalWorld).1 = MAG_STATUS_OK ∧
    (SensorMpu9250_magRead
      (envScript [⟨true, []⟩, ⟨true, [0x01]⟩, ⟨true, [0xFF, 0x7F, 0, 0, 0, 0, 0x10]⟩])
      (0, 0, 0) maxCalWorld).2.1 = (-16514, 0, 0) ∧
    ((32767 * 383 : Int) >>> (8 : Nat)) = 49022 ∧ scaledSpec 32767 383 = 49022 := by
  refine ⟨by decide, by decide, by decide, by decide, by decide, ?_⟩
  unfold scaledSpec
  rw [← shift8_floor]
  decide

/-- C22, amended: on an Ok read, for every raw sample and every calibration
factor, the value `SensorMpu9250_magRead` stores is `(raw * cal) >> 8`, that is
`floor(raw * cal / 256)`, converted to a signed 16-bit word: it equals
`floor(raw * cal / 256)` exactly when that value lies in -32768..32767.  It does
for every signed 16-bit raw sample when the factor is in -255..256, and so for
the factors 128..256 of the datasheet range; for every factor above 256, and so
for the factors 257..383 of the datasheet range, the raw sample 32767 wraps
around, and for every factor below -255 the raw sample -32768 does. -/
theorem magRead_scaling_wraps (env : Env) (data : MagData) (w : World)
    (b0 b1 b2 b3 b4 b5 b6 : Nat)
    (hbypass : (env.bus w.nbus).ok = true)
    (hst1 : (env.bus (w.nbus + 1)).ok = true)
    (hrdy : statusByte env (w.nbus + 1) &&& 0x01 ≠ 0)
    (hok : (env.bus (w.nbus + 2)).ok = true)
    (hburst : (env.bus (w.nbus + 2)).bytes 7 = [b0, b1, b2, b3, b4, b5, b6])
    (hovf : b6 &&& 0x08 = 0) :
    (SensorMpu9250_magRead env data w).1 = MAG_STATUS_OK ∧
    (SensorMpu9250_magRead env data w).2.1 =
      (toInt16 (scaledSpec (word16 b1 b0) w.calX),
       toInt16 (scaledSpec (word16 b3 b2) w.calY),
       toInt16 (scaledSpec (word16 b5 b4) w.calZ)) ∧
    (∀ raw cal : Int, scaledSpec raw cal = (raw * cal) >>> (8 : Nat)) ∧
    (∀ raw cal : Int, toInt16 (scaledSpec raw cal) = scaledSpec raw cal ↔
      -32768 ≤ scaledSpec raw cal ∧ scaledSpec raw cal ≤ 32767) ∧
    (∀ raw cal : Int, -32768 ≤ raw ∧ raw ≤ 32767 → -255 ≤ cal ∧ cal ≤ 256 →
      toInt16 (scaledSpec raw cal) = scaledSpec raw cal) ∧
    (∀ cal : Int, 257 ≤ cal →
      toInt16 (scaledSpec 32767 cal) ≠ scaledSpec 32767 cal) ∧
    (∀ cal : Int, cal ≤ -256 →
      toInt16 (scaledSpec (-32768) cal) ≠ scaledSpec (-32768) cal) := by
  have hs : ∀ raw cal : Int, scaledSpec raw cal = (raw * cal) >>> (8 : Nat) := by
    intro raw cal
    unfold scaledSpec
    rw [shift8_floor]
  obtain ⟨h1, h2⟩ := magRead_ok env data w b0 b1 b2 b3 b4 b5 b6 hbypass hst1 hrdy hok hburst hovf
  refine ⟨h1, ?_, hs, fun raw cal => toInt16_eq_iff _, ?_, ?_, ?_⟩
  · rw [h2, hs, hs, hs]
  · intro raw cal hraw hcal
    rw [toInt16_eq_iff, hs]
    exact scaled_in_range raw cal hraw hcal
  · intro cal hcal h
    rw [toInt16_eq_iff, hs, Int.shiftRight_eq_div_pow] at h
    have h2 : (32767 * cal) / 256 ≤ 32767 := by simpa using h.2
    omega
  · intro cal hcal h
    rw [toInt16_eq_iff, hs, Int.shiftRight_eq_div_pow] at h
    have h2 : (-32768 * cal) / 256 ≤ 32767 := by simpa using h.2
    omega

/-- C22 at a concrete input: the burst `34 12 FF FF 00 80 10` with the
calibration triple `(256, 256, 256)`. -/
theorem magRead_scaling_wraps_witness :
    (SensorMpu9250_magRead
      (envScript [⟨true, []⟩, ⟨true, [0x01]⟩, ⟨true, [0x34, 0x12, 0xFF, 0xFF, 0x00, 0x80, 0x10]⟩])
      (0, 0, 0) calibratedWorld).2.1 =
      (toInt16 (scaledSpec (word16 0x12 0x34) 256),
       toInt16 (scaledSpec (word16 0xFF 0xFF) 256),
       toInt16 (scaledSpec (word16 0x80 0x00) 256)) :=
  (magRead_scaling_wraps
    (envScript [⟨true, []⟩, ⟨true, [0x01]⟩, ⟨true, [0x34, 0x12, 0xFF, 0xFF, 0x00, 0x80, 0x10]⟩])
    (0, 0, 0) calibratedWorld 0x34 0x12 0xFF 0xFF 0x00 0x80 0x10
    rfl rfl (by decide) rfl rfl (by decide)).2.1

/-! ## The calibration triple -/

/-- C23: in every state reached from the initial one the calibration triple is
`(0, 0, 0)`.  A call of `SensorMpu9250_magRead` there that returns
`MAG_STATUS_OK` stores `(0, 0, 0)` when its bypass write has succeeded; when the
bypass write fails the call returns 0, which is `MAG_STATUS_OK`, as well, and the
buffer is what it was. -/
theorem magRead_zero_calibration (env : Env) (data : MagData) (w : World)
    (hr : Reachable env w) :
    w.calX = 0 ∧ w.calY = 0 ∧ w.calZ = 0 ∧
    ((env.bus w.nbus).ok = true →
      (SensorMpu9250_magRead env data w).1 = MAG_STATUS_OK →
      (SensorMpu9250_magRead env data w).2.1 = (0, 0, 0)) ∧
    ((env.bus w.nbus).ok = false →
      (SensorMpu9250_magRead env data w).1 = MAG_STATUS_OK ∧
      (SensorMpu9250_magRead env data w).2.1 = data) := by
  have hc := cal_zero env w hr
  refine ⟨hc.1, hc.2.1, hc.2.2, fun hb hret => magRead_zero env data w hc hb hret, ?_⟩
  intro hfail
  simp [SensorMpu9250_magRead, SENSOR_SELECT, SENSOR_DESELECT, board_i2c_select,
    board_i2c_deselect, sensor_common_write_reg, hfail, MAG_BYPASS_FAIL, MAG_STATUS_OK]

/-- C23 at a concrete input: the state reached by enabling the X axis of the
accelerometer.  A magnetometer read with the burst `34 12 FF FF 00 80 10` returns
`MAG_STATUS_OK` and stores `(0, 0, 0)`; a read whose bypass write fails returns 0
with the buffer `(1, 2, 3)` untouched. -/
theorem magRead_zero_calibration_witness :
    runCalls envMagRead enableAccX World.init = some enabledAccXWorld ∧
    (SensorMpu9250_magRead envMagRead (1, 2, 3) enabledAccXWorld).1 = MAG_STATUS_OK ∧
    (SensorMpu9250_magRead envMagRead (1, 2, 3) enabledAccXWorld).2.1 = (0, 0, 0) ∧
    (SensorMpu9250_magRead (envScript [⟨false, []⟩]) (1, 2, 3) World.init).1 = MAG_STATUS_OK ∧
    (SensorMpu9250_magRead (envScript [⟨false, []⟩]) (1, 2, 3) World.init).2.1 = (1, 2, 3) :=
  ⟨rfl, by decide,
    (magRead_zero_calibration envMagRead (1, 2, 3) enabledAccXWorld ⟨enableAccX, rfl⟩).2.2.2.1
      (by decide) (by decide),
    ((magRead_zero_calibration (envScript [⟨false, []⟩]) (1, 2, 3) World.init ⟨[], rfl⟩).2.2.2.2
      (by decide)).1,
    ((magRead_zero_calibration (envScript [⟨false, []⟩]) (1, 2, 3) World.init ⟨[], rfl⟩).2.2.2.2
      (by decide)).2⟩

/-! ## The range register -/

/-- C24: `acc_set_range(n)` with `n` one of the four ranges leaves the state as
it is when `n` is the cached range, and sets both `acc_range = n` and
`acc_range_reg = n << 3` when its write succeeds.  When its write fails,
`acc_range` keeps the old range but `acc_range_reg` is already `n << 3`: the
relation `acc_range_reg == acc_range << 3` is broken, `acc_convert` goes on with
the old range, and the byte a following `sensor_wakeup` writes to `ACCEL_CONFIG`
is `n << 3`, the code of the range that was not cached. -/
theorem acc_set_range_relation (env : Env) (w : World) (n : Nat) (hn3 : n ≤ 3) :
    (n = w.acc_range → (acc_set_range env n w).2 = w) ∧
    (n ≠ w.acc_range → (env.bus w.nbus).ok = true →
      (acc_set_range env n w).2.acc_range = n ∧
      (acc_set_range env n w).2.acc_range_reg = n <<< 3) ∧
    (n ≠ w.acc_range → (env.bus w.nbus).ok = false →
      (acc_set_range env n w).2.acc_range = w.acc_range ∧
      (acc_set_range env n w).2.acc_range_reg = n <<< 3 ∧
      (acc_set_range env n w).2.acc_range_reg ≠ (acc_set_range env n w).2.acc_range <<< 3 ∧
      (∀ raw : Int, acc_convert (acc_set_range env n w).2 raw = acc_convert w raw) ∧
      writesTo ACCEL_CONFIG (acc_set_range env n w).2
          (sensor_wakeup env (acc_set_range env n w).2) =
        [BusEvent.write (some SENSOR_I2C_ADDRESS) ACCEL_CONFIG [n <<< 3]
          (env.bus (w.nbus + 3)).ok]) := by
  have h8 : toUInt8 ((n <<< 3 : Nat) : Int) = n <<< 3 := by
    apply toUInt8_small
    rw [Nat.shiftLeft_eq]
    omega
  refine ⟨?_, ?_, ?_⟩
  · intro h
    simp [acc_set_range, h]
  · intro h hok
    simp [acc_set_range, h, hok, h8, SENSOR_SELECT, SENSOR_DESELECT, board_i2c_select,
      board_i2c_deselect, sensor_common_write_reg]
  · intro h hfail
    have hne : n <<< 3 ≠ w.acc_range <<< 3 := by
      rw [Nat.shiftLeft_eq, Nat.shiftLeft_eq]
      omega
    simp [acc_set_range, h, hfail, h8, hne, SENSOR_SELECT, SENSOR_DESELECT, board_i2c_select,
      board_i2c_deselect, sensor_common_write_reg, sensor_common_read_reg, acc_convert,
      writesTo, callEvents, sensor_wakeup, BusEvent.isWriteTo, List.filter_cons,
      PWR_MGMT_1, PWR_MGMT_2, ACCEL_CONFIG, Nat.add_assoc]

/-- C24 at a concrete input: in the initial state, where the relation holds,
`acc_set_range(ACC_RANGE_8G)` with a failing write leaves `acc_range` at 2G and
`acc_range_reg` at 0x10.  So does the first boot stage of a build whose range is
8G when that write fails: the wake-up that follows writes 0x10 to `ACCEL_CONFIG`
while the cached range stays 2G. -/
theorem acc_set_range_relation_witness :
    World.init.acc_range_reg = World.init.acc_range <<< 3 ∧
    (acc_set_range (envScript [⟨false, []⟩]) ACC_RANGE_8G World.init).2.acc_range
      = ACC_RANGE_2G ∧
    (acc_set_range (envScript [⟨false, []⟩]) ACC_RANGE_8G World.init).2.acc_range_reg = 0x10 ∧
    (runCalls env8G [Call.configure 1 SENSORS_ACTIVE MPU_9250_SENSOR_TYPE_ACC_X, Call.expire]
      World.init).map (fun w => (w.acc_range, w.acc_range_reg, writesTo ACCEL_CONFIG World.init w))
      = some (ACC_RANGE_2G, 0x10,
        [BusEvent.write (some SENSOR_I2C_ADDRESS) ACCEL_CONFIG [0x10] false,
         BusEvent.write (some SENSOR_I2C_ADDRESS) ACCEL_CONFIG [0x10] true]) :=
  ⟨by decide,
    ((acc_set_range_relation (envScript [⟨false, []⟩]) World.init ACC_RANGE_8G (by decide)).2.2
      (by decide) (by decide)).1,
    ((acc_set_range_relation (envScript [⟨false, []⟩]) World.init ACC_RANGE_8G (by decide)).2.2
      (by decide) (by decide)).2.1,
    by decide⟩

/-! ## An enable request in any state -/

/-- C25: for every prior state, Enabled included, `configure(SENSORS_ACTIVE, axes)`
with an accelerometer or gyroscope bit in `axes` returns Booting and leaves the
state Booting, the axis set `axes & MPU_9250_SENSOR_TYPE_ALL`, the power latch set
and the first boot stage pending after the boot delay, in place of whatever was
pending.  The state is then not Enabled, stays so when the boot-delay timer fires,
and is Enabled again when the startup-delay timer has fired as well. -/
theorem configure_enable_any_state (fuel : Nat) (env : Env) (axes : Int) (w : World)
    (hen : Int.land axes MPU_9250_SENSOR_TYPE_ACC ≠ 0 ∨
      Int.land axes MPU_9250_SENSOR_TYPE_GYRO ≠ 0) :
    ∃ w1, configure fuel env SENSORS_ACTIVE axes w = some (SENSOR_STATE_BOOTING, w1) ∧
      w1.state = SENSOR_STATE_BOOTING ∧
      w1.elements = Int.land axes MPU_9250_SENSOR_TYPE_ALL ∧
      w1.power = true ∧
      w1.startup_timer = some (SENSOR_BOOT_DELAY, Callback.initialise) ∧
      w1.state ≠ SENSOR_STATE_ENABLED ∧
      (ctimer_expire env w1).state ≠ SENSOR_STATE_ENABLED ∧
      (ctimer_expire env (ctimer_expire env w1)).state = SENSOR_STATE_ENABLED := by
  have hb := boot_stages env
    { w with elements := Int.land axes MPU_9250_SENSOR_TYPE_ALL, power := true,
             state := SENSOR_STATE_BOOTING,
             startup_timer := some (SENSOR_BOOT_DELAY, Callback.initialise) }
    SENSOR_BOOT_DELAY rfl
  refine ⟨_, configure_enable_eq fuel env axes w hen, rfl, rfl, rfl, rfl, ?_, ?_, hb.2.2.2.1⟩
  · exact fun h => state_codes.2.2 h.symm
  · rw [hb.1]
    exact fun h => state_codes.2.2 h.symm

/-- C25 at a concrete input: an enable request for the X axis of the gyroscope
in the Enabled state reached by enabling the X axis of the accelerometer. -/
theorem configure_enable_any_state_witness :
    enabledAccXWorld.state = SENSOR_STATE_ENABLED ∧
    ∃ w1, configure 1 (envScript []) SENSORS_ACTIVE MPU_9250_SENSOR_TYPE_GYRO_X
        enabledAccXWorld = some (SENSOR_STATE_BOOTING, w1) ∧
      w1.state = SENSOR_STATE_BOOTING ∧
      w1.elements = Int.land MPU_9250_SENSOR_TYPE_GYRO_X MPU_9250_SENSOR_TYPE_ALL ∧
      w1.power = true ∧
      w1.startup_timer = some (SENSOR_BOOT_DELAY, Callback.initialise) ∧
      w1.state ≠ SENSOR_STATE_ENABLED ∧
      (ctimer_expire (envScript []) w1).state ≠ SENSOR_STATE_ENABLED ∧
      (ctimer_expire (envScript []) (ctimer_expire (envScript []) w1)).state =
        SENSOR_STATE_ENABLED :=
  ⟨by decide, configure_enable_any_state 1 (envScript []) MPU_9250_SENSOR_TYPE_GYRO_X
    enabledAccXWorld (Or.inr (by decide))⟩

end Mpu9250
